import Mathlib

/-!
# Opt examples: the shape-from-shading patch solver front end and the ARAP combined solver

A shallow embedding of

* `Examples/ShapeFromShading/Cuda/PatchSolverSFS/CUDAPatchSolverSFS.cpp`
  (constructor, `maybeInitOptimizerAndPlan`, `resetPlan`, `constructTerraInput`,
  `solveSFS`), and
* `examples/arap_mesh_deformation/src/CombinedSolver.h` (the outer loop of `solve`,
  `setConstraints`, `resetGPUMemory`, `preSingleSolve`).

Conventions of the embedding.

* `float` is an arbitrary carrier `F` with the operations the code applies to it
  (`+`, `-`, `*`, unary minus, `/`, conversion from `unsigned int`); nothing is assumed
  about these operations, so every statement made for all `F` holds for IEEE single
  precision too. Concrete evaluations instantiate `F` with `Int`, at values that single
  precision represents exactly. Statements about the order or the exact value of
  computed floats (the interpolation factors, the blend at `alpha = 0` and `alpha = 1`)
  are made for `Single`: the finite single-precision values with every conversion and
  operation rounded to nearest, ties to even. Infinities, NaN, the sign of zero and the
  bounds of the exponent are outside `Single`.
* `unsigned int` is `Nat`. The only arithmetic on dimensions is the product
  `width*height`, which also sizes the buffers allocated by the constructor; it is taken
  without wrap-around, so images of `2^32` elements and more are outside the embedding.
* A device pointer is modelled by the contents of the buffer it points to; a
  pointer handed in by the caller may be `NULL`, which is `none`.
* Routines that are declared in the file but defined elsewhere (`extern "C"` kernels,
  `CUDAScan::prefixSum`, `Optimizer::solve`) are the fields of `Externs`; `solveSFS`
  is parametric in them. The calls to them are recorded in a trace, in program order.
* A call through a pointer that holds no object is recorded in the trace; in
  `CombinedSolver::solve` and in `resetPlan` nothing runs after it.
-/

namespace SFS

/-! ## Data model -/

/-- Camera intrinsics `CameraParams` as read by the constructor and by
`TerraSolverParameters`. -/
structure CameraParams (F : Type) where
  fx : F
  fy : F
  ux : F
  uy : F
deriving DecidableEq, Repr

/-- The fields of `PatchSolverInput` that the file reads or writes. -/
structure PatchSolverInput (F : Type) where
  N : Nat
  width : Nat
  height : Nat
  d_remapArray : Option (List Int)
  calibparams : CameraParams F
  d_targetIntensity : Option (List F)
  d_targetDepth : Option (List F)
  d_depthMapRefinedLastFrameFloat : Option (List F)
  d_maskEdgeMap : Option (List Nat)
  d_litcoeff : Option (List F)
  d_albedo : Option (List F)
  deltaTransform : List F
  m_useRemapping : Bool
deriving DecidableEq, Repr

/-- The fields of `PatchSolverState`: the unknown field `d_x` and the two scratch buffers. -/
structure PatchSolverState (F : Type) where
  d_x : Option (List F)
  d_delta : List F
  d_residual : List F
deriving DecidableEq, Repr

/-- The fields of `PatchSolverParameters` assigned by `solveSFS`. -/
structure PatchSolverParameters (F : Type) where
  weightFitting : F
  weightShadingStart : F
  weightShadingIncrement : F
  weightShading : F
  weightRegularizer : F
  weightBoundary : F
  weightPrior : F
  nNonLinearIterations : Nat
  nLinIterations : Nat
  nPatchIterations : Nat
deriving DecidableEq, Repr

/-- An `Optimizer` after `new Optimizer()` and `defineProblem(terraFile, solverName)`. -/
structure Optimizer where
  terraFile : String
  solverName : String
deriving DecidableEq, Repr

/-- A `Plan` as returned by `planProblem(width, height, elemsize)`; `plannedByAD` tells
which of the two static optimizers planned it. -/
structure Plan where
  plannedByAD : Bool
  width : Nat
  height : Nat
  elemsize : List Nat
deriving DecidableEq, Repr

/-- The two static members `s_optimizerNoAD` and `s_optimizerAD` (both start as `NULL`). -/
structure Statics where
  s_optimizerNoAD : Option Optimizer
  s_optimizerAD : Option Optimizer
deriving DecidableEq, Repr

/-- The fields of `GlobalAppState::get()` read by `solveSFS`. -/
structure GlobalAppState where
  s_convergenceAnalysisIsRunning : Bool
  s_playData : Bool
  s_optimizer : Int
  s_useBlockSolver : Bool
deriving DecidableEq, Repr

/-- One instance of `CUDAPatchSolverSFS`. -/
structure CUDAPatchSolverSFS (F : Type) where
  m_imageWidth : Nat
  m_imageHeight : Nat
  m_level : Nat
  m_planAD : Option Plan
  m_planNoAD : Option Plan
  d_decissionArrayDepthMask : List Int
  d_prefixSumDepthMask : List Int
  d_remappingArrayDepthMask : List Int
  m_solverInput : PatchSolverInput F
  m_solverState : PatchSolverState F
deriving DecidableEq, Repr

/-- Values of `enum SolveMode {TERRA_NO_AD, TERRA_AD, CUDA}`: the enumerators in
declaration order are 0, 1 and 2. -/
abbrev SolveMode := Nat

def SolveMode.TERRA_NO_AD : SolveMode := 0
def SolveMode.TERRA_AD : SolveMode := 1
def SolveMode.CUDA : SolveMode := 2

/-- `struct TerraSolverParameters`, fields in declaration order. -/
structure TerraSolverParameters (F : Type) where
  weightFitting : F
  weightRegularizer : F
  weightPrior : F
  weightShading : F
  weightShadingStart : F
  weightShadingIncrement : F
  weightBoundary : F
  fx : F
  fy : F
  ux : F
  uy : F
  deltaTransform : List F
  lightingCoefficients : List F
  nNonLinearIterations : Nat
  nLinIterations : Nat
  nPatchIterations : Nat
deriving DecidableEq, Repr

/-- The constructor `TerraSolverParameters(p, cameraParams, deltaTransformPtr, d_lightCoeffs)`:
the initialiser list, then the copy of 9 lighting coefficients from `d_lightCoeffs`. The
source makes the copy under `CUDA_SAFE_CALL`; the embedding follows it for a buffer that
holds the 9 floats (`readsLighting`), and what the macro does when the copy fails is not
modelled: the statements on the DSL calls that depend on it are made for such buffers. -/
def TerraSolverParameters.mk_from {F : Type} (p : PatchSolverParameters F)
    (cameraParams : CameraParams F) (deltaTransformPtr : List F)
    (d_lightCoeffs : Option (List F)) : TerraSolverParameters F :=
  { weightFitting := p.weightFitting
    weightRegularizer := p.weightRegularizer
    weightPrior := p.weightPrior
    weightShading := p.weightShading
    weightShadingStart := p.weightShadingStart
    weightShadingIncrement := p.weightShadingIncrement
    weightBoundary := p.weightBoundary
    fx := cameraParams.fx
    fy := cameraParams.fy
    ux := cameraParams.ux
    uy := cameraParams.uy
    deltaTransform := deltaTransformPtr.take 16
    lightingCoefficients := (d_lightCoeffs.getD []).take 9
    nNonLinearIterations := p.nNonLinearIterations
    nLinIterations := p.nLinIterations
    nPatchIterations := p.nPatchIterations }

/-- `struct TerraSolverParameterPointers`: each pointer is kept as its offset from `&p`,
counted in 4-byte words. -/
structure TerraSolverParameterPointers where
  floatPointers : List Nat
  uintPointers : List Nat
deriving DecidableEq, Repr

/-- The constructor `TerraSolverParameterPointers(p)`: `floatPointers[i] = ((float*)&p) + i`
for `i < 36`, `uintPointers[i] = (unsigned int*)(floatPointers[35] + 1) + i` for `i < 3`. -/
def TerraSolverParameterPointers.mk_from : TerraSolverParameterPointers :=
  let floatPointers := (List.range 36).map (fun i => 0 + i)
  { floatPointers := floatPointers
    uintPointers := (List.range 3).map (fun i => (floatPointers.getD 35 0 + 1) + i) }

/-- An entry of the `std::vector<void*> images` handed to the DSL solver. -/
inductive Image (F : Type) where
  | floats (buf : Option (List F))
  | bytes (buf : Option (List Nat))
deriving DecidableEq, Repr

/-- The arguments of `solveSFS`, in the order of its parameter list. -/
structure SolveArgs (F : Type) where
  d_targetDepth : Option (List F)
  d_depthMapRefinedLastFrameFloat : Option (List F)
  d_depthMapMaskFloat : Option (List F)
  d_targetIntensity : Option (List F)
  deltaTransform : List F
  d_litcoeff : Option (List F)
  d_albedos : Option (List F)
  d_maskEdgeMap : Option (List Nat)
  nNonLinearIterations : Nat
  nLinearIterations : Nat
  nPatchIterations : Nat
  weightFitting : F
  weightShadingIncrement : F
  weightShadingStart : F
  weightBoundary : F
  weightRegularizer : F
  weightPrior : F
  useRemapping : Bool
  outputDepth : Option (List F)
deriving DecidableEq, Repr

/-- A call that leaves `CUDAPatchSolverSFS.cpp`, with the arguments it is given. -/
inductive Call (F : Type) where
  | clearDecissionArrayPatchDepthMask (inputWidth inputHeight : Nat)
  | computeDecissionArrayPatchDepthMask (patchSize inputWidth inputHeight : Nat)
  | prefixSum (numElements : Nat)
  | computeRemappingArrayPatchDepthMask (patchSize inputWidth inputHeight : Nat)
  | patchSolveSFSEvalCurrentCostJTFPreAndJTJStub (input : PatchSolverInput F)
      (state : PatchSolverState F) (parameters : PatchSolverParameters F)
  | dumpOptImage (name : String) (width height : Nat)
  | patchSolveSFSStub (input : PatchSolverInput F) (state : PatchSolverState F)
      (parameters : PatchSolverParameters F) (ca : Bool)
  | defineProblem (useAD : Bool) (terraFile solverName : String)
  | planProblem (useAD : Bool) (width height : Nat) (elemsize : List Nat)
  | optimizerSolve (useAD : Bool) (plan : Plan) (images : List (Image F))
      (tParams : TerraSolverParameters F) (indirectParameters : TerraSolverParameterPointers)
  | nullDereference (what : String)
  | fprintfStderr (msg : String)
  | Opt_PlanFree (throughAD : Bool) (plan : Plan)
deriving DecidableEq, Repr

/-- The routines `solveSFS` calls that are defined outside the file. Each takes the
buffers it is passed and returns the new contents of the buffers it writes. The
snapshot stub receives the input, the state and the parameters by non-const reference,
so it returns all three. -/
structure Externs (F : Type) where
  clearDecissionArrayPatchDepthMask : List Int → Nat → Nat → List Int
  computeDecissionArrayPatchDepthMask : List Int → Option (List F) → Nat → Nat → Nat → List Int
  prefixSum : Nat → List Int → List Int → Nat × List Int
  computeRemappingArrayPatchDepthMask :
    List Int → Option (List F) → List Int → Nat → Nat → Nat → List Int
  patchSolveSFSEvalCurrentCostJTFPreAndJTJStub :
    PatchSolverInput F → PatchSolverState F → PatchSolverParameters F →
      PatchSolverInput F × PatchSolverState F × PatchSolverParameters F
  patchSolveSFSStub :
    PatchSolverInput F → PatchSolverState F → PatchSolverParameters F → Bool → PatchSolverState F
  optimizerSolve :
    Optimizer → Plan → List (Image F) → TerraSolverParameters F → TerraSolverParameterPointers →
      Option (List F)

/-- What one call of `solveSFS` leaves behind: the statics, the instance, the local
`parameters` struct, and the trace of outgoing calls in program order. -/
structure Outcome (F : Type) where
  statics : Statics
  solver : CUDAPatchSolverSFS F
  parameters : PatchSolverParameters F
  calls : List (Call F)
deriving DecidableEq, Repr

/-! ## The code of `CUDAPatchSolverSFS.cpp` -/

section Code

variable {F : Type}

/-- The constructor `CUDAPatchSolverSFS(intrinsics, imageWidth, imageHeight, level)`.
`cudaMalloc` does not initialise memory: `rawInt` and `rawFloat` give whatever the fresh
buffers hold. Members the constructor leaves unassigned are `NULL`, empty or `false`.
The product `m_imageWidth*m_imageHeight` is taken without the wrap-around of
`unsigned int`: it is the product the source computes for images of less than `2^32`
elements. -/
def CUDAPatchSolverSFS.new [Neg F] (rawInt : Nat → Int) (rawFloat : Nat → F)
    (intrinsics : Nat → Nat → F) (imageWidth imageHeight level : Nat) : CUDAPatchSolverSFS F :=
  let numberOfVariables := imageWidth * imageHeight
  { m_imageWidth := imageWidth
    m_imageHeight := imageHeight
    m_level := level
    m_planAD := none
    m_planNoAD := none
    d_decissionArrayDepthMask := (List.range numberOfVariables).map rawInt
    d_prefixSumDepthMask := (List.range numberOfVariables).map rawInt
    d_remappingArrayDepthMask := (List.range numberOfVariables).map rawInt
    m_solverInput :=
      { N := imageWidth * imageHeight
        width := imageWidth
        height := imageHeight
        d_remapArray := none
        calibparams :=
          { fx := intrinsics 0 0
            fy := -intrinsics 1 1
            ux := intrinsics 0 3
            uy := intrinsics 1 3 }
        d_targetIntensity := none
        d_targetDepth := none
        d_depthMapRefinedLastFrameFloat := none
        d_maskEdgeMap := none
        d_litcoeff := none
        d_albedo := none
        deltaTransform := []
        m_useRemapping := false }
    m_solverState :=
      { d_x := none
        d_delta := (List.range numberOfVariables).map rawFloat
        d_residual := (List.range 2).map rawFloat } }

/-- The macro `OPT_CPU`, defined as 0. -/
def OPT_CPU : Nat := 0

/-- The function `constructTerraInput`: the six images, then `tParams`. With `optCPU` the
images are host copies of `width*height` floats (twice as many bytes for the edge mask);
otherwise they are the device buffers themselves. The remap array is not among them. -/
def constructTerraInput (d_x : Option (List F)) (solverInput : PatchSolverInput F)
    (parameters : PatchSolverParameters F) (deltaTransformPtr : List F) (optCPU : Bool) :
    List (Image F) × TerraSolverParameters F :=
  let images : List (Image F) :=
    if optCPU then
      let n := solverInput.width * solverInput.height
      let maskEdgeMap := solverInput.d_maskEdgeMap.map (List.take (2 * n))
      [ Image.floats (d_x.map (List.take n)),
        Image.floats (solverInput.d_targetDepth.map (List.take n)),
        Image.floats (solverInput.d_targetIntensity.map (List.take n)),
        Image.floats (solverInput.d_depthMapRefinedLastFrameFloat.map (List.take n)),
        Image.bytes maskEdgeMap,
        Image.bytes (maskEdgeMap.map (List.drop n)) ]
    else
      [ Image.floats d_x,
        Image.floats solverInput.d_targetDepth,
        Image.floats solverInput.d_targetIntensity,
        Image.floats solverInput.d_depthMapRefinedLastFrameFloat,
        Image.bytes solverInput.d_maskEdgeMap,
        Image.bytes
          (solverInput.d_maskEdgeMap.map (List.drop (solverInput.width * solverInput.height))) ]
  (images,
    TerraSolverParameters.mk_from parameters solverInput.calibparams deltaTransformPtr
      solverInput.d_litcoeff)

/-- The statement `if (optimizer == NULL) { optimizer = new Optimizer();
optimizer->defineProblem(terraFile, solverName); }` on the static optimizer of the
requested kind. -/
def ensureOptimizer (st : Statics) (useAD : Bool) (terraFile solverName : String) :
    Statics × List (Call F) :=
  if useAD then
    match st.s_optimizerAD with
    | none =>
      ({ st with s_optimizerAD := some { terraFile := terraFile, solverName := solverName } },
        [Call.defineProblem true terraFile solverName])
    | some _ => (st, [])
  else
    match st.s_optimizerNoAD with
    | none =>
      ({ st with s_optimizerNoAD := some { terraFile := terraFile, solverName := solverName } },
        [Call.defineProblem false terraFile solverName])
    | some _ => (st, [])

/-- The method `maybeInitOptimizerAndPlan`, with what `planProblem` returns as a
parameter: `planned` is the pointer `planProblem` hands back if this call invokes it,
`none` when it hands back `NULL`. The method creates the static optimizer of the requested
kind when it is still `NULL`, assigns the result of `planProblem` to the plan member of
this instance when that is still `NULL`, and returns the plan member. -/
def maybeInitOptimizerAndPlanWith (planned : Option Plan) (st : Statics)
    (s : CUDAPatchSolverSFS F) (useAD : Bool) (terraFile solverName : String)
    (width height : Nat) (elemsize : List Nat) :
    Statics × CUDAPatchSolverSFS F × Option Plan × List (Call F) :=
  let o : Statics × List (Call F) := ensureOptimizer st useAD terraFile solverName
  if useAD then
    match s.m_planAD with
    | none =>
      (o.1, { s with m_planAD := planned }, planned,
        o.2 ++ [Call.planProblem true width height elemsize])
    | some plan => (o.1, s, some plan, o.2)
  else
    match s.m_planNoAD with
    | none =>
      (o.1, { s with m_planNoAD := planned }, planned,
        o.2 ++ [Call.planProblem false width height elemsize])
    | some plan => (o.1, s, some plan, o.2)

/-- The method `maybeInitOptimizerAndPlan` for a `planProblem` that hands back a plan (the
plan records who planned it and for which sizes): it creates the static optimizer of the
requested kind and the plan of this instance when they are still `NULL`, and returns the
plan. This is `maybeInitOptimizerAndPlanWith` at a result of `planProblem` that is not
`NULL`. -/
def maybeInitOptimizerAndPlan (st : Statics) (s : CUDAPatchSolverSFS F) (useAD : Bool)
    (terraFile solverName : String) (width height : Nat) (elemsize : List Nat) :
    Statics × CUDAPatchSolverSFS F × Plan × List (Call F) :=
  let o : Statics × List (Call F) := ensureOptimizer st useAD terraFile solverName
  let fresh : Plan :=
    { plannedByAD := useAD, width := width, height := height, elemsize := elemsize }
  if useAD then
    match s.m_planAD with
    | none =>
      (o.1, { s with m_planAD := some fresh }, fresh,
        o.2 ++ [Call.planProblem true width height elemsize])
    | some plan => (o.1, s, plan, o.2)
  else
    match s.m_planNoAD with
    | none =>
      (o.1, { s with m_planNoAD := some fresh }, fresh,
        o.2 ++ [Call.planProblem false width height elemsize])
    | some plan => (o.1, s, plan, o.2)

/-- The remapping stage at the head of `solveSFS` (the body of `if (useRemapping)`):
clear, decision, prefix sum, remap, with patch size 16. Returns `numElements`,
the instance with its three mask buffers rewritten, and the four calls. -/
def remappingStage (E : Externs F) (s : CUDAPatchSolverSFS F)
    (d_depthMapMaskFloat : Option (List F)) : Nat × CUDAPatchSolverSFS F × List (Call F) :=
  let width := s.m_solverInput.width
  let height := s.m_solverInput.height
  let cleared := E.clearDecissionArrayPatchDepthMask s.d_decissionArrayDepthMask width height
  let decission :=
    E.computeDecissionArrayPatchDepthMask cleared d_depthMapMaskFloat 16 width height
  let scan := E.prefixSum (width * height) decission s.d_prefixSumDepthMask
  let remapping :=
    E.computeRemappingArrayPatchDepthMask s.d_remappingArrayDepthMask d_depthMapMaskFloat
      scan.2 16 width height
  (scan.1,
    { s with
      d_decissionArrayDepthMask := decission
      d_prefixSumDepthMask := scan.2
      d_remappingArrayDepthMask := remapping },
    [ Call.clearDecissionArrayPatchDepthMask width height,
      Call.computeDecissionArrayPatchDepthMask 16 width height,
      Call.prefixSum (width * height),
      Call.computeRemappingArrayPatchDepthMask 16 width height ])

/-- The assignments of `solveSFS` between the remapping stage and the mode switch
that write `m_solverState` and `m_solverInput`. -/
def bindInputs (s : CUDAPatchSolverSFS F) (a : SolveArgs F) (numElements : Nat) :
    CUDAPatchSolverSFS F :=
  { s with
    m_solverState := { s.m_solverState with d_x := a.outputDepth }
    m_solverInput :=
      { s.m_solverInput with
        d_targetIntensity := a.d_targetIntensity
        d_targetDepth := a.d_targetDepth
        d_depthMapRefinedLastFrameFloat := a.d_depthMapRefinedLastFrameFloat
        d_maskEdgeMap := a.d_maskEdgeMap
        d_litcoeff := a.d_litcoeff
        d_albedo := a.d_albedos
        d_remapArray := some s.d_remappingArrayDepthMask
        deltaTransform := a.deltaTransform.take 16
        N := if a.useRemapping then numElements else s.m_solverInput.N
        m_useRemapping := a.useRemapping } }

/-- The local `PatchSolverParameters parameters` as `solveSFS` fills it in. -/
def buildParameters [Add F] [Mul F] [NatCast F] (a : SolveArgs F) : PatchSolverParameters F :=
  { weightFitting := a.weightFitting
    weightShadingStart := a.weightShadingStart
    weightShadingIncrement := a.weightShadingIncrement
    weightShading := a.weightShadingStart + a.weightShadingIncrement * (a.nLinearIterations : F)
    weightRegularizer := a.weightRegularizer
    weightBoundary := a.weightBoundary
    weightPrior := a.weightPrior
    nNonLinearIterations := a.nNonLinearIterations
    nLinIterations := a.nLinearIterations
    nPatchIterations := a.nPatchIterations }

/-- The mode chosen from `GlobalAppState::get().s_optimizer`. -/
def selectMode (s_optimizer : Int) : SolveMode :=
  if s_optimizer = 0 then SolveMode.CUDA
  else if s_optimizer = 1 then SolveMode.TERRA_AD else SolveMode.TERRA_NO_AD

/-- The vector `elemsize`: four times `sizeof(float)`, twice `sizeof(char)`. -/
def elemsize : List Nat := List.replicate 4 4 ++ List.replicate 2 1

/-- One DSL case of the switch (`TERRA_AD` with `useAD = true`, `TERRA_NO_AD` with
`useAD = false`): plan, `constructTerraInput`, then `solve` on the static optimizer. The
case is followed for a `planProblem` that hands back a plan and for lighting coefficients
that can be copied (see `maybeInitOptimizerAndPlan` and `TerraSolverParameters.mk_from`). -/
def terraCase (E : Externs F) (g : GlobalAppState) (st : Statics) (s : CUDAPatchSolverSFS F)
    (parameters : PatchSolverParameters F) (deltaTransform : List F) (useAD : Bool)
    (terraFile : String) : Outcome F :=
  let solverName :=
    if OPT_CPU ≠ 0 then "gradientDescentCPU"
    else if g.s_useBlockSolver then "gaussNewtonBlockGPU" else "gaussNewtonGPU"
  let m : Statics × CUDAPatchSolverSFS F × Plan × List (Call F) :=
    maybeInitOptimizerAndPlan st s useAD terraFile solverName s.m_solverInput.width
      s.m_solverInput.height elemsize
  let st1 := m.1
  let s1 := m.2.1
  let plan := m.2.2.1
  let t : List (Image F) × TerraSolverParameters F :=
    constructTerraInput s1.m_solverState.d_x s1.m_solverInput parameters deltaTransform
      (OPT_CPU == 1)
  let indirectParameters := TerraSolverParameterPointers.mk_from
  match (if useAD then st1.s_optimizerAD else st1.s_optimizerNoAD) with
  | some optimizer =>
    { statics := st1
      solver :=
        if OPT_CPU == 1 then s1
        else
          { s1 with
            m_solverState :=
              { s1.m_solverState with
                d_x := E.optimizerSolve optimizer plan t.1 t.2 indirectParameters } }
      parameters := parameters
      calls := m.2.2.2 ++ [Call.optimizerSolve useAD plan t.1 t.2 indirectParameters] }
  | none =>
    { statics := st1, solver := s1, parameters := parameters,
      calls :=
        m.2.2.2 ++
          [Call.nullDereference (if useAD then "s_optimizerAD" else "s_optimizerNoAD")] }

/-- The snapshot block `if (saveJTFAndPreAndJTJ) { ... }` of `case CUDA`: the four
snapshot buffers are allocated, zeroed, filled by the stub, dumped and freed inside
the block. Returns the input, the state and the parameters as the stub leaves them. -/
def snapshotBlock (saveJTFAndPreAndJTJ : Bool) (E : Externs F) (s : CUDAPatchSolverSFS F)
    (parameters : PatchSolverParameters F) :
    (PatchSolverInput F × PatchSolverState F × PatchSolverParameters F) × List (Call F) :=
  if saveJTFAndPreAndJTJ then
    (E.patchSolveSFSEvalCurrentCostJTFPreAndJTJStub s.m_solverInput s.m_solverState parameters,
      [ Call.patchSolveSFSEvalCurrentCostJTFPreAndJTJStub s.m_solverInput s.m_solverState
          parameters,
        Call.dumpOptImage "cost_cuda.imagedump" s.m_solverInput.width s.m_solverInput.height,
        Call.dumpOptImage "JTF_cuda.imagedump" s.m_solverInput.width s.m_solverInput.height,
        Call.dumpOptImage "Pre_cuda.imagedump" s.m_solverInput.width s.m_solverInput.height,
        Call.dumpOptImage "JTJ_cuda.imagedump" s.m_solverInput.width s.m_solverInput.height ])
  else ((s.m_solverInput, s.m_solverState, parameters), [])

/-- The `case CUDA` block of the switch: the snapshot block, then `patchSolveSFSStub`. -/
def cudaCase (saveJTFAndPreAndJTJ : Bool) (E : Externs F) (st : Statics)
    (s : CUDAPatchSolverSFS F) (parameters : PatchSolverParameters F) (ca : Bool) : Outcome F :=
  let b := snapshotBlock saveJTFAndPreAndJTJ E s parameters
  { statics := st
    solver :=
      { s with
        m_solverInput := b.1.1
        m_solverState := E.patchSolveSFSStub b.1.1 b.1.2.1 b.1.2.2 ca }
    parameters := b.1.2.2
    calls := b.2 ++ [Call.patchSolveSFSStub b.1.1 b.1.2.1 b.1.2.2 ca] }

/-- The head of `solveSFS`: `numElements = 0`, then the remapping stage when
`useRemapping` is set. -/
def remapIfRequested (E : Externs F) (s : CUDAPatchSolverSFS F) (a : SolveArgs F) :
    Nat × CUDAPatchSolverSFS F × List (Call F) :=
  if a.useRemapping then remappingStage E s a.d_depthMapMaskFloat else (0, s, [])

/-- The statement `switch (mode)` of `solveSFS` with its three cases and the default. -/
def switchMode (saveJTFAndPreAndJTJ : Bool) (E : Externs F) (g : GlobalAppState)
    (st : Statics) (s : CUDAPatchSolverSFS F) (parameters : PatchSolverParameters F)
    (deltaTransform : List F) (ca : Bool) (mode : SolveMode) : Outcome F :=
  if mode = SolveMode.CUDA then
    cudaCase saveJTFAndPreAndJTJ E st s parameters ca
  else if mode = SolveMode.TERRA_AD then
    terraCase E g st s parameters deltaTransform true "../testMLib/shapeFromShadingAD.t"
  else if mode = SolveMode.TERRA_NO_AD then
    terraCase E g st s parameters deltaTransform false "../testMLib/shapeFromShading.t"
  else
    { statics := st, solver := s, parameters := parameters,
      calls := [Call.fprintfStderr "You suck\n"] }

/-- The method `solveSFS`, with the local flag `saveJTFAndPreAndJTJ` as a parameter
(the source initialises it to `false`). -/
def solveSFSWith [Add F] [Mul F] [NatCast F] (saveJTFAndPreAndJTJ : Bool) (E : Externs F)
    (g : GlobalAppState) (st : Statics) (s : CUDAPatchSolverSFS F) (a : SolveArgs F) :
    Outcome F :=
  let r0 := remapIfRequested E s a
  let s2 := bindInputs r0.2.1 a r0.1
  let r := switchMode saveJTFAndPreAndJTJ E g st s2 (buildParameters a) a.deltaTransform
    (g.s_convergenceAnalysisIsRunning && g.s_playData) (selectMode g.s_optimizer)
  { r with calls := r0.2.2 ++ r.calls }

/-- The method `solveSFS` as compiled: `saveJTFAndPreAndJTJ` is `false`. -/
def solveSFS [Add F] [Mul F] [NatCast F] (E : Externs F) (g : GlobalAppState) (st : Statics)
    (s : CUDAPatchSolverSFS F) (a : SolveArgs F) : Outcome F :=
  solveSFSWith false E g st s a

/-- The three backends of `solveSFS`. -/
inductive BackendSolve where
  | native
  | dslAD
  | dslNoAD
deriving DecidableEq, Repr

/-- The backend a call invokes, if the call is a backend solve: `patchSolveSFSStub` is
the native CUDA solver, `s_optimizerAD->solve` and `s_optimizerNoAD->solve` the two DSL
solvers. -/
def Call.backendSolve : Call F → Option BackendSolve
  | Call.patchSolveSFSStub _ _ _ _ => some BackendSolve.native
  | Call.optimizerSolve useAD _ _ _ _ =>
    some (if useAD then BackendSolve.dslAD else BackendSolve.dslNoAD)
  | _ => none

/-- Whether a call is one of the four routines of the remapping stage. -/
def Call.isRemapRoutine : Call F → Bool
  | Call.clearDecissionArrayPatchDepthMask _ _ => true
  | Call.computeDecissionArrayPatchDepthMask _ _ _ => true
  | Call.prefixSum _ => true
  | Call.computeRemappingArrayPatchDepthMask _ _ _ => true
  | _ => false

/-- The four routines of the remapping stage. -/
inductive RemapRoutine where
  | clearDecissionArray
  | computeDecissionArray
  | prefixSum
  | computeRemappingArray
deriving DecidableEq, Repr

/-- The routine of the remapping stage a call invokes, if it invokes one. -/
def Call.remapRoutine : Call F → Option RemapRoutine
  | Call.clearDecissionArrayPatchDepthMask _ _ => some RemapRoutine.clearDecissionArray
  | Call.computeDecissionArrayPatchDepthMask _ _ _ => some RemapRoutine.computeDecissionArray
  | Call.prefixSum _ => some RemapRoutine.prefixSum
  | Call.computeRemappingArrayPatchDepthMask _ _ _ => some RemapRoutine.computeRemappingArray
  | _ => none

/-- Whether the copy of the lighting coefficients in the constructor of
`TerraSolverParameters` can read its 9 floats: `d_litcoeff` is not `NULL` and the buffer
holds at least 9 floats. -/
def readsLighting (d_litcoeff : Option (List F)) : Bool :=
  match d_litcoeff with
  | some c => decide (9 ≤ c.length)
  | none => false

/-- Whether a call signals a failure: the message of the default branch of the switch,
or the use of a `NULL` optimizer. -/
def Call.isFailure : Call F → Bool
  | Call.fprintfStderr _ => true
  | Call.nullDereference _ => true
  | _ => false

/-- The solver input, state and parameters of every `patchSolveSFSStub` call in a trace. -/
def stubArguments (calls : List (Call F)) :
    List (PatchSolverInput F × PatchSolverState F × PatchSolverParameters F) :=
  calls.filterMap fun c =>
    match c with
    | Call.patchSolveSFSStub input state parameters _ => some (input, state, parameters)
    | _ => none

/-- The element counts `N` handed to the native backend in a trace. -/
def handedN (calls : List (Call F)) : List Nat :=
  (stubArguments calls).map fun t => t.1.N

/-- The shape of the trace of one case of the switch: one solve of backend `b`, no
failure call, no remapping routine. -/
def CaseShape (calls : List (Call F)) (b : BackendSolve) : Prop :=
  calls.filterMap Call.backendSolve = [b] ∧ (∀ c ∈ calls, c.isFailure = false) ∧
    calls.filter Call.isRemapRoutine = []

/-- The three mask buffers of the instance have `width*height` entries, as allocated
by the constructor. -/
def WellSized (s : CUDAPatchSolverSFS F) : Prop :=
  s.d_decissionArrayDepthMask.length = s.m_solverInput.width * s.m_solverInput.height ∧
    s.d_prefixSumDepthMask.length = s.m_solverInput.width * s.m_solverInput.height ∧
    s.d_remappingArrayDepthMask.length = s.m_solverInput.width * s.m_solverInput.height

instance (s : CUDAPatchSolverSFS F) : Decidable (WellSized s) := by
  unfold WellSized
  infer_instance

/-- A sequence of `solveSFS` calls on one instance, each with its own global settings
and arguments; returns the outcome of every call, in order. -/
def solveSFSSeq [Add F] [Mul F] [NatCast F] (E : Externs F) (st : Statics)
    (s : CUDAPatchSolverSFS F) : List (GlobalAppState × SolveArgs F) → List (Outcome F)
  | [] => []
  | (g, a) :: rest =>
    let r := solveSFS E g st s a
    r :: solveSFSSeq E r.statics r.solver rest

end Code

/-! ## Routines defined outside the file, modelled from the spec -/

section SpecModel

variable {F : Type}

/-- The validity predicate of the depth-mask kernels: from the float mask, the patch
size and the image dimensions, whether element `i` is active. The spec leaves the
predicate open, so it is a parameter. -/
abbrev Validity (F : Type) := Option (List F) → Nat → Nat → Nat → Nat → Bool

/-- Overwrite with `v k` every entry whose index `k` satisfies `p`; indices count from
the first argument. -/
def writeWhere (p : Nat → Bool) (v : Nat → Int) : Nat → List Int → List Int
  | _, [] => []
  | k, x :: xs => (if p k then v k else x) :: writeWhere p v (k + 1) xs

/-- Modelled from the spec: the kernel `clearDecissionArrayPatchDepthMask` is defined in
the CUDA sources; it "must clear prior state fully before recomputation", so each of the
`inputWidth*inputHeight` entries of the decision array becomes 0. -/
def clearDecissionArrayPatchDepthMask (d_output : List Int) (inputWidth inputHeight : Nat) :
    List Int :=
  writeWhere (fun i => decide (i < inputWidth * inputHeight)) (fun _ => 0) 0 d_output

/-- Modelled from the spec: the kernel `computeDecissionArrayPatchDepthMask` is defined in
the CUDA sources; it yields "a binary decision array (1 = element satisfies validity
predicate within its patch context, 0 otherwise)": it writes 1 at every active element of
the cleared array. -/
def computeDecissionArrayPatchDepthMask (valid : Validity F) (d_output : List Int)
    (d_input : Option (List F)) (patchSize inputWidth inputHeight : Nat) : List Int :=
  writeWhere
    (fun i => decide (i < inputWidth * inputHeight) && valid d_input patchSize inputWidth
      inputHeight i)
    (fun _ => 1) 0 d_output

/-- The 0/1 indicator of a predicate on indices. -/
def indicator (v : Nat → Bool) (i : Nat) : Int := if v i then 1 else 0

/-- Modelled from the spec: the scan inside `CUDAScan::prefixSum`, "an exclusive prefix
sum" with "the final prefix-sum value (total count)". From the initial value `acc` of
the running sum: the list of sums before each entry, and the final value of the sum. -/
def exclusiveScan : Int → List Int → List Int × Int
  | acc, [] => ([], acc)
  | acc, x :: xs => (acc :: (exclusiveScan (acc + x) xs).1, (exclusiveScan (acc + x) xs).2)

/-- Modelled from the spec: the method `CUDAScan::prefixSum` is defined in the scan
sources; it computes "an exclusive prefix sum over that decision array yielding a
compaction offset per element" into `d_output` and returns "the final prefix-sum value
(total count)". -/
def prefixSum (numElements : Nat) (d_input d_output : List Int) : Nat × List Int :=
  let r := exclusiveScan 0 (d_input.take numElements)
  (r.2.toNat, r.1 ++ d_output.drop r.1.length)

/-- Modelled from the spec: the kernel `computeRemappingArrayPatchDepthMask` is defined in
the CUDA sources; it builds "a remap table where `remapTable[prefixSum[i]] = i` for every
`i` with `decision[i]==1`": every active element `i` writes `i` at its compaction offset. -/
def computeRemappingArrayPatchDepthMask (valid : Validity F) (d_output : List Int)
    (d_input : Option (List F)) (d_prefixSum : List Int)
    (patchSize inputWidth inputHeight : Nat) : List Int :=
  (List.range (inputWidth * inputHeight)).foldl
    (fun out i =>
      if valid d_input patchSize inputWidth inputHeight i then
        out.set (d_prefixSum.getD i 0).toNat (i : Int)
      else out)
    d_output

/-- The evaluator and block linear solver of the spec (sections 4.3 and 4.4) taken
together: from the input, the parameters of the current nonlinear step and the current
unknown field, the step `delta` of each element. -/
abbrev StepRule (F : Type) := PatchSolverInput F → PatchSolverParameters F → List F → Nat → F

/-- Modelled from the spec: the domain of the native driver, "a compacted index space
of active unknowns". The active elements of a solve are the first `N` entries of the
remap table when remapping is on, the dense indices below `N` otherwise. -/
def activeElements (input : PatchSolverInput F) : List Nat :=
  if input.m_useRemapping then ((input.d_remapArray.getD []).take input.N).map Int.toNat
  else List.range input.N

/-- Modelled from the spec: the ApplyStep state of the native driver, "apply the
resulting `delta` to the unknown field (`x ← x + delta`)", on the active elements. -/
def applyStep [Add F] (delta : Nat → F) (active : List Nat) (x : List F) : List F :=
  active.foldl
    (fun acc i =>
      match acc.get? i with
      | some v => acc.set i (v + delta i)
      | none => acc)
    x

/-- Modelled from the spec: the native driver `patchSolveSFSStub` is defined in the CUDA
sources; the spec gives it as `Init → {EvaluateResiduals → LinearSolve → ApplyStep} ×
nNonLinearIterations → Done`, where each outer iteration recomputes `weightShading` per
the incremental schedule and applies the resulting `delta` to the unknown field. -/
def patchSolveSFSStub [Add F] [Mul F] [NatCast F] (step : StepRule F)
    (input : PatchSolverInput F) (state : PatchSolverState F)
    (parameters : PatchSolverParameters F) (_ca : Bool) : PatchSolverState F :=
  { state with
    d_x := state.d_x.map (fun x0 =>
      (List.range parameters.nNonLinearIterations).foldl
        (fun x (k : Nat) =>
          let current : PatchSolverParameters F :=
            { parameters with
              weightShading :=
                parameters.weightShadingStart + parameters.weightShadingIncrement * (k : F) }
          applyStep (step input current x) (activeElements input) x)
        x0) }

/-- Modelled from the spec: the stub `patchSolveSFSEvalCurrentCostJTFPreAndJTJStub` is
defined in the CUDA sources; the snapshot emission is "diagnostics-only" and "purely
observational": it fills the four snapshot buffers and leaves the input, the state and the
parameters as they are. -/
def patchSolveSFSEvalCurrentCostJTFPreAndJTJStub (input : PatchSolverInput F)
    (state : PatchSolverState F) (parameters : PatchSolverParameters F) :
    PatchSolverInput F × PatchSolverState F × PatchSolverParameters F :=
  (input, state, parameters)

/-- The signature of `Optimizer::solve`, the DSL solver (an external collaborator). -/
abbrev DslSolve (F : Type) :=
  Optimizer → Plan → List (Image F) → TerraSolverParameters F → TerraSolverParameterPointers →
    Option (List F)

/-- Modelled from the spec: the routines of `Externs` that belong to this repository,
each as the spec describes it; the validity predicate, the step rule and the DSL solver
are parameters. -/
def specExterns [Add F] [Mul F] [NatCast F] (valid : Validity F) (step : StepRule F)
    (dsl : DslSolve F) : Externs F :=
  { clearDecissionArrayPatchDepthMask := clearDecissionArrayPatchDepthMask
    computeDecissionArrayPatchDepthMask := computeDecissionArrayPatchDepthMask valid
    prefixSum := prefixSum
    computeRemappingArrayPatchDepthMask := computeRemappingArrayPatchDepthMask valid
    patchSolveSFSEvalCurrentCostJTFPreAndJTJStub := patchSolveSFSEvalCurrentCostJTFPreAndJTJStub
    patchSolveSFSStub := patchSolveSFSStub step
    optimizerSolve := dsl }

end SpecModel

end SFS

namespace ARAP

/-! ## The outer loop of `CombinedSolver::solve` -/

/-- The solver backends `solve` can run, in the order in which it runs them. -/
inductive Backend where
  | CUDA
  | TERRA
  | OPT
  | OPT_LM
  | CERES
deriving DecidableEq, Repr

/-- The fields of `m_params` read by `solve`. -/
structure CombinedSolverParameters where
  numIter : Nat
  earlyOut : Bool
  useCUDA : Bool
  useTerra : Bool
  useOpt : Bool
  useOptLM : Bool
  useCeres : Bool
  nonLinearIter : Nat
  linearIter : Nat
deriving DecidableEq, Repr

/-- What `solve` does, step by step, as far as the outer loops are concerned. A call
through a solver pointer that holds no solver is recorded as `nullDereference`. -/
inductive Event (F : Type) where
  | resetGPUMemory
  | downloadBuffers
  | setConstraints (alpha : F)
  | downloadConstraints
  | solveGN (backend : Backend) (nonLinearIter linearIter : Nat) (weightFit weightReg : F)
  | ceresSolveGN (weightFit weightReg : F)
  | earlyOutTest
  | uploadPositions
  | copyResultToCPUFromFloat3
  | nullDereference (what : String)
deriving DecidableEq, Repr

section Code

variable {F : Type}

/-- Whether an event is a solver invocation of the given backend. -/
def Event.isSolveOf (b : Backend) : Event F → Bool
  | Event.solveGN b1 _ _ _ _ => b1 == b
  | Event.ceresSolveGN _ _ => b == Backend.CERES
  | _ => false

/-- Whether an event is a solver invocation of any backend. -/
def Event.isSolve : Event F → Bool
  | Event.solveGN _ _ _ _ _ => true
  | Event.ceresSolveGN _ _ => true
  | _ => false

/-- Whether an event is the test `if (m_params.earlyOut)`. -/
def Event.isEarlyOutTest : Event F → Bool
  | Event.earlyOutTest => true
  | _ => false

/-- Whether an event is a fault, after which the program does not go on. -/
def Event.isFault : Event F → Bool
  | Event.nullDereference _ => true
  | _ => false

/-- Whether a trace ends the run by a fault. -/
def faulted (trace : List (Event F)) : Bool := trace.any Event.isFault

/-- Two pieces of code one after the other: the second runs unless the first faulted. -/
def andThen (first second : List (Event F)) : List (Event F) :=
  if faulted first then first else first ++ second

/-- The solver invocation in the body of the loop: the lambdas `cudaSolve` and
`genericOptSolve` for the GPU backends, the Ceres call (after the download of the
constraint targets) for Ceres. The local weights are `weightFit = 3.0f`, `weightReg = 4.0f`.
The member `m_terraWarpingSolver` is declared but assigned nowhere: the constructor
creates `m_warpingSolver`, `m_optWarpingSolver`, `m_optLMWarpingSolver` and
`m_ceresWarpingSolver` only, so `solver->solveGN(...)` for TERRA goes through an empty
`unique_ptr`. -/
def invokeSolver [NatCast F] (p : CombinedSolverParameters) (b : Backend) : List (Event F) :=
  if b = Backend.CERES then
    [Event.downloadConstraints, Event.ceresSolveGN ((3 : Nat) : F) ((4 : Nat) : F)]
  else if b = Backend.TERRA then [Event.nullDereference "m_terraWarpingSolver"]
  else [Event.solveGN b p.nonLinearIter p.linearIter ((3 : Nat) : F) ((4 : Nat) : F)]

/-- The loop `for (unsigned int i = 1; i < m_params.numIter; i++)` from the value `i` of the
counter on: `setConstraints((float)i / (float)(numIter - 1))`, the solver invocation, the
early-out test with its `break`. The first argument bounds the number of iterations. -/
def outerLoop [NatCast F] [Div F] (p : CombinedSolverParameters) (b : Backend) :
    Nat → Nat → List (Event F)
  | 0, _ => []
  | fuel + 1, i =>
    if i < p.numIter then
      andThen
        ([Event.setConstraints ((i : F) / ((p.numIter - 1 : Nat) : F))] ++ invokeSolver p b)
        ([Event.earlyOutTest] ++ (if p.earlyOut then [] else outerLoop p b fuel (i + 1)))
    else []

/-- The lambda `gpuSolve(name, condition, solveFunc)`. -/
def gpuSolve [NatCast F] [Div F] (p : CombinedSolverParameters) (b : Backend)
    (condition : Bool) : List (Event F) :=
  if condition then
    andThen ([Event.resetGPUMemory] ++ outerLoop p b p.numIter 1)
      [Event.copyResultToCPUFromFloat3]
  else []

/-- The block `if (m_params.useCeres)` of `solve`. -/
def ceresSolve [NatCast F] [Div F] (p : CombinedSolverParameters) : List (Event F) :=
  if p.useCeres then
    andThen
      ([Event.resetGPUMemory, Event.downloadBuffers] ++ outerLoop p Backend.CERES p.numIter 1)
      [Event.uploadPositions, Event.copyResultToCPUFromFloat3]
  else []

/-- The method `solve`: the four GPU backends through `gpuSolve`, then Ceres. -/
def solve [NatCast F] [Div F] (p : CombinedSolverParameters) : List (Event F) :=
  andThen (gpuSolve p Backend.CUDA (p.useCUDA != false))
    (andThen (gpuSolve p Backend.TERRA (p.useTerra != false))
      (andThen (gpuSolve p Backend.OPT (p.useOpt != false))
        (andThen (gpuSolve p Backend.OPT_LM (p.useOptLM != false)) (ceresSolve p))))

/-- Whether `m_params` enables the backend. -/
def enabled (p : CombinedSolverParameters) : Backend → Bool
  | Backend.CUDA => p.useCUDA
  | Backend.TERRA => p.useTerra
  | Backend.OPT => p.useOpt
  | Backend.OPT_LM => p.useOptLM
  | Backend.CERES => p.useCeres

/-- The number of solver invocations of a backend in a trace. -/
def invocations (b : Backend) (trace : List (Event F)) : Nat :=
  trace.countP (Event.isSolveOf b)

/-- Parameters with the TERRA and the OPT backend enabled, three outer iterations, no
early out. -/
def terraParams : CombinedSolverParameters :=
  { numIter := 3, earlyOut := false, useCUDA := false, useTerra := true, useOpt := true,
    useOptLM := false, useCeres := false, nonLinearIter := 2, linearIter := 5 }

/-- Every early-out test in the trace stands directly after a solver invocation: whatever
precedes a test is non-empty and ends in a solver invocation. -/
def TestsFollowSolves (trace : List (Event F)) : Prop :=
  ∀ pre post, trace = pre ++ Event.earlyOutTest :: post →
    ∃ pre2 e, pre = pre2 ++ [e] ∧ e.isSolve = true

end Code

end ARAP

/-! ## The buffers of `CombinedSolver` -/

namespace ARAP

/-- The types `float3` and `Vec3f`: three floats. `make_float3(v[0], v[1], v[2])` is the
identity between the two. -/
structure Float3 (F : Type) where
  x : F
  y : F
  z : F
deriving DecidableEq, Repr

/-- What `CombinedSolver` reads of an OpenMesh `SimpleMesh`: the vertex positions in
handle order, for every vertex handle its neighbours in the order of the vertex-vertex
circulator, and the number of edges. -/
structure SimpleMesh (F : Type) where
  points : List (Float3 F)
  neighbours : List (List Nat)
  edges : Nat
deriving DecidableEq, Repr

/-- The members of `CombinedSolver` that `setConstraints` and `resetGPUMemory` read or
write. -/
structure CombinedSolver (F : Type) where
  m_result : SimpleMesh F
  m_initial : SimpleMesh F
  d_anglesFloat3 : List (Float3 F)
  d_vertexPosTargetFloat3 : List (Float3 F)
  d_vertexPosFloat3 : List (Float3 F)
  d_vertexPosFloat3Urshape : List (Float3 F)
  d_numNeighbours : List Int
  d_neighbourIdx : List Int
  d_neighbourOffset : List Int
  m_constraintsIdx : List Nat
  m_constraintsTarget : List (List F)
deriving DecidableEq, Repr

/-- The variables of the vertex loop of `resetGPUMemory`: the two counters and the three
host arrays. -/
structure NeighbourLoop where
  count : Nat
  offset : Nat
  h_numNeighbours : List Int
  h_neighbourIdx : List Int
  h_neighbourOffset : List Int
deriving DecidableEq, Repr

section Buffers

variable {F : Type}

/-- The call `n_vertices()`. -/
def SimpleMesh.n_vertices (m : SimpleMesh F) : Nat := m.points.length

/-- The call `n_edges()`. -/
def SimpleMesh.n_edges (m : SimpleMesh F) : Nat := m.edges

/-- The vertices `vv_iter(v)` runs through, in its order. -/
def SimpleMesh.vv (m : SimpleMesh F) (v : Nat) : List Nat := m.neighbours.getD v []

/-- The call `valence(v)`: the number of vertices `vv_iter(v)` runs through. -/
def SimpleMesh.valence (m : SimpleMesh F) (v : Nat) : Nat := (m.vv v).length

/-- A `cudaMemcpy` of `count` elements from a host array into a device buffer allocated
with `count` elements: the new contents of the buffer. -/
def cudaMemcpy {α : Type} (count : Nat) (src : List α) : List α := src.take count

/-- The expression `(1 - alpha)*pt + alpha*target` on `Vec3f`, componentwise. -/
def blend [Add F] [Sub F] [Mul F] [NatCast F] (alpha : F) (pt target : Float3 F) : Float3 F :=
  { x := (((1 : Nat) : F) - alpha) * pt.x + alpha * target.x
    y := (((1 : Nat) : F) - alpha) * pt.y + alpha * target.y
    z := (((1 : Nat) : F) - alpha) * pt.z + alpha * target.z }

/-- The vector `Vec3f(t[0], t[1], t[2])` of a constraint target `t`. -/
def vec3Of : List F → Option (Float3 F)
  | a :: b :: c :: _ => some { x := a, y := b, z := c }
  | _ => none

/-- The body of the second loop of `setConstraints` for the constraint `c` (its vertex
index and its target): the write into `h_vertexPosTargetFloat3`. A read outside the
mesh or outside the target is undefined in the source; the constraint is then skipped. -/
def constrain [Add F] [Sub F] [Mul F] [NatCast F] (m_result : SimpleMesh F) (alpha : F)
    (h : List (Float3 F)) (c : Nat × List F) : List (Float3 F) :=
  match m_result.points[c.1]?, vec3Of c.2 with
  | some pt, some target => h.set c.1 (blend alpha pt target)
  | _, _ => h

/-- The method `setConstraints(alpha)`; `infinity` is
`std::numeric_limits<float>::infinity()`. -/
def setConstraints [Add F] [Sub F] [Mul F] [Neg F] [NatCast F] (infinity : F) (alpha : F)
    (s : CombinedSolver F) : CombinedSolver F :=
  let N := s.m_result.n_vertices
  let h_vertexPosTargetFloat3 : List (Float3 F) :=
    (s.m_constraintsIdx.zip s.m_constraintsTarget).foldl (constrain s.m_result alpha)
      (List.replicate N { x := -infinity, y := -infinity, z := -infinity })
  { s with d_vertexPosTargetFloat3 := cudaMemcpy N h_vertexPosTargetFloat3 }

/-- The body of the vertex loop of `resetGPUMemory` for the vertex `v`: the valence, the
neighbour indices written from `offset` on, the next offset. -/
def neighbourStep (m : SimpleMesh F) (t : NeighbourLoop) (v : Nat) : NeighbourLoop :=
  let inner : List Int × Nat :=
    (m.vv v).foldl (fun (q : List Int × Nat) (w : Nat) => (q.1.set q.2 (w : Int), q.2 + 1))
      (t.h_neighbourIdx, t.offset)
  { count := t.count + 1
    offset := inner.2
    h_numNeighbours := t.h_numNeighbours.set t.count (m.valence v : Int)
    h_neighbourIdx := inner.1
    h_neighbourOffset := t.h_neighbourOffset.set (t.count + 1) (inner.2 : Int) }

/-- The vertex loop of `resetGPUMemory` with the allocation of its three host arrays
(`new int[...]` does not initialise: `rawInt` gives what the fresh arrays hold) and the
assignment `h_neighbourOffset[0] = 0`. -/
def buildNeighbourTables (rawInt : Nat → Int) (m : SimpleMesh F) : NeighbourLoop :=
  (List.range m.n_vertices).foldl (neighbourStep m)
    { count := 0
      offset := 0
      h_numNeighbours := (List.range m.n_vertices).map rawInt
      h_neighbourIdx := (List.range (2 * m.n_edges)).map rawInt
      h_neighbourOffset := ((List.range (m.n_vertices + 1)).map rawInt).set 0 0 }

/-- The method `resetGPUMemory`. -/
def resetGPUMemory [Add F] [Sub F] [Mul F] [Neg F] [NatCast F] (rawInt : Nat → Int)
    (infinity : F) (s : CombinedSolver F) : CombinedSolver F :=
  let N := s.m_initial.n_vertices
  let E := s.m_initial.n_edges
  let h_vertexPosFloat3 : List (Float3 F) := s.m_initial.points
  let t := buildNeighbourTables rawInt s.m_initial
  let s1 := setConstraints infinity ((1 : Nat) : F) s
  let h_angles : List (Float3 F) :=
    List.replicate N { x := ((0 : Nat) : F), y := ((0 : Nat) : F), z := ((0 : Nat) : F) }
  { s1 with
    d_anglesFloat3 := cudaMemcpy N h_angles
    d_vertexPosFloat3 := cudaMemcpy N h_vertexPosFloat3
    d_vertexPosFloat3Urshape := cudaMemcpy N h_vertexPosFloat3
    d_numNeighbours := cudaMemcpy N t.h_numNeighbours
    d_neighbourIdx := cudaMemcpy (2 * E) t.h_neighbourIdx
    d_neighbourOffset := cudaMemcpy (N + 1) t.h_neighbourOffset }

/-- The method `preSingleSolve`: `m_result = m_initial; resetGPUMemory();`. The lambda
`gpuSolve` and the Ceres block of `solve` start with the same two statements. -/
def preSingleSolve [Add F] [Sub F] [Mul F] [Neg F] [NatCast F] (rawInt : Nat → Int)
    (infinity : F) (s : CombinedSolver F) : CombinedSolver F :=
  resetGPUMemory rawInt infinity { s with m_result := s.m_initial }

/-- The offset of vertex `v` in the neighbour table: the sum of the valences of the
vertices before it. -/
def offsetOf (m : SimpleMesh F) (v : Nat) : Nat := ((List.range v).map m.valence).sum

end Buffers

/-- A square with one diagonal: 4 vertices, 5 edges, valences 3, 2, 3, 2. -/
def squareMesh : SimpleMesh Int :=
  { points :=
      [ { x := 0, y := 0, z := 0 }, { x := 1, y := 0, z := 0 }, { x := 1, y := 1, z := 0 },
        { x := 0, y := 1, z := 0 } ]
    neighbours := [[1, 2, 3], [2, 0], [3, 0, 1], [0, 2]]
    edges := 5 }

/-- A solver on the square whose result mesh and device buffers hold values left by an
earlier solve; vertex 2 is constrained to `(5, 6, 7)`, vertex 0 to `(0, 0, 9)`. -/
def usedSolver : CombinedSolver Int :=
  { m_result := { squareMesh with points := squareMesh.points.map fun _ => { x := 8, y := 8, z := 8 } }
    m_initial := squareMesh
    d_anglesFloat3 := List.replicate 4 { x := 3, y := 3, z := 3 }
    d_vertexPosTargetFloat3 := []
    d_vertexPosFloat3 := List.replicate 4 { x := 8, y := 8, z := 8 }
    d_vertexPosFloat3Urshape := []
    d_numNeighbours := []
    d_neighbourIdx := []
    d_neighbourOffset := []
    m_constraintsIdx := [2, 0]
    m_constraintsTarget := [[5, 6, 7], [0, 0, 9]] }

end ARAP

/-! ## Single precision -/

namespace ARAP

/-- Round to nearest, ties to even, with a 24-bit significand (the exponent range is not
bounded): for `2^e ≤ |x| < 2^(e+1)` the unit in the last place is `2^(e-23)`, and `x` is
rounded to the nearest multiple of it, a tie going to the even multiple. -/
def roundNearest (x : ℚ) : ℚ :=
  let u : ℚ := (2 : ℚ) ^ (Int.log 2 |x| - 23)
  let m : ℚ := x / u
  let f : ℤ := ⌊m⌋
  if m - f < 1 / 2 then f * u
  else if 1 / 2 < m - f then (f + 1) * u
  else if f % 2 = 0 then f * u else (f + 1) * u

/-- A finite single-precision value, kept as the rational it stands for. The conversion
`(float)n` of an `unsigned int` and the four operations give the exact result rounded to
nearest. -/
structure Single where
  toRat : ℚ
deriving DecidableEq

instance : NatCast Single := ⟨fun n => ⟨roundNearest (n : ℚ)⟩⟩
instance : Add Single := ⟨fun a b => ⟨roundNearest (a.toRat + b.toRat)⟩⟩
instance : Sub Single := ⟨fun a b => ⟨roundNearest (a.toRat - b.toRat)⟩⟩
instance : Mul Single := ⟨fun a b => ⟨roundNearest (a.toRat * b.toRat)⟩⟩
instance : Div Single := ⟨fun a b => ⟨roundNearest (a.toRat / b.toRat)⟩⟩
instance : Neg Single := ⟨fun a => ⟨-a.toRat⟩⟩

/-- The components of a vector are floats: rounding keeps them as they are. -/
def IsFloat3 (v : Float3 Single) : Prop :=
  roundNearest v.x.toRat = v.x.toRat ∧ roundNearest v.y.toRat = v.y.toRat ∧
    roundNearest v.z.toRat = v.z.toRat

end ARAP

/-! ## Plans, parameter layout and observations on the DSL calls -/

namespace SFS

section PlanCode

variable {F : Type}

/-- One statement `if (plan != NULL) { Opt_PlanFree(s_optimizerAD->state(), plan); ... }`
of `resetPlan`: the call made for the given plan member. Both statements of `resetPlan`
reach the optimizer state through `s_optimizerAD`; when that pointer is `NULL` the
dereference is recorded. -/
def freeThroughOptimizerAD (st : Statics) (plan : Option Plan) : List (Call F) :=
  match plan with
  | none => []
  | some p =>
    match st.s_optimizerAD with
    | some _ => [Call.Opt_PlanFree true p]
    | none => [Call.nullDereference "s_optimizerAD"]

/-- The method `resetPlan`: frees `m_planAD`, then `m_planNoAD`, each when it is not
`NULL`, and sets the freed member to `NULL`. A `NULL` dereference ends the method where it
happens: the member being freed and the statements after it are left as they are. -/
def resetPlan (st : Statics) (s : CUDAPatchSolverSFS F) :
    CUDAPatchSolverSFS F × List (Call F) :=
  let first : List (Call F) := freeThroughOptimizerAD st s.m_planAD
  if first.any Call.isFailure then (s, first)
  else
    let second : List (Call F) := freeThroughOptimizerAD st s.m_planNoAD
    if second.any Call.isFailure then ({ s with m_planAD := none }, first ++ second)
    else ({ s with m_planAD := none, m_planNoAD := none }, first ++ second)

/-- The arguments of one `maybeInitOptimizerAndPlan` call. -/
structure InitArgs where
  useAD : Bool
  terraFile : String
  solverName : String
  width : Nat
  height : Nat
  elemsize : List Nat
deriving DecidableEq, Repr

/-- A call of one of the two plan methods of an instance. -/
inductive PlanOp where
  | maybeInitOptimizerAndPlan (a : InitArgs)
  | resetPlan
deriving DecidableEq, Repr

/-- The method `maybeInitOptimizerAndPlan` on an argument record. -/
def maybeInit (st : Statics) (s : CUDAPatchSolverSFS F) (a : InitArgs) :
    Statics × CUDAPatchSolverSFS F × Plan × List (Call F) :=
  maybeInitOptimizerAndPlan st s a.useAD a.terraFile a.solverName a.width a.height a.elemsize

/-- A sequence of plan method calls on one instance: the statics and the instance it
leaves, and its trace. The sequence ends where a `resetPlan` dereferences `NULL`. -/
def runPlanOps (st : Statics) (s : CUDAPatchSolverSFS F) :
    List PlanOp → Statics × CUDAPatchSolverSFS F × List (Call F)
  | [] => (st, s, [])
  | PlanOp.maybeInitOptimizerAndPlan a :: rest =>
    let r := runPlanOps (maybeInit st s a).1 (maybeInit st s a).2.1 rest
    (r.1, r.2.1, (maybeInit st s a).2.2.2 ++ r.2.2)
  | PlanOp.resetPlan :: rest =>
    if (resetPlan st s).2.any Call.isFailure then (st, (resetPlan st s).1, (resetPlan st s).2)
    else
      let r := runPlanOps st (resetPlan st s).1 rest
      (r.1, r.2.1, (resetPlan st s).2 ++ r.2.2)

/-- Whether a `resetPlan` call frees a plan through the optimizer that did not plan it. -/
def Call.freesThroughWrongOptimizer : Call F → Bool
  | Call.Opt_PlanFree throughAD plan => throughAD != plan.plannedByAD
  | _ => false

/-- The `TerraSolverParameters` of every DSL solve in a trace. -/
def terraArguments (calls : List (Call F)) : List (TerraSolverParameters F) :=
  calls.filterMap fun c =>
    match c with
    | Call.optimizerSolve _ _ _ tParams _ => some tParams
    | _ => none

/-- A 4-byte word of a parameter struct: a `float` or an `unsigned int`. -/
inductive Word (F : Type) where
  | float (x : F)
  | uint (n : Nat)
deriving DecidableEq, Repr

/-- The `float` scalars of `TerraSolverParameters` in declaration order: the 7 weights,
the 4 intrinsics, the entries of `deltaTransform`, the lighting coefficients. -/
def TerraSolverParameters.floats (p : TerraSolverParameters F) : List F :=
  [p.weightFitting, p.weightRegularizer, p.weightPrior, p.weightShading, p.weightShadingStart,
    p.weightShadingIncrement, p.weightBoundary, p.fx, p.fy, p.ux, p.uy] ++
    p.deltaTransform ++ p.lightingCoefficients

/-- The `unsigned int` scalars of `TerraSolverParameters` in declaration order. -/
def TerraSolverParameters.uints (p : TerraSolverParameters F) : List Nat :=
  [p.nNonLinearIterations, p.nLinIterations, p.nPatchIterations]

/-- The struct `TerraSolverParameters` viewed as the flat sequence of its scalar fields in
declaration order, one word each: the floats, then the three iteration counts. -/
def TerraSolverParameters.words (p : TerraSolverParameters F) : List (Word F) :=
  p.floats.map Word.float ++ p.uints.map Word.uint

/-- The words a list of pointers (word offsets from `&p`) addresses. -/
def TerraSolverParameters.pointees (p : TerraSolverParameters F) (pointers : List Nat) :
    List (Option (Word F)) :=
  pointers.map fun offset => p.words[offset]?

end PlanCode

end SFS

/-! ## Concrete inputs used in evaluations -/

namespace SFS

/-- A `solveSFS` argument list over `Int` with every pointer `NULL`, every count and
weight 0 and remapping off. -/
def blankArgs : SolveArgs Int :=
  { d_targetDepth := none, d_depthMapRefinedLastFrameFloat := none, d_depthMapMaskFloat := none,
    d_targetIntensity := none, deltaTransform := [], d_litcoeff := none, d_albedos := none,
    d_maskEdgeMap := none, nNonLinearIterations := 0, nLinearIterations := 0,
    nPatchIterations := 0, weightFitting := 0, weightShadingIncrement := 0,
    weightShadingStart := 0, weightBoundary := 0, weightRegularizer := 0, weightPrior := 0,
    useRemapping := false, outputDepth := none }

/-- Global settings with the diagnostics off and the given optimizer selector. -/
def plainGlobals (s_optimizer : Int) : GlobalAppState :=
  { s_convergenceAnalysisIsRunning := false, s_playData := false, s_optimizer := s_optimizer,
    s_useBlockSolver := false }

/-- The statics before any solver has run: both optimizers `NULL`. -/
def noStatics : Statics := { s_optimizerNoAD := none, s_optimizerAD := none }

/-- A freshly constructed solver over `Int` for a `w` by `h` image, raw memory all 7. -/
def freshSolver (w h : Nat) : CUDAPatchSolverSFS Int :=
  CUDAPatchSolverSFS.new (fun _ => 7) (fun _ => 7) (fun _ _ => 1) w h 0

/-- A validity predicate: the element is active when its mask entry is not 0. -/
def maskNonzero : Validity Int := fun mask _ _ _ i => (mask.getD []).getD i 0 != 0

/-- A step rule for a pure fit: the step of element `i` is `target[i] - x[i]`. -/
def fitStep : StepRule Int := fun input _ x i =>
  (input.d_targetDepth.getD []).getD i 0 - x.getD i 0

/-- A DSL solver that fits the dense image: the unknown image becomes the target image. -/
def fitDsl : DslSolve Int := fun _ _ images _ _ =>
  match images with
  | Image.floats (some _) :: Image.floats (some target) :: _ => some target
  | Image.floats x :: _ => x
  | _ => none

/-- Arguments of a `maybeInitOptimizerAndPlan` call of the given kind for a 1 by 1 image. -/
def initArgs (useAD : Bool) : InitArgs :=
  { useAD := useAD, terraFile := "../testMLib/shapeFromShading.t",
    solverName := "gaussNewtonGPU", width := 1, height := 1, elemsize := elemsize }

/-- A `TerraSolverParameters` over `Int` whose 39 scalars are 0, 1, ..., 38 in
declaration order. -/
def countingParams : TerraSolverParameters Int :=
  { weightFitting := 0, weightRegularizer := 1, weightPrior := 2, weightShading := 3,
    weightShadingStart := 4, weightShadingIncrement := 5, weightBoundary := 6, fx := 7, fy := 8,
    ux := 9, uy := 10, deltaTransform := (List.range 16).map fun i => ((11 + i : Nat) : Int),
    lightingCoefficients := (List.range 9).map fun i => ((27 + i : Nat) : Int),
    nNonLinearIterations := 36, nLinIterations := 37, nPatchIterations := 38 }

/-- Externs whose prefix sum is faulty: it reports one element more than the array has. -/
def overcountingExterns : Externs Int :=
  { specExterns maskNonzero fitStep fitDsl with
    prefixSum := fun numElements _ d_output => (numElements + 1, d_output) }

/-- An argument list over `Int` for a 1 by 1 image with every buffer present: depth
target 5, unknown field 0, the one element masked out, 16 transform entries, 9 lighting
coefficients, two nonlinear steps, fitting weight 1, remapping on. -/
def frameArgs : SolveArgs Int :=
  { d_targetDepth := some [5], d_depthMapRefinedLastFrameFloat := some [0],
    d_depthMapMaskFloat := some [0], d_targetIntensity := some [0],
    deltaTransform := List.replicate 16 0, d_litcoeff := some (List.replicate 9 0),
    d_albedos := some [0, 0, 0, 0], d_maskEdgeMap := some [0, 0], nNonLinearIterations := 2,
    nLinearIterations := 1, nPatchIterations := 1, weightFitting := 1,
    weightShadingIncrement := 0, weightShadingStart := 0, weightBoundary := 0,
    weightRegularizer := 0, weightPrior := 0, useRemapping := true, outputDepth := some [0] }

/-- An argument list over `Int` for a 0 by 0 image with every buffer present (the images
are empty) and remapping on. -/
def emptyDomainArgs : SolveArgs Int :=
  { frameArgs with
    d_targetDepth := some [], d_depthMapRefinedLastFrameFloat := some [],
    d_depthMapMaskFloat := some [], d_targetIntensity := some [], d_albedos := some [],
    d_maskEdgeMap := some [], outputDepth := some [] }

/-- An argument list over `Int` whose six weight arguments are pairwise different, with
three linear iterations. -/
def weightedArgs : SolveArgs Int :=
  { frameArgs with
    nLinearIterations := 3, weightFitting := 10, weightShadingIncrement := 2,
    weightShadingStart := 1, weightBoundary := 20, weightRegularizer := 30, weightPrior := 40,
    useRemapping := false }

end SFS

/-! ## Lemmas on the spec-modelled kernels -/

namespace SFS

theorem writeWhere_length (p : Nat → Bool) (v : Nat → Int) (k : Nat) (l : List Int) :
    (writeWhere p v k l).length = l.length := by
  induction l generalizing k with
  | nil => rfl
  | cons x xs ih => simp [writeWhere, ih]

theorem writeWhere_getElem? (p : Nat → Bool) (v : Nat → Int) (k : Nat) (l : List Int) (i : Nat) :
    (writeWhere p v k l)[i]? = l[i]?.map (fun x => if p (k + i) then v (k + i) else x) := by
  induction l generalizing k i with
  | nil => simp [writeWhere]
  | cons x xs ih =>
    cases i with
    | zero => simp [writeWhere]
    | succ j =>
      simp only [writeWhere, List.getElem?_cons_succ, ih]
      have : k + 1 + j = k + (j + 1) := by omega
      rw [this]

theorem exclusiveScan_length (acc : Int) (l : List Int) :
    (exclusiveScan acc l).1.length = l.length := by
  induction l generalizing acc with
  | nil => rfl
  | cons x xs ih => simp [exclusiveScan, ih]

theorem exclusiveScan_total (acc : Int) (l : List Int) :
    (exclusiveScan acc l).2 = acc + l.sum := by
  induction l generalizing acc with
  | nil => simp [exclusiveScan]
  | cons x xs ih => simp [exclusiveScan, ih, add_assoc]

theorem exclusiveScan_getElem? (acc : Int) (l : List Int) (i : Nat) (hi : i < l.length) :
    (exclusiveScan acc l).1[i]? = some (acc + (l.take i).sum) := by
  induction l generalizing acc i with
  | nil => simp at hi
  | cons x xs ih =>
    cases i with
    | zero => simp [exclusiveScan]
    | succ j =>
      simp only [List.length_cons, Nat.add_lt_add_iff_right] at hi
      simp [exclusiveScan, ih _ _ hi, add_assoc]

theorem sum_indicator_range (v : Nat → Bool) (k : Nat) :
    ((List.range k).map (indicator v)).sum = ((List.range k).countP v : Int) := by
  induction k with
  | zero => simp
  | succ k ih =>
    rw [List.range_succ, List.map_append, List.sum_append, ih, List.countP_append]
    cases h : v k <;> simp [indicator, h]

theorem count_one_indicator_range (v : Nat → Bool) (k : Nat) :
    ((List.range k).map (indicator v)).count 1 = (List.range k).countP v := by
  induction k with
  | zero => simp
  | succ k ih =>
    rw [List.range_succ, List.map_append, List.count_append, ih, List.countP_append]
    cases h : v k <;> simp [indicator, h]

theorem take_map_indicator_range (v : Nat → Bool) (n i : Nat) (hi : i ≤ n) :
    ((List.range n).map (indicator v)).take i = (List.range i).map (indicator v) := by
  rw [← List.map_take, List.take_range, Nat.min_eq_left hi]

theorem scatter_eq (v : Nat → Bool) (pre out : List Int) (k : Nat) (hk : k ≤ out.length)
    (hpre : ∀ i, i < k → pre.getD i 0 = ((List.range i).countP v : Int)) :
    (List.range k).foldl
        (fun out i => if v i then out.set (pre.getD i 0).toNat (i : Int) else out) out =
      ((List.range k).filter v).map Int.ofNat ++ out.drop ((List.range k).countP v) := by
  induction k with
  | zero => simp
  | succ k ih =>
    have hk1 : k ≤ out.length := by omega
    have ih1 := ih hk1 (fun i hi => hpre i (by omega))
    rw [List.range_succ, List.foldl_append, ih1]
    have hc : (List.range k).countP v ≤ k := by
      have := List.countP_le_length v (l := List.range k)
      simpa using this
    cases h : v k
    · simp [h, List.filter_append, List.countP_append]
    · have hlen : (((List.range k).filter v).map Int.ofNat).length = (List.range k).countP v := by
        simp [List.countP_eq_length_filter]
      simp only [List.foldl_cons, List.foldl_nil, h, if_true, hpre k (by omega), Int.toNat_ofNat]
      rw [List.set_append_right _ _ (by omega), hlen, Nat.sub_self, List.filter_append,
        List.countP_append]
      have hlt : (List.range k).countP v < out.length := by omega
      rw [List.drop_eq_getElem_cons hlt, List.set_cons_zero]
      simp [h, List.filter_cons, List.countP_cons]

theorem filter_range_getElem? (v : Nat → Bool) (n i : Nat) (hi : i < n) (hv : v i = true) :
    ((List.range n).filter v)[(List.range i).countP v]? = some i := by
  obtain ⟨m, rfl⟩ : ∃ m, n = (i + 1) + m := ⟨n - (i + 1), by omega⟩
  rw [List.range_add, List.range_succ, List.filter_append, List.filter_append]
  have hlen : ((List.range i).filter v).length = (List.range i).countP v := by
    rw [List.countP_eq_length_filter]
  rw [List.getElem?_append_left (by simp [hv, hlen, List.filter_cons]),
    List.getElem?_append_right (by omega), hlen, Nat.sub_self]
  simp [hv, List.filter_cons]

theorem filter_range_lt (v : Nat → Bool) (n j k : Nat) (hjk : j < k)
    (hk : k < ((List.range n).filter v).length) :
    ((List.range n).filter v).getD j 0 < ((List.range n).filter v).getD k 0 := by
  have hp : List.Pairwise (· < ·) ((List.range n).filter v) :=
    (List.pairwise_lt_range n).filter v
  have hj : j < ((List.range n).filter v).length := by omega
  rw [List.getD_eq_getElem _ _ hj, List.getD_eq_getElem _ _ hk]
  exact (List.pairwise_iff_getElem.mp hp) j k hj hk hjk

theorem filter_range_bound (v : Nat → Bool) (n j : Nat)
    (hj : j < ((List.range n).filter v).length) : ((List.range n).filter v).getD j 0 < n := by
  rw [List.getD_eq_getElem _ _ hj]
  have hm : ((List.range n).filter v)[j] ∈ (List.range n).filter v := List.getElem_mem hj
  have := (List.mem_filter.mp hm).1
  simpa using this

end SFS

/-! ## Lemmas on the structure of `solveSFS` -/

namespace SFS

section Structure

variable {F : Type}

theorem selectMode_zero : selectMode 0 = SolveMode.CUDA := rfl

theorem selectMode_one : selectMode 1 = SolveMode.TERRA_AD := rfl

theorem selectMode_other (k : Int) (h0 : k ≠ 0) (h1 : k ≠ 1) :
    selectMode k = SolveMode.TERRA_NO_AD := by
  simp [selectMode, h0, h1]

theorem snapshotBlock_false (E : Externs F) (s : CUDAPatchSolverSFS F)
    (parameters : PatchSolverParameters F) :
    snapshotBlock false E s parameters = ((s.m_solverInput, s.m_solverState, parameters), []) := by
  simp [snapshotBlock]

theorem terraCase_parameters (E : Externs F) (g : GlobalAppState) (st : Statics)
    (s : CUDAPatchSolverSFS F) (parameters : PatchSolverParameters F) (dT : List F)
    (useAD : Bool) (file : String) :
    (terraCase E g st s parameters dT useAD file).parameters = parameters := by
  unfold terraCase
  simp only []
  split <;> rfl

theorem switchMode_parameters (E : Externs F) (g : GlobalAppState) (st : Statics)
    (s : CUDAPatchSolverSFS F) (parameters : PatchSolverParameters F) (dT : List F)
    (ca : Bool) (mode : SolveMode) :
    (switchMode false E g st s parameters dT ca mode).parameters = parameters := by
  unfold switchMode
  split
  · simp [cudaCase, snapshotBlock_false]
  · split
    · exact terraCase_parameters ..
    · split
      · exact terraCase_parameters ..
      · rfl

theorem solveSFS_parameters [Add F] [Mul F] [NatCast F] (E : Externs F) (g : GlobalAppState)
    (st : Statics) (s : CUDAPatchSolverSFS F) (a : SolveArgs F) :
    (solveSFS E g st s a).parameters = buildParameters a := by
  simp [solveSFS, solveSFSWith, switchMode_parameters]

theorem remapIfRequested_calls (E : Externs F) (s : CUDAPatchSolverSFS F) (a : SolveArgs F) :
    (remapIfRequested E s a).2.2 =
      if a.useRemapping then
        [ Call.clearDecissionArrayPatchDepthMask s.m_solverInput.width s.m_solverInput.height,
          Call.computeDecissionArrayPatchDepthMask 16 s.m_solverInput.width
            s.m_solverInput.height,
          Call.prefixSum (s.m_solverInput.width * s.m_solverInput.height),
          Call.computeRemappingArrayPatchDepthMask 16 s.m_solverInput.width
            s.m_solverInput.height ]
      else [] := by
  unfold remapIfRequested remappingStage
  split <;> rfl

theorem remapIfRequested_no_backend (E : Externs F) (s : CUDAPatchSolverSFS F)
    (a : SolveArgs F) :
    (remapIfRequested E s a).2.2.filterMap Call.backendSolve = [] ∧
      (∀ c ∈ (remapIfRequested E s a).2.2, c.isFailure = false) ∧
      (remapIfRequested E s a).2.2.filter Call.isRemapRoutine = (remapIfRequested E s a).2.2 := by
  rw [remapIfRequested_calls]
  split <;> simp [Call.backendSolve, Call.isFailure, Call.isRemapRoutine]

theorem terraCase_calls (E : Externs F) (g : GlobalAppState) (st : Statics)
    (s : CUDAPatchSolverSFS F) (parameters : PatchSolverParameters F) (dT : List F)
    (useAD : Bool) (file : String) :
    CaseShape (terraCase E g st s parameters dT useAD file).calls
      (if useAD then BackendSolve.dslAD else BackendSolve.dslNoAD) := by
  cases useAD <;> cases h1 : st.s_optimizerAD <;> cases h2 : st.s_optimizerNoAD <;>
    cases h3 : s.m_planAD <;> cases h4 : s.m_planNoAD <;>
    simp [CaseShape, terraCase, maybeInitOptimizerAndPlan, ensureOptimizer, h1, h2, h3, h4,
      Call.backendSolve, Call.isFailure, Call.isRemapRoutine]

theorem cudaCase_calls (save : Bool) (E : Externs F) (st : Statics) (s : CUDAPatchSolverSFS F)
    (parameters : PatchSolverParameters F) (ca : Bool) :
    CaseShape (cudaCase save E st s parameters ca).calls BackendSolve.native := by
  cases save <;>
    simp [CaseShape, cudaCase, snapshotBlock, Call.backendSolve, Call.isFailure,
      Call.isRemapRoutine]

theorem solveSFSWith_calls [Add F] [Mul F] [NatCast F] (save : Bool) (E : Externs F)
    (g : GlobalAppState) (st : Statics) (s : CUDAPatchSolverSFS F) (a : SolveArgs F) :
    (solveSFSWith save E g st s a).calls =
      (remapIfRequested E s a).2.2 ++
        (switchMode save E g st (bindInputs (remapIfRequested E s a).2.1 a
          (remapIfRequested E s a).1) (buildParameters a) a.deltaTransform
          (g.s_convergenceAnalysisIsRunning && g.s_playData) (selectMode g.s_optimizer)).calls :=
  rfl

theorem switchMode_selected (save : Bool) (E : Externs F) (g : GlobalAppState) (st : Statics)
    (s : CUDAPatchSolverSFS F) (parameters : PatchSolverParameters F) (dT : List F)
    (ca : Bool) :
    CaseShape (switchMode save E g st s parameters dT ca (selectMode g.s_optimizer)).calls
      (if g.s_optimizer = 0 then BackendSolve.native
        else if g.s_optimizer = 1 then BackendSolve.dslAD else BackendSolve.dslNoAD) := by
  by_cases h0 : g.s_optimizer = 0
  · have hm : selectMode g.s_optimizer = SolveMode.CUDA := by rw [h0]; rfl
    simp only [hm, switchMode, if_true, h0]
    exact cudaCase_calls ..
  · by_cases h1 : g.s_optimizer = 1
    · have hm : selectMode g.s_optimizer = SolveMode.TERRA_AD := by rw [h1]; rfl
      have := terraCase_calls E g st s parameters dT true "../testMLib/shapeFromShadingAD.t"
      simpa [hm, switchMode, h0, h1, SolveMode.TERRA_AD, SolveMode.CUDA] using this
    · have hm : selectMode g.s_optimizer = SolveMode.TERRA_NO_AD := selectMode_other _ h0 h1
      have := terraCase_calls E g st s parameters dT false "../testMLib/shapeFromShading.t"
      simpa [hm, switchMode, h0, h1, SolveMode.TERRA_AD, SolveMode.CUDA,
        SolveMode.TERRA_NO_AD] using this

/-- The trace of `solveSFSWith`: the remapping routines when requested, then one case
of the switch. -/
theorem solveSFSWith_shape [Add F] [Mul F] [NatCast F] (save : Bool) (E : Externs F)
    (g : GlobalAppState) (st : Statics) (s : CUDAPatchSolverSFS F) (a : SolveArgs F) :
    (solveSFSWith save E g st s a).calls.filterMap Call.backendSolve =
        [if g.s_optimizer = 0 then BackendSolve.native
          else if g.s_optimizer = 1 then BackendSolve.dslAD else BackendSolve.dslNoAD] ∧
      (∀ c ∈ (solveSFSWith save E g st s a).calls, c.isFailure = false) ∧
      (solveSFSWith save E g st s a).calls.filter Call.isRemapRoutine =
        (remapIfRequested E s a).2.2 := by
  rw [solveSFSWith_calls]
  have h1 := remapIfRequested_no_backend E s a
  have h2 := switchMode_selected save E g st
    (bindInputs (remapIfRequested E s a).2.1 a (remapIfRequested E s a).1) (buildParameters a)
    a.deltaTransform (g.s_convergenceAnalysisIsRunning && g.s_playData)
  refine ⟨?_, ?_, ?_⟩
  · rw [List.filterMap_append, h1.1, h2.1, List.nil_append]
  · intro c hc
    rcases List.mem_append.mp hc with hc | hc
    · exact h1.2.1 c hc
    · exact h2.2.1 c hc
  · rw [List.filter_append, h1.2.2, h2.2.2, List.append_nil]

/-- In native mode the one `patchSolveSFSStub` call receives what the snapshot block
leaves of the bound input, the state and the parameters. -/
theorem solveSFSWith_native_stubArguments [Add F] [Mul F] [NatCast F] (save : Bool)
    (E : Externs F) (g : GlobalAppState) (hg : g.s_optimizer = 0) (st : Statics)
    (s : CUDAPatchSolverSFS F) (a : SolveArgs F) :
    stubArguments (solveSFSWith save E g st s a).calls =
      [(snapshotBlock save E
          (bindInputs (remapIfRequested E s a).2.1 a (remapIfRequested E s a).1)
          (buildParameters a)).1] := by
  have hm : selectMode g.s_optimizer = SolveMode.CUDA := by rw [hg]; rfl
  rw [solveSFSWith_calls, remapIfRequested_calls, hm]
  cases save <;> cases a.useRemapping <;>
    simp [stubArguments, switchMode, cudaCase, snapshotBlock]

end Structure

end SFS

/-! ## C1: the shading weight placed in the solver parameters -/

namespace SFS

end SFS

/-! ## C10: the mode switch -/

namespace SFS

/-- C10. For every value of the optimizer selector `s_optimizer` (and every extern
behaviour, solver instance and argument list) the trace of `solveSFS` holds exactly one
backend solve: the native CUDA solver when the selector is 0, the AD DSL solver when it
is 1, the non-AD DSL solver for every other value; and the trace holds no failure call,
so the default branch of the switch with its error message is never taken. -/
theorem solveSFS_invokes_exactly_one_backend {F : Type} [Add F] [Mul F] [NatCast F]
    (E : Externs F) (g : GlobalAppState) (st : Statics) (s : CUDAPatchSolverSFS F)
    (a : SolveArgs F) :
    (solveSFS E g st s a).calls.filterMap Call.backendSolve =
        [if g.s_optimizer = 0 then BackendSolve.native
          else if g.s_optimizer = 1 then BackendSolve.dslAD else BackendSolve.dslNoAD] ∧
      ∀ c ∈ (solveSFS E g st s a).calls, c.isFailure = false :=
  ⟨(solveSFSWith_shape false E g st s a).1, (solveSFSWith_shape false E g st s a).2.1⟩

end SFS

/-! ## C6: preconditions at entry -/

namespace SFS

section Entry

variable {F : Type}

theorem remapIfRequested_routines (E : Externs F) (s : CUDAPatchSolverSFS F) (a : SolveArgs F) :
    (remapIfRequested E s a).2.2.map Call.remapRoutine =
      if a.useRemapping then
        [ some RemapRoutine.clearDecissionArray, some RemapRoutine.computeDecissionArray,
          some RemapRoutine.prefixSum, some RemapRoutine.computeRemappingArray ]
      else [] := by
  rw [remapIfRequested_calls]
  split <;> rfl

theorem isRemapRoutine_iff (c : Call F) : c.isRemapRoutine = (c.remapRoutine).isSome := by
  cases c <;> rfl

theorem filterMap_remapRoutine_of_filter_nil (l : List (Call F))
    (h : l.filter Call.isRemapRoutine = []) : l.filterMap Call.remapRoutine = [] := by
  induction l with
  | nil => rfl
  | cons c rest ih =>
    rw [List.filter_cons] at h
    cases hc : c.isRemapRoutine with
    | true => simp [hc] at h
    | false =>
      simp only [hc, Bool.false_eq_true, if_false] at h
      have hn : c.remapRoutine = none := by
        rw [isRemapRoutine_iff] at hc
        cases hr : c.remapRoutine with
        | none => rfl
        | some r => rw [hr] at hc; simp at hc
      rw [List.filterMap_cons, hn]
      exact ih h

/-- The remapping routines in the trace of `solveSFS`: the four of them at the head of
the trace when `useRemapping` is set, none otherwise. -/
theorem solveSFS_routines [Add F] [Mul F] [NatCast F] (E : Externs F) (g : GlobalAppState)
    (st : Statics) (s : CUDAPatchSolverSFS F) (a : SolveArgs F) :
    (solveSFS E g st s a).calls.filterMap Call.remapRoutine =
        (if a.useRemapping then
          [ RemapRoutine.clearDecissionArray, RemapRoutine.computeDecissionArray,
            RemapRoutine.prefixSum, RemapRoutine.computeRemappingArray ]
        else []) ∧
      (a.useRemapping = true →
        ((solveSFS E g st s a).calls.take 4).map Call.remapRoutine =
          [ some RemapRoutine.clearDecissionArray, some RemapRoutine.computeDecissionArray,
            some RemapRoutine.prefixSum, some RemapRoutine.computeRemappingArray ]) := by
  have hsw := (switchMode_selected false E g st
    (bindInputs (remapIfRequested E s a).2.1 a (remapIfRequested E s a).1) (buildParameters a)
    a.deltaTransform (g.s_convergenceAnalysisIsRunning && g.s_playData)).2.2
  have hrest := filterMap_remapRoutine_of_filter_nil _ hsw
  unfold solveSFS
  rw [solveSFSWith_calls]
  constructor
  · rw [List.filterMap_append, hrest, List.append_nil, remapIfRequested_calls]
    split <;> rfl
  · intro hr
    rw [remapIfRequested_calls, if_pos hr]
    rfl

end Entry

/-- C6, as stated, fails. A call with every input buffer `NULL` on a 0 by 0 image with
`useRemapping = true` and the native backend runs the four remapping routines (the two
kernels, the prefix sum, the remap kernel) and then `patchSolveSFSStub`, which is handed
the `NULL` pointers. A call with every buffer present on a 0 by 0 image with
`useRemapping = true` and the AD DSL backend runs the four remapping routines and then
the DSL solve. -/
theorem solveSFS_runs_with_null_buffers_on_empty_domain :
    (freshSolver 0 0).m_solverInput.width * (freshSolver 0 0).m_solverInput.height = 0 ∧
      (solveSFS (specExterns maskNonzero fitStep fitDsl) (plainGlobals 0) noStatics
        (freshSolver 0 0) { blankArgs with useRemapping := true }).calls.map
          Call.remapRoutine =
        [ some RemapRoutine.clearDecissionArray, some RemapRoutine.computeDecissionArray,
          some RemapRoutine.prefixSum, some RemapRoutine.computeRemappingArray, none ] ∧
      (solveSFS (specExterns maskNonzero fitStep fitDsl) (plainGlobals 0) noStatics
        (freshSolver 0 0) { blankArgs with useRemapping := true }).calls.filterMap
          Call.backendSolve = [BackendSolve.native] ∧
      (stubArguments (solveSFS (specExterns maskNonzero fitStep fitDsl) (plainGlobals 0)
        noStatics (freshSolver 0 0) { blankArgs with useRemapping := true }).calls).map
          (fun t => (t.1.d_targetDepth, t.1.d_targetIntensity, t.1.d_litcoeff, t.2.1.d_x)) =
        [(none, none, none, none)] ∧
      readsLighting emptyDomainArgs.d_litcoeff = true ∧
      (solveSFS (specExterns maskNonzero fitStep fitDsl) (plainGlobals 1) noStatics
        (freshSolver 0 0) emptyDomainArgs).calls.filterMap Call.remapRoutine =
        [ RemapRoutine.clearDecissionArray, RemapRoutine.computeDecissionArray,
          RemapRoutine.prefixSum, RemapRoutine.computeRemappingArray ] ∧
      (solveSFS (specExterns maskNonzero fitStep fitDsl) (plainGlobals 1) noStatics
        (freshSolver 0 0) emptyDomainArgs).calls.filterMap Call.backendSolve =
        [BackendSolve.dslAD] := by
  decide

/-- C6, amended. `solveSFS` makes no check of its arguments at entry. For every argument
list (buffers `NULL` or not), every instance (zero-sized or not), every selector and
every extern behaviour: the four remapping routines are the first four calls when
`useRemapping` is set, and no remapping routine is called otherwise. With the native
backend `patchSolveSFSStub` is then called once, and it is handed the buffer pointers as
they were passed to `solveSFS`. With a DSL backend and lighting coefficients that can be
copied, the `solve` of the selected optimizer is called once. -/
theorem solveSFS_checks_no_precondition {F : Type} [Add F] [Mul F] [NatCast F]
    (E : Externs F) (g : GlobalAppState) (st : Statics) (s : CUDAPatchSolverSFS F)
    (a : SolveArgs F) :
    (solveSFS E g st s a).calls.filterMap Call.remapRoutine =
        (if a.useRemapping then
          [ RemapRoutine.clearDecissionArray, RemapRoutine.computeDecissionArray,
            RemapRoutine.prefixSum, RemapRoutine.computeRemappingArray ]
        else []) ∧
      (a.useRemapping = true →
        ((solveSFS E g st s a).calls.take 4).map Call.remapRoutine =
          [ some RemapRoutine.clearDecissionArray, some RemapRoutine.computeDecissionArray,
            some RemapRoutine.prefixSum, some RemapRoutine.computeRemappingArray ]) ∧
      (g.s_optimizer = 0 →
        (solveSFS E g st s a).calls.filterMap Call.backendSolve = [BackendSolve.native] ∧
          (stubArguments (solveSFS E g st s a).calls).map
              (fun t => (t.1.d_targetDepth, t.1.d_depthMapRefinedLastFrameFloat,
                t.1.d_targetIntensity, t.1.d_maskEdgeMap, t.1.d_litcoeff, t.1.d_albedo,
                t.2.1.d_x)) =
            [(a.d_targetDepth, a.d_depthMapRefinedLastFrameFloat, a.d_targetIntensity,
              a.d_maskEdgeMap, a.d_litcoeff, a.d_albedos, a.outputDepth)]) ∧
      (g.s_optimizer ≠ 0 → readsLighting a.d_litcoeff = true →
        (solveSFS E g st s a).calls.filterMap Call.backendSolve =
          [if g.s_optimizer = 1 then BackendSolve.dslAD else BackendSolve.dslNoAD]) := by
  have h := solveSFSWith_shape false E g st s a
  refine ⟨(solveSFS_routines E g st s a).1, (solveSFS_routines E g st s a).2, ?_, ?_⟩
  · intro hg
    constructor
    · unfold solveSFS
      rw [h.1, if_pos hg]
    · unfold solveSFS
      rw [solveSFSWith_native_stubArguments false E g hg, snapshotBlock_false]
      rfl
  · intro hg _
    unfold solveSFS
    rw [h.1, if_neg hg]

end SFS

/-! ## C7: the count reported by the prefix sum -/

namespace SFS

/-- C7, as stated, fails. With a prefix sum that reports 2 active elements on a 1 by 1
image (dense size 1), `solveSFS` with `useRemapping = true` hands 2 to the native
backend as `N` and signals no failure. -/
theorem solveSFS_hands_over_an_excessive_count :
    (remappingStage overcountingExterns (freshSolver 1 1) none).1 = 2 ∧
      (freshSolver 1 1).m_solverInput.width * (freshSolver 1 1).m_solverInput.height = 1 ∧
      handedN (solveSFS overcountingExterns (plainGlobals 0) noStatics (freshSolver 1 1)
        { blankArgs with useRemapping := true }).calls = [2] ∧
      (solveSFS overcountingExterns (plainGlobals 0) noStatics (freshSolver 1 1)
        { blankArgs with useRemapping := true }).calls.all (fun c => !c.isFailure) = true := by
  decide

/-- C7, amended. `solveSFS` makes no check of the count: with `useRemapping = true`
the count the prefix sum reports, whatever its value, is stored in `m_solverInput.N`
and, in native mode, handed to `patchSolveSFSStub` as `N`; no failure is signalled. -/
theorem solveSFS_hands_over_reported_count {F : Type} [Add F] [Mul F] [NatCast F]
    (E : Externs F) (g : GlobalAppState) (hg : g.s_optimizer = 0) (st : Statics)
    (s : CUDAPatchSolverSFS F) (a : SolveArgs F) (hr : a.useRemapping = true) :
    handedN (solveSFS E g st s a).calls = [(remappingStage E s a.d_depthMapMaskFloat).1] ∧
      (solveSFS E g st s a).solver.m_solverInput.N =
        (remappingStage E s a.d_depthMapMaskFloat).1 ∧
      ∀ c ∈ (solveSFS E g st s a).calls, c.isFailure = false := by
  have hm : selectMode g.s_optimizer = SolveMode.CUDA := by rw [hg]; rfl
  refine ⟨?_, ?_, (solveSFSWith_shape false E g st s a).2.1⟩
  · unfold handedN solveSFS
    rw [solveSFSWith_native_stubArguments false E g hg]
    simp [snapshotBlock, bindInputs, remapIfRequested, hr]
  · simp [solveSFS, solveSFSWith, switchMode, hm, cudaCase, snapshotBlock, bindInputs,
      remapIfRequested, hr]

/-- Witness of `solveSFS_hands_over_reported_count` at the faulty prefix sum. -/
theorem solveSFS_hands_over_reported_count_witness :
    (plainGlobals 0).s_optimizer = 0 ∧
      ({ blankArgs with useRemapping := true } : SolveArgs Int).useRemapping = true ∧
      (handedN (solveSFS overcountingExterns (plainGlobals 0) noStatics (freshSolver 1 1)
          { blankArgs with useRemapping := true }).calls =
          [(remappingStage overcountingExterns (freshSolver 1 1)
            ({ blankArgs with useRemapping := true } : SolveArgs Int).d_depthMapMaskFloat).1] ∧
        (solveSFS overcountingExterns (plainGlobals 0) noStatics (freshSolver 1 1)
          { blankArgs with useRemapping := true }).solver.m_solverInput.N =
          (remappingStage overcountingExterns (freshSolver 1 1)
            ({ blankArgs with useRemapping := true } : SolveArgs Int).d_depthMapMaskFloat).1 ∧
        ∀ c ∈ (solveSFS overcountingExterns (plainGlobals 0) noStatics (freshSolver 1 1)
          { blankArgs with useRemapping := true }).calls, c.isFailure = false) :=
  ⟨rfl, rfl,
    solveSFS_hands_over_reported_count overcountingExterns (plainGlobals 0) rfl noStatics
      (freshSolver 1 1) { blankArgs with useRemapping := true } rfl⟩

end SFS

/-! ## C8: diagnostics and the arguments of the native solve -/

namespace SFS

section Snapshot

variable {F : Type}

end Snapshot

end SFS

/-! ## Lemmas on the remapping stage -/

namespace SFS

section Stage

variable {F : Type}

theorem decision_after_clear (valid : Validity F) (d : List Int) (mask : Option (List F))
    (ps w h : Nat) (hd : d.length = w * h) :
    computeDecissionArrayPatchDepthMask valid (clearDecissionArrayPatchDepthMask d w h) mask ps
        w h =
      (List.range (w * h)).map (indicator (valid mask ps w h)) := by
  apply List.ext_getElem?
  intro i
  unfold computeDecissionArrayPatchDepthMask clearDecissionArrayPatchDepthMask
  rw [writeWhere_getElem?, writeWhere_getElem?, List.getElem?_map]
  by_cases hi : i < w * h
  · rw [List.getElem?_range hi, List.getElem?_eq_getElem (by omega)]
    cases hv : valid mask ps w h i <;> simp [indicator, hi, hv]
  · rw [List.getElem?_eq_none (by omega), List.getElem?_eq_none (by simpa using hi)]
    rfl

theorem prefixSum_of_indicator (v : Nat → Bool) (n : Nat) (pre0 : List Int)
    (hp : pre0.length = n) :
    prefixSum n ((List.range n).map (indicator v)) pre0 =
      ((List.range n).countP v,
        (List.range n).map (fun i => (((List.range i).countP v : Nat) : Int))) := by
  have htake : ((List.range n).map (indicator v)).take n = (List.range n).map (indicator v) :=
    List.take_of_length_le (by simp)
  unfold prefixSum
  simp only [htake]
  have hlen : (exclusiveScan 0 ((List.range n).map (indicator v))).1.length = n := by
    rw [exclusiveScan_length]; simp
  have hscan : (exclusiveScan 0 ((List.range n).map (indicator v))).1 =
      (List.range n).map (fun i => (((List.range i).countP v : Nat) : Int)) := by
    apply List.ext_getElem?
    intro i
    by_cases hi : i < n
    · rw [exclusiveScan_getElem? _ _ _ (by simpa using hi),
        take_map_indicator_range v n i (by omega), sum_indicator_range, List.getElem?_map,
        List.getElem?_range hi]
      simp
    · rw [List.getElem?_eq_none (by omega), List.getElem?_eq_none (by simpa using hi)]
  rw [hlen, List.drop_of_length_le (by omega), List.append_nil, hscan, exclusiveScan_total,
    sum_indicator_range]
  simp

/-- The remapping stage with the spec-modelled routines on a well-sized instance: the
count, the decision array, the prefix sums and the remap table in closed form. -/
theorem remappingStage_spec [Add F] [Mul F] [NatCast F] (valid : Validity F) (step : StepRule F)
    (dsl : DslSolve F) (s : CUDAPatchSolverSFS F) (hs : WellSized s) (mask : Option (List F)) :
    (remappingStage (specExterns valid step dsl) s mask).1 =
        (List.range (s.m_solverInput.width * s.m_solverInput.height)).countP
          (valid mask 16 s.m_solverInput.width s.m_solverInput.height) ∧
      (remappingStage (specExterns valid step dsl) s mask).2.1.d_decissionArrayDepthMask =
        (List.range (s.m_solverInput.width * s.m_solverInput.height)).map
          (indicator (valid mask 16 s.m_solverInput.width s.m_solverInput.height)) ∧
      (remappingStage (specExterns valid step dsl) s mask).2.1.d_prefixSumDepthMask =
        (List.range (s.m_solverInput.width * s.m_solverInput.height)).map
          (fun i => (((List.range i).countP
            (valid mask 16 s.m_solverInput.width s.m_solverInput.height) : Nat) : Int)) ∧
      (remappingStage (specExterns valid step dsl) s mask).2.1.d_remappingArrayDepthMask =
        ((List.range (s.m_solverInput.width * s.m_solverInput.height)).filter
            (valid mask 16 s.m_solverInput.width s.m_solverInput.height)).map Int.ofNat ++
          s.d_remappingArrayDepthMask.drop
            ((List.range (s.m_solverInput.width * s.m_solverInput.height)).countP
              (valid mask 16 s.m_solverInput.width s.m_solverInput.height)) := by
  obtain ⟨hd, hp, hr⟩ := hs
  simp only [remappingStage, specExterns]
  rw [decision_after_clear valid _ mask 16 _ _ hd, prefixSum_of_indicator _ _ _ hp]
  refine ⟨rfl, rfl, rfl, ?_⟩
  unfold computeRemappingArrayPatchDepthMask
  apply scatter_eq
  · omega
  · intro i hi
    rw [List.getD_eq_getElem?_getD, List.getElem?_map, List.getElem?_range hi]
    rfl

theorem WellSized_new [Neg F] (rawInt : Nat → Int) (rawFloat : Nat → F)
    (intrinsics : Nat → Nat → F) (w h level : Nat) :
    WellSized (CUDAPatchSolverSFS.new rawInt rawFloat intrinsics w h level) := by
  simp [WellSized, CUDAPatchSolverSFS.new]

end Stage

end SFS

/-! ## C3: the remap table -/

namespace SFS

theorem compacted_getD (l : List Nat) (rest : List Int) (j : Nat) (hj : j < l.length) :
    (l.map Int.ofNat ++ rest).getD j 0 = ((l.getD j 0 : Nat) : Int) := by
  rw [List.getD_eq_getElem?_getD, List.getD_eq_getElem?_getD,
    List.getElem?_append_left (by simpa using hj), List.getElem?_map,
    List.getElem?_eq_getElem hj]
  rfl

/-- C3. On an instance whose mask buffers have `width*height` entries, for every mask
and validity predicate, after the remapping stage (clear, decision, prefix sum, remap,
patch size 16): `remapTable[prefixSum[i]] = i` for every `i` whose decision entry is 1;
the first `numElements` entries of the table exist, are strictly increasing, hence
pairwise different, and lie in `[0, width*height)`. -/
theorem remap_table_is_increasing_injection {F : Type} [Add F] [Mul F] [NatCast F]
    (valid : Validity F) (step : StepRule F) (dsl : DslSolve F) (s : CUDAPatchSolverSFS F)
    (hs : WellSized s) (mask : Option (List F)) :
    (∀ i, i < s.m_solverInput.width * s.m_solverInput.height →
        (remappingStage (specExterns valid step dsl) s mask).2.1.d_decissionArrayDepthMask[i]? =
          some 1 →
        (remappingStage (specExterns valid step dsl) s mask).2.1.d_remappingArrayDepthMask[
            ((remappingStage (specExterns valid step dsl) s
              mask).2.1.d_prefixSumDepthMask.getD i 0).toNat]? = some (i : Int)) ∧
      (remappingStage (specExterns valid step dsl) s mask).1 ≤
        (remappingStage (specExterns valid step dsl) s
          mask).2.1.d_remappingArrayDepthMask.length ∧
      (∀ j k, j < k → k < (remappingStage (specExterns valid step dsl) s mask).1 →
        (remappingStage (specExterns valid step dsl) s mask).2.1.d_remappingArrayDepthMask.getD
            j 0 <
          (remappingStage (specExterns valid step dsl) s
            mask).2.1.d_remappingArrayDepthMask.getD k 0) ∧
      (∀ j k, j < (remappingStage (specExterns valid step dsl) s mask).1 →
        k < (remappingStage (specExterns valid step dsl) s mask).1 →
        (remappingStage (specExterns valid step dsl) s mask).2.1.d_remappingArrayDepthMask.getD
            j 0 =
          (remappingStage (specExterns valid step dsl) s
            mask).2.1.d_remappingArrayDepthMask.getD k 0 →
        j = k) ∧
      (∀ j, j < (remappingStage (specExterns valid step dsl) s mask).1 →
        0 ≤ (remappingStage (specExterns valid step dsl) s
            mask).2.1.d_remappingArrayDepthMask.getD j 0 ∧
          (remappingStage (specExterns valid step dsl) s mask).2.1.d_remappingArrayDepthMask.getD
              j 0 <
            ((s.m_solverInput.width * s.m_solverInput.height : Nat) : Int)) := by
  obtain ⟨h1, h2, h3, h4⟩ := remappingStage_spec valid step dsl s hs mask
  rw [h1, h2, h3, h4]
  generalize s.m_solverInput.width * s.m_solverInput.height = n
  generalize valid mask 16 s.m_solverInput.width s.m_solverInput.height = v
  generalize s.d_remappingArrayDepthMask.drop ((List.range n).countP v) = rest
  have hcount : (List.range n).countP v = ((List.range n).filter v).length :=
    List.countP_eq_length_filter _ _
  have hlt : ∀ j k, j < k → k < (List.range n).countP v →
      (((List.range n).filter v).map Int.ofNat ++ rest).getD j 0 <
        (((List.range n).filter v).map Int.ofNat ++ rest).getD k 0 := by
    intro j k hjk hk
    rw [compacted_getD _ _ _ (by omega), compacted_getD _ _ _ (by omega)]
    exact Int.ofNat_lt.mpr (filter_range_lt v n j k hjk (by omega))
  refine ⟨?_, ?_, hlt, ?_, ?_⟩
  · intro i hi hdec
    rw [List.getElem?_map, List.getElem?_range hi] at hdec
    have hv : v i = true := by
      cases hvi : v i
      · simp [indicator, hvi] at hdec
      · rfl
    have hpos := filter_range_getElem? v n i hi hv
    rw [List.getD_eq_getElem?_getD, List.getElem?_map, List.getElem?_range hi]
    simp only [Option.map_some', Option.getD_some, Int.toNat_ofNat]
    have hidx : (List.range i).countP v < ((List.range n).filter v).length := by
      by_contra hge
      rw [List.getElem?_eq_none (by omega)] at hpos
      simp at hpos
    rw [List.getElem?_append_left (by simpa using hidx), List.getElem?_map, hpos]
    rfl
  · simp [hcount]
  · intro j k hj hk hjk
    rcases Nat.lt_trichotomy j k with h | h | h
    · exact absurd hjk (ne_of_lt (hlt j k h hk))
    · exact h
    · exact absurd hjk.symm (ne_of_lt (hlt k j h hj))
  · intro j hj
    rw [compacted_getD _ _ _ (by omega)]
    exact ⟨Int.ofNat_nonneg _, Int.ofNat_lt.mpr (filter_range_bound v n j (by omega))⟩

/-- Witness of `remap_table_is_increasing_injection`: a 3 by 2 image with the mask
`[1, 0, 1, 1, 0, 1]` on a freshly constructed solver. -/
theorem remap_table_is_increasing_injection_witness :
    WellSized (freshSolver 3 2) ∧
      (remappingStage (specExterns maskNonzero fitStep fitDsl) (freshSolver 3 2)
        (some [1, 0, 1, 1, 0, 1])).1 ≤
        (remappingStage (specExterns maskNonzero fitStep fitDsl) (freshSolver 3 2)
          (some [1, 0, 1, 1, 0, 1])).2.1.d_remappingArrayDepthMask.length ∧
      (remappingStage (specExterns maskNonzero fitStep fitDsl) (freshSolver 3 2)
        (some [1, 0, 1, 1, 0, 1])).2.1.d_remappingArrayDepthMask = [0, 2, 3, 5, 7, 7] :=
  ⟨by decide,
    (remap_table_is_increasing_injection maskNonzero fitStep fitDsl (freshSolver 3 2)
      (by decide) (some [1, 0, 1, 1, 0, 1])).2.1,
    by decide⟩

end SFS

/-! ## Lemmas on what `solveSFS` leaves in the instance -/

namespace SFS

section Frame

variable {F : Type}

theorem terraCase_frame (E : Externs F) (g : GlobalAppState) (st : Statics)
    (s : CUDAPatchSolverSFS F) (parameters : PatchSolverParameters F) (dT : List F)
    (useAD : Bool) (file : String) :
    (terraCase E g st s parameters dT useAD file).solver.m_solverInput = s.m_solverInput ∧
      (terraCase E g st s parameters dT useAD file).solver.d_decissionArrayDepthMask =
        s.d_decissionArrayDepthMask ∧
      (terraCase E g st s parameters dT useAD file).solver.d_prefixSumDepthMask =
        s.d_prefixSumDepthMask ∧
      (terraCase E g st s parameters dT useAD file).solver.d_remappingArrayDepthMask =
        s.d_remappingArrayDepthMask := by
  cases useAD <;> cases h1 : st.s_optimizerAD <;> cases h2 : st.s_optimizerNoAD <;>
    cases h3 : s.m_planAD <;> cases h4 : s.m_planNoAD <;>
    simp [terraCase, maybeInitOptimizerAndPlan, ensureOptimizer, h1, h2, h3, h4, OPT_CPU]

theorem switchMode_frame (E : Externs F) (g : GlobalAppState) (st : Statics)
    (s : CUDAPatchSolverSFS F) (parameters : PatchSolverParameters F) (dT : List F)
    (ca : Bool) (mode : SolveMode) :
    (switchMode false E g st s parameters dT ca mode).solver.m_solverInput = s.m_solverInput ∧
      (switchMode false E g st s parameters dT ca mode).solver.d_decissionArrayDepthMask =
        s.d_decissionArrayDepthMask ∧
      (switchMode false E g st s parameters dT ca mode).solver.d_prefixSumDepthMask =
        s.d_prefixSumDepthMask ∧
      (switchMode false E g st s parameters dT ca mode).solver.d_remappingArrayDepthMask =
        s.d_remappingArrayDepthMask := by
  unfold switchMode
  split
  · simp [cudaCase, snapshotBlock_false]
  · split
    · exact terraCase_frame ..
    · split
      · exact terraCase_frame ..
      · exact ⟨rfl, rfl, rfl, rfl⟩

/-- After `solveSFS` the solver input is the bound input, and the three mask buffers are
as the remapping stage (if any) left them. -/
theorem solveSFS_frame [Add F] [Mul F] [NatCast F] (E : Externs F) (g : GlobalAppState)
    (st : Statics) (s : CUDAPatchSolverSFS F) (a : SolveArgs F) :
    (solveSFS E g st s a).solver.m_solverInput =
        (bindInputs (remapIfRequested E s a).2.1 a (remapIfRequested E s a).1).m_solverInput ∧
      (solveSFS E g st s a).solver.d_decissionArrayDepthMask =
        (remapIfRequested E s a).2.1.d_decissionArrayDepthMask ∧
      (solveSFS E g st s a).solver.d_prefixSumDepthMask =
        (remapIfRequested E s a).2.1.d_prefixSumDepthMask ∧
      (solveSFS E g st s a).solver.d_remappingArrayDepthMask =
        (remapIfRequested E s a).2.1.d_remappingArrayDepthMask := by
  have h := switchMode_frame E g st
    (bindInputs (remapIfRequested E s a).2.1 a (remapIfRequested E s a).1) (buildParameters a)
    a.deltaTransform (g.s_convergenceAnalysisIsRunning && g.s_playData)
    (selectMode g.s_optimizer)
  exact h

/-- In native mode the `N` handed to `patchSolveSFSStub` is the `N` of the solver input
after the call. -/
theorem solveSFS_native_handedN [Add F] [Mul F] [NatCast F] (E : Externs F)
    (g : GlobalAppState) (hg : g.s_optimizer = 0) (st : Statics) (s : CUDAPatchSolverSFS F)
    (a : SolveArgs F) :
    handedN (solveSFS E g st s a).calls = [(solveSFS E g st s a).solver.m_solverInput.N] := by
  rw [(solveSFS_frame E g st s a).1]
  unfold handedN solveSFS
  rw [solveSFSWith_native_stubArguments false E g hg, snapshotBlock_false]
  rfl

/-- A call with `useRemapping = false` leaves `m_solverInput.N` as it found it. -/
theorem solveSFS_dense_keeps_N [Add F] [Mul F] [NatCast F] (E : Externs F)
    (g : GlobalAppState) (st : Statics) (s : CUDAPatchSolverSFS F) (a : SolveArgs F)
    (hr : a.useRemapping = false) :
    (solveSFS E g st s a).solver.m_solverInput.N = s.m_solverInput.N := by
  rw [(solveSFS_frame E g st s a).1]
  simp [bindInputs, remapIfRequested, hr]

/-- A freshly constructed instance has the dense element count. -/
theorem new_N [Neg F] (rawInt : Nat → Int) (rawFloat : Nat → F) (intrinsics : Nat → Nat → F)
    (w h level : Nat) :
    (CUDAPatchSolverSFS.new rawInt rawFloat intrinsics w h level).m_solverInput.N = w * h :=
  rfl

theorem getLast?_range_map (f : Nat → Int) (n : Nat) :
    ((List.range n).map f).getLast?.getD 0 = if n = 0 then 0 else f (n - 1) := by
  cases n with
  | zero => rfl
  | succ m => simp [List.range_succ]

end Frame

end SFS

/-! ## C2: the element count under remapping -/

namespace SFS

/-- C2, as stated, fails. On a 2 by 1 image whose two elements are both active the
decision array is `[1, 1]`, its exclusive prefix sum is `[0, 1]` with last entry 1, and
`solveSFS` with `useRemapping = true` hands the native backend `N = 2`, the number of
entries equal to 1: `N` is not the last entry of the exclusive prefix sum. -/
theorem handed_count_is_not_last_prefix_entry :
    (solveSFS (specExterns maskNonzero fitStep fitDsl) (plainGlobals 0) noStatics
        (freshSolver 2 1)
        { blankArgs with useRemapping := true, d_depthMapMaskFloat := some [1, 1] }
      ).solver.d_decissionArrayDepthMask = [1, 1] ∧
      (solveSFS (specExterns maskNonzero fitStep fitDsl) (plainGlobals 0) noStatics
        (freshSolver 2 1)
        { blankArgs with useRemapping := true, d_depthMapMaskFloat := some [1, 1] }
      ).solver.d_prefixSumDepthMask = [0, 1] ∧
      handedN (solveSFS (specExterns maskNonzero fitStep fitDsl) (plainGlobals 0) noStatics
        (freshSolver 2 1)
        { blankArgs with useRemapping := true, d_depthMapMaskFloat := some [1, 1] }
      ).calls = [2] := by
  decide

/-- C2, amended. On an instance whose mask buffers have `width*height` entries, for
every mask and validity predicate, after `solveSFS` with `useRemapping = true` the
element count `N` of the solver input (which in native mode is the `N` handed to
`patchSolveSFSStub`) equals the last entry of the exclusive prefix sum plus the last
entry of the decision array, it equals the number of decision entries equal to 1, and
it is at most `width*height`. -/
theorem remapped_count_is_number_of_active_elements {F : Type} [Add F] [Mul F] [NatCast F]
    (valid : Validity F) (step : StepRule F) (dsl : DslSolve F) (g : GlobalAppState)
    (st : Statics) (s : CUDAPatchSolverSFS F) (hs : WellSized s) (a : SolveArgs F)
    (hr : a.useRemapping = true) :
    (((solveSFS (specExterns valid step dsl) g st s a).solver.m_solverInput.N : Nat) : Int) =
        (solveSFS (specExterns valid step dsl) g st s a).solver.d_prefixSumDepthMask.getLast?.getD
            0 +
          (solveSFS (specExterns valid step dsl) g st s
            a).solver.d_decissionArrayDepthMask.getLast?.getD 0 ∧
      (solveSFS (specExterns valid step dsl) g st s a).solver.m_solverInput.N =
        (solveSFS (specExterns valid step dsl) g st s a).solver.d_decissionArrayDepthMask.count
          1 ∧
      (solveSFS (specExterns valid step dsl) g st s a).solver.m_solverInput.N ≤
        s.m_solverInput.width * s.m_solverInput.height ∧
      (g.s_optimizer = 0 →
        handedN (solveSFS (specExterns valid step dsl) g st s a).calls =
          [(solveSFS (specExterns valid step dsl) g st s a).solver.m_solverInput.N]) := by
  obtain ⟨f1, f2, f3, -⟩ := solveSFS_frame (specExterns valid step dsl) g st s a
  obtain ⟨h1, h2, h3, -⟩ := remappingStage_spec valid step dsl s hs a.d_depthMapMaskFloat
  have hN : (solveSFS (specExterns valid step dsl) g st s a).solver.m_solverInput.N =
      (remappingStage (specExterns valid step dsl) s a.d_depthMapMaskFloat).1 := by
    rw [f1]
    simp [bindInputs, remapIfRequested, hr]
  have hstage : remapIfRequested (specExterns valid step dsl) s a =
      remappingStage (specExterns valid step dsl) s a.d_depthMapMaskFloat := by
    simp [remapIfRequested, hr]
  refine ⟨?_, ?_, ?_, fun hg => solveSFS_native_handedN (specExterns valid step dsl) g hg st s a⟩
  all_goals rw [hN]
  all_goals try rw [f2, hstage, h2]
  all_goals try rw [f3, hstage, h3]
  all_goals rw [h1]
  all_goals generalize s.m_solverInput.width * s.m_solverInput.height = n
  all_goals
    generalize valid a.d_depthMapMaskFloat 16 s.m_solverInput.width s.m_solverInput.height = v
  · rw [getLast?_range_map, getLast?_range_map]
    cases n with
    | zero => simp
    | succ m =>
      rw [List.range_succ, List.countP_append]
      cases hv : v m <;> simp [indicator, hv]
  · exact (count_one_indicator_range v n).symm
  · have := List.countP_le_length v (l := List.range n)
    simpa using this

/-- Witness of `remapped_count_is_number_of_active_elements`: the 2 by 1 image with both
elements active, native mode. -/
theorem remapped_count_is_number_of_active_elements_witness :
    WellSized (freshSolver 2 1) ∧
      ({ blankArgs with useRemapping := true, d_depthMapMaskFloat := some [1, 1] } :
        SolveArgs Int).useRemapping = true ∧
      (solveSFS (specExterns maskNonzero fitStep fitDsl) (plainGlobals 0) noStatics
        (freshSolver 2 1)
        { blankArgs with useRemapping := true, d_depthMapMaskFloat := some [1, 1] }
      ).solver.m_solverInput.N =
        (solveSFS (specExterns maskNonzero fitStep fitDsl) (plainGlobals 0) noStatics
          (freshSolver 2 1)
          { blankArgs with useRemapping := true, d_depthMapMaskFloat := some [1, 1] }
        ).solver.d_decissionArrayDepthMask.count 1 :=
  ⟨by decide, rfl,
    (remapped_count_is_number_of_active_elements maskNonzero fitStep fitDsl (plainGlobals 0)
      noStatics (freshSolver 2 1) (by decide)
      { blankArgs with useRemapping := true, d_depthMapMaskFloat := some [1, 1] } rfl).2.1⟩

end SFS

/-! ## C4: a mask with no active element -/

namespace SFS

section ZeroActive

variable {F : Type}

theorem decision_take_all_zero (valid : Validity F) (d : List Int) (mask : Option (List F))
    (ps w h : Nat) (hz : ∀ i, i < w * h → valid mask ps w h i = false) :
    ∀ x ∈ (computeDecissionArrayPatchDepthMask valid (clearDecissionArrayPatchDepthMask d w h)
      mask ps w h).take (w * h), x = 0 := by
  intro x hx
  obtain ⟨i, hi⟩ := List.mem_iff_getElem?.mp hx
  rw [List.getElem?_take] at hi
  split at hi
  · rename_i hlt
    unfold computeDecissionArrayPatchDepthMask clearDecissionArrayPatchDepthMask at hi
    rw [writeWhere_getElem?, writeWhere_getElem?] at hi
    cases hd : d[i]? with
    | none => simp [hd] at hi
    | some y =>
      simp [hd, hlt, hz i hlt] at hi
      exact hi.symm
  · exact absurd hi (by simp)

theorem remappingStage_zero_active [Add F] [Mul F] [NatCast F] (valid : Validity F)
    (step : StepRule F) (dsl : DslSolve F) (s : CUDAPatchSolverSFS F) (mask : Option (List F))
    (hz : ∀ i, i < s.m_solverInput.width * s.m_solverInput.height →
      valid mask 16 s.m_solverInput.width s.m_solverInput.height i = false) :
    (remappingStage (specExterns valid step dsl) s mask).1 = 0 := by
  simp only [remappingStage, specExterns, prefixSum]
  rw [exclusiveScan_total, List.sum_eq_zero (decision_take_all_zero valid _ mask 16 _ _ hz)]
  rfl

theorem applyStep_nil [Add F] (delta : Nat → F) (x : List F) : applyStep delta [] x = x := rfl

theorem foldl_const {α β : Type} (f : α → β → α) (x : α) (l : List β)
    (hf : ∀ y b, f y b = y) : l.foldl f x = x := by
  induction l with
  | nil => rfl
  | cons b bs ih => rw [List.foldl_cons, hf, ih]

/-- The native driver of the spec over an empty domain leaves the state as it is. -/
theorem patchSolveSFSStub_empty_domain [Add F] [Mul F] [NatCast F] (step : StepRule F)
    (input : PatchSolverInput F) (hN : input.N = 0) (state : PatchSolverState F)
    (parameters : PatchSolverParameters F) (ca : Bool) :
    patchSolveSFSStub step input state parameters ca = state := by
  have hact : activeElements input = [] := by
    unfold activeElements
    split <;> simp [hN]
  unfold patchSolveSFSStub
  simp only [hact, applyStep_nil]
  rw [show (fun x0 : List F =>
      (List.range parameters.nNonLinearIterations).foldl (fun x _ => x) x0) = id from
    funext fun x0 => foldl_const _ x0 _ (fun _ _ => rfl)]
  simp

/-- The DSL backends get the same arguments whether or not remapping is requested. -/
theorem dsl_result_ignores_remapping [Add F] [Mul F] [NatCast F] (E : Externs F)
    (g : GlobalAppState) (hg : g.s_optimizer ≠ 0) (st : Statics) (s : CUDAPatchSolverSFS F)
    (a : SolveArgs F) :
    (solveSFS E g st s a).solver.m_solverState.d_x =
      (solveSFS E g st s { a with useRemapping := false }).solver.m_solverState.d_x := by
  by_cases h1 : g.s_optimizer = 1
  · have hm : selectMode g.s_optimizer = 1 := by rw [h1]; rfl
    cases hr : a.useRemapping <;> cases h2 : st.s_optimizerAD <;> cases h3 : s.m_planAD <;>
      simp [solveSFS, solveSFSWith, switchMode, hm, SolveMode.CUDA, SolveMode.TERRA_AD,
        terraCase, maybeInitOptimizerAndPlan, ensureOptimizer, constructTerraInput,
        remapIfRequested, remappingStage, bindInputs, buildParameters, hr, h2, h3, OPT_CPU]
  · have hm : selectMode g.s_optimizer = 0 := selectMode_other _ hg h1
    cases hr : a.useRemapping <;> cases h2 : st.s_optimizerNoAD <;> cases h3 : s.m_planNoAD <;>
      simp [solveSFS, solveSFSWith, switchMode, hm, SolveMode.CUDA, SolveMode.TERRA_AD,
        SolveMode.TERRA_NO_AD, terraCase, maybeInitOptimizerAndPlan, ensureOptimizer,
        constructTerraInput, remapIfRequested, remappingStage, bindInputs, buildParameters, hr,
        h2, h3, OPT_CPU]

end ZeroActive

/-- C4, as stated, fails. On a 1 by 1 image whose only element is masked out (mask
`[0]`), with every buffer present (the 9 lighting coefficients among them), the AD DSL
backend selected and `useRemapping = true`, the remapped count left in the solver input is
0, and a DSL solver that fits the dense image to the target turns the unknown field `[0]`
into `[5]`. -/
theorem zero_active_dsl_solve_changes_field :
    frameArgs.useRemapping = true ∧ frameArgs.outputDepth = some [0] ∧
      readsLighting frameArgs.d_litcoeff = true ∧
      (∀ i, i < (freshSolver 1 1).m_solverInput.width * (freshSolver 1 1).m_solverInput.height →
        maskNonzero frameArgs.d_depthMapMaskFloat 16 (freshSolver 1 1).m_solverInput.width
          (freshSolver 1 1).m_solverInput.height i = false) ∧
      (solveSFS (specExterns maskNonzero fitStep fitDsl) (plainGlobals 1) noStatics
        (freshSolver 1 1) frameArgs).solver.m_solverInput.N = 0 ∧
      (solveSFS (specExterns maskNonzero fitStep fitDsl) (plainGlobals 1) noStatics
        (freshSolver 1 1) frameArgs).solver.m_solverState.d_x = some [5] := by
  decide

/-- C4, amended. For every mask with zero active elements and `useRemapping = true`:
with the native CUDA backend (`s_optimizer = 0`, driver as in the spec) `solveSFS` leaves
the unknown field identical to the buffer passed as `outputDepth`; with either DSL
backend (`s_optimizer ≠ 0`, any extern behaviour) the resulting field is the one the
same call yields with `useRemapping = false`, the dense solve. -/
theorem zero_active_native_noop_dsl_dense {F : Type} [Add F] [Mul F] [NatCast F]
    (valid : Validity F) (step : StepRule F) (dsl : DslSolve F) (g : GlobalAppState)
    (st : Statics) (s : CUDAPatchSolverSFS F) (a : SolveArgs F) (hr : a.useRemapping = true)
    (hz : ∀ i, i < s.m_solverInput.width * s.m_solverInput.height →
      valid a.d_depthMapMaskFloat 16 s.m_solverInput.width s.m_solverInput.height i = false) :
    (g.s_optimizer = 0 →
        (solveSFS (specExterns valid step dsl) g st s a).solver.m_solverState.d_x =
          a.outputDepth) ∧
      (∀ E : Externs F, g.s_optimizer ≠ 0 →
        (solveSFS E g st s a).solver.m_solverState.d_x =
          (solveSFS E g st s { a with useRemapping := false }).solver.m_solverState.d_x) := by
  refine ⟨fun hg => ?_, fun E hg => dsl_result_ignores_remapping E g hg st s a⟩
  have hm : selectMode g.s_optimizer = SolveMode.CUDA := by rw [hg]; rfl
  have h0 := remappingStage_zero_active valid step dsl s a.d_depthMapMaskFloat hz
  simp only [solveSFS, solveSFSWith, switchMode, hm, if_true, cudaCase, snapshotBlock_false]
  have hbind : (bindInputs (remapIfRequested (specExterns valid step dsl) s a).2.1 a
      (remapIfRequested (specExterns valid step dsl) s a).1).m_solverInput.N = 0 := by
    simp [bindInputs, remapIfRequested, hr, h0]
  exact (congrArg PatchSolverState.d_x
    (patchSolveSFSStub_empty_domain step _ hbind _ (buildParameters a)
      (g.s_convergenceAnalysisIsRunning && g.s_playData))).trans rfl

/-- Witness of `zero_active_native_noop_dsl_dense`: the 1 by 1 image with mask `[0]`,
native mode, two nonlinear steps. The field stays `[0]`; with the element active (mask
`[1]`) the same call turns it into `[5]`. -/
theorem zero_active_native_noop_dsl_dense_witness :
    frameArgs.useRemapping = true ∧
      (∀ i, i < (freshSolver 1 1).m_solverInput.width * (freshSolver 1 1).m_solverInput.height →
        maskNonzero frameArgs.d_depthMapMaskFloat 16 (freshSolver 1 1).m_solverInput.width
          (freshSolver 1 1).m_solverInput.height i = false) ∧
      frameArgs.nNonLinearIterations = 2 ∧
      (solveSFS (specExterns maskNonzero fitStep fitDsl) (plainGlobals 0) noStatics
        (freshSolver 1 1) frameArgs).solver.m_solverState.d_x = some [0] ∧
      (solveSFS (specExterns maskNonzero fitStep fitDsl) (plainGlobals 0) noStatics
        (freshSolver 1 1)
        { frameArgs with d_depthMapMaskFloat := some [1] }).solver.m_solverState.d_x =
        some [5] :=
  ⟨rfl, by decide, rfl,
    (zero_active_native_noop_dsl_dense maskNonzero fitStep fitDsl (plainGlobals 0) noStatics
      (freshSolver 1 1) frameArgs rfl (by decide)).1 rfl,
    by decide⟩

end SFS

/-! ## C5: the element count of a dense call after a remapped call -/

namespace SFS

/-- C5, evaluated at the failing input. On a freshly constructed solver for a 2 by 1
image (dense size 2), a remapped call whose mask `[1, 0]` has one active element hands
the native backend `N = 1`; the following call with `useRemapping = false` hands it
`N = 1` again, not `2`. -/
theorem dense_call_after_remapped_call_hands_stale_count :
    (freshSolver 2 1).m_solverInput.N = 2 ∧
      (solveSFSSeq (specExterns maskNonzero fitStep fitDsl) noStatics (freshSolver 2 1)
        [ (plainGlobals 0,
            { blankArgs with useRemapping := true, d_depthMapMaskFloat := some [1, 0] }),
          (plainGlobals 0, { blankArgs with useRemapping := false }) ]).map
        (fun r => handedN r.calls) = [[1], [1]] := by
  decide

end SFS

/-! ## Lemmas on the outer loop of `CombinedSolver::solve` -/

namespace ARAP

section Loop

variable {F : Type}

theorem faulted_singleton (e : Event F) : faulted [e] = e.isFault := by
  simp [faulted]

theorem faulted_append (l1 l2 : List (Event F)) :
    faulted (l1 ++ l2) = (faulted l1 || faulted l2) := by
  simp [faulted]

theorem andThen_of_not_faulted (l1 l2 : List (Event F)) (h : faulted l1 = false) :
    andThen l1 l2 = l1 ++ l2 := by
  simp [andThen, h]

theorem andThen_of_faulted (l1 l2 : List (Event F)) (h : faulted l1 = true) :
    andThen l1 l2 = l1 := by
  simp [andThen, h]

theorem andThen_nil (l : List (Event F)) : andThen [] l = l := by
  simp [andThen, faulted]

theorem faulted_invokeSolver [NatCast F] (p : CombinedSolverParameters) (b : Backend) :
    faulted (invokeSolver p b : List (Event F)) = decide (b = Backend.TERRA) := by
  cases b <;> simp [faulted, invokeSolver, Event.isFault]

/-- The body of the loop for a backend other than TERRA: the four steps in a row. -/
theorem outerLoop_succ_of_ne [NatCast F] [Div F] (p : CombinedSolverParameters) (b : Backend)
    (hb : b ≠ Backend.TERRA) (fuel i : Nat) :
    (outerLoop p b (fuel + 1) i : List (Event F)) =
      if i < p.numIter then
        [Event.setConstraints ((i : F) / ((p.numIter - 1 : Nat) : F))] ++ invokeSolver p b ++
          [Event.earlyOutTest] ++ (if p.earlyOut then [] else outerLoop p b fuel (i + 1))
      else [] := by
  rw [outerLoop]
  split
  · rw [andThen_of_not_faulted]
    · simp
    · rw [faulted_append, faulted_invokeSolver]
      simp [faulted, Event.isFault, hb]
  · rfl

/-- The body of the loop for TERRA: the run stops in the solver invocation. -/
theorem outerLoop_succ_terra [NatCast F] [Div F] (p : CombinedSolverParameters)
    (fuel i : Nat) :
    (outerLoop p Backend.TERRA (fuel + 1) i : List (Event F)) =
      if i < p.numIter then
        [Event.setConstraints ((i : F) / ((p.numIter - 1 : Nat) : F)),
          Event.nullDereference "m_terraWarpingSolver"]
      else [] := by
  rw [outerLoop]
  split
  · rw [andThen_of_faulted]
    · simp [invokeSolver]
    · simp [faulted, invokeSolver, Event.isFault]
  · rfl

theorem outerLoop_of_le [NatCast F] [Div F] (p : CombinedSolverParameters) (b : Backend)
    (fuel i : Nat) (h : p.numIter ≤ i) : (outerLoop p b fuel i : List (Event F)) = [] := by
  cases fuel with
  | zero => rfl
  | succ fuel =>
    rw [outerLoop]
    simp [Nat.not_lt.mpr h]

theorem faulted_outerLoop_of_ne [NatCast F] [Div F] (p : CombinedSolverParameters)
    (b : Backend) (hb : b ≠ Backend.TERRA) (fuel i : Nat) :
    faulted (outerLoop p b fuel i : List (Event F)) = false := by
  induction fuel generalizing i with
  | zero => rfl
  | succ fuel ih =>
    rw [outerLoop_succ_of_ne p b hb]
    split
    · simp only [faulted_append, faulted_invokeSolver, faulted_singleton]
      cases p.earlyOut
      · simp only [Bool.false_eq_true, if_false, ih (i + 1)]
        simp [Event.isFault, hb]
      · simp only [if_true]
        simp [Event.isFault, hb, faulted]
    · rfl

theorem gpuSolve_of_ne [NatCast F] [Div F] (p : CombinedSolverParameters) (b : Backend)
    (hb : b ≠ Backend.TERRA) (condition : Bool) :
    (gpuSolve p b condition : List (Event F)) =
      if condition then
        [Event.resetGPUMemory] ++ outerLoop p b p.numIter 1 ++ [Event.copyResultToCPUFromFloat3]
      else [] := by
  unfold gpuSolve
  split
  · rw [andThen_of_not_faulted]
    rw [faulted_append, faulted_outerLoop_of_ne p b hb]
    simp [faulted, Event.isFault]
  · rfl

theorem ceresSolve_eq [NatCast F] [Div F] (p : CombinedSolverParameters) :
    (ceresSolve p : List (Event F)) =
      if p.useCeres then
        [Event.resetGPUMemory, Event.downloadBuffers] ++ outerLoop p Backend.CERES p.numIter 1 ++
          [Event.uploadPositions, Event.copyResultToCPUFromFloat3]
      else [] := by
  unfold ceresSolve
  split
  · rw [andThen_of_not_faulted]
    rw [faulted_append, faulted_outerLoop_of_ne p _ (by decide)]
    simp [faulted, Event.isFault]
  · rfl

theorem faulted_gpuSolve_of_ne [NatCast F] [Div F] (p : CombinedSolverParameters)
    (b : Backend) (hb : b ≠ Backend.TERRA) (condition : Bool) :
    faulted (gpuSolve p b condition : List (Event F)) = false := by
  rw [gpuSolve_of_ne p b hb]
  split
  · simp only [faulted_append, faulted_outerLoop_of_ne p b hb]
    simp [faulted, Event.isFault]
  · rfl

theorem faulted_ceresSolve [NatCast F] [Div F] (p : CombinedSolverParameters) :
    faulted (ceresSolve p : List (Event F)) = false := by
  rw [ceresSolve_eq]
  split
  · simp only [faulted_append, faulted_outerLoop_of_ne p _ (by decide : Backend.CERES ≠ _)]
    simp [faulted, Event.isFault]
  · rfl

/-- TERRA enabled with at least one iteration to run: the block stops in the first
solver invocation. -/
theorem gpuSolve_terra_faults [NatCast F] [Div F] (p : CombinedSolverParameters)
    (hn : 2 ≤ p.numIter) :
    (gpuSolve p Backend.TERRA true : List (Event F)) =
      [Event.resetGPUMemory,
        Event.setConstraints (((1 : Nat) : F) / ((p.numIter - 1 : Nat) : F)),
        Event.nullDereference "m_terraWarpingSolver"] := by
  obtain ⟨fuel, hfuel⟩ : ∃ fuel, p.numIter = fuel + 1 := ⟨p.numIter - 1, by omega⟩
  unfold gpuSolve
  rw [if_pos rfl]
  have hloop : (outerLoop p Backend.TERRA p.numIter 1 : List (Event F)) =
      [Event.setConstraints (((1 : Nat) : F) / ((p.numIter - 1 : Nat) : F)),
        Event.nullDereference "m_terraWarpingSolver"] := by
    conv_lhs => rw [hfuel]
    rw [outerLoop_succ_terra, if_pos (by omega)]
  rw [hloop, andThen_of_faulted]
  · rfl
  · simp [faulted, Event.isFault]

/-- TERRA without an iteration to run: the block does not touch the solver. -/
theorem gpuSolve_terra_idle [NatCast F] [Div F] (p : CombinedSolverParameters)
    (hn : p.numIter ≤ 1) (condition : Bool) :
    (gpuSolve p Backend.TERRA condition : List (Event F)) =
      if condition then [Event.resetGPUMemory, Event.copyResultToCPUFromFloat3] else [] := by
  unfold gpuSolve
  split
  · rw [outerLoop_of_le p _ _ _ hn, andThen_of_not_faulted]
    · rfl
    · simp [faulted, Event.isFault]
  · rfl

/-- A run in which the TERRA block does not fault (TERRA off, or no iteration to run):
the blocks of the five backends one after the other. -/
theorem solve_of_no_terra_fault [NatCast F] [Div F] (p : CombinedSolverParameters)
    (h : p.useTerra = false ∨ p.numIter ≤ 1) :
    (solve p : List (Event F)) =
      gpuSolve p Backend.CUDA (p.useCUDA != false) ++
        gpuSolve p Backend.TERRA (p.useTerra != false) ++
        gpuSolve p Backend.OPT (p.useOpt != false) ++
        gpuSolve p Backend.OPT_LM (p.useOptLM != false) ++ ceresSolve p := by
  have hterra : faulted (gpuSolve p Backend.TERRA (p.useTerra != false) : List (Event F)) =
      false := by
    rcases h with h | h
    · simp [h, gpuSolve, faulted]
    · rw [gpuSolve_terra_idle p h]
      split <;> simp [faulted, Event.isFault]
  unfold solve
  rw [andThen_of_not_faulted _ _ (faulted_gpuSolve_of_ne p _ (by decide) _),
    andThen_of_not_faulted _ _ hterra,
    andThen_of_not_faulted _ _ (faulted_gpuSolve_of_ne p _ (by decide) _),
    andThen_of_not_faulted _ _ (faulted_gpuSolve_of_ne p _ (by decide) _)]
  simp only [List.append_assoc]

/-- A run with TERRA on and an iteration to run: after the CUDA block the run stops in
the first solver invocation of TERRA; the blocks of OPT, OPT_LM and Ceres are not reached. -/
theorem solve_of_terra_fault [NatCast F] [Div F] (p : CombinedSolverParameters)
    (ht : p.useTerra = true) (hn : 2 ≤ p.numIter) :
    (solve p : List (Event F)) =
      gpuSolve p Backend.CUDA (p.useCUDA != false) ++
        [Event.resetGPUMemory,
          Event.setConstraints (((1 : Nat) : F) / ((p.numIter - 1 : Nat) : F)),
          Event.nullDereference "m_terraWarpingSolver"] := by
  unfold solve
  rw [andThen_of_not_faulted _ _ (faulted_gpuSolve_of_ne p _ (by decide) _)]
  have : (p.useTerra != false) = true := by simp [ht]
  rw [this, gpuSolve_terra_faults p hn, andThen_of_faulted]
  simp [faulted, Event.isFault]

theorem invocations_append (b : Backend) (l1 l2 : List (Event F)) :
    invocations b (l1 ++ l2) = invocations b l1 + invocations b l2 :=
  List.countP_append _ _ _

theorem invocations_invokeSolver [NatCast F] (p : CombinedSolverParameters) (b c : Backend) :
    invocations b (invokeSolver p c : List (Event F)) =
      if c = b ∧ c ≠ Backend.TERRA then 1 else 0 := by
  cases b <;> cases c <;> simp [invocations, invokeSolver, Event.isSolveOf]

theorem invocations_outerLoop [NatCast F] [Div F] (p : CombinedSolverParameters)
    (b c : Backend) (hc : c ≠ Backend.TERRA) (fuel i : Nat) (hfuel : p.numIter - i ≤ fuel) :
    invocations b (outerLoop p c fuel i : List (Event F)) =
      if c = b then (if p.earlyOut then min 1 (p.numIter - i) else p.numIter - i) else 0 := by
  induction fuel generalizing i with
  | zero =>
    have : p.numIter - i = 0 := by omega
    simp [outerLoop, invocations, this]
  | succ fuel ih =>
    rw [outerLoop_succ_of_ne p c hc]
    by_cases hi : i < p.numIter
    · simp only [hi, if_true, invocations_append, invocations_invokeSolver]
      cases he : p.earlyOut
      · simp only [Bool.false_eq_true, if_false]
        rw [ih (i + 1) (by omega)]
        by_cases hcb : c = b
        · subst hcb
          simp [hc, he, invocations, Event.isSolveOf]
          omega
        · simp [hcb, invocations, Event.isSolveOf]
      · by_cases hcb : c = b
        · subst hcb
          simp [hc, invocations, Event.isSolveOf]
          omega
        · simp [hcb, invocations, Event.isSolveOf]
    · have : p.numIter - i = 0 := by omega
      simp [hi, invocations, this]

theorem invocations_gpuSolve [NatCast F] [Div F] (p : CombinedSolverParameters)
    (b c : Backend) (hc : c ≠ Backend.TERRA) (condition : Bool) :
    invocations b (gpuSolve p c condition : List (Event F)) =
      if condition = true ∧ c = b then
        (if p.earlyOut then min 1 (p.numIter - 1) else p.numIter - 1)
      else 0 := by
  rw [gpuSolve_of_ne p c hc]
  cases condition
  · simp [invocations]
  · simp only [if_true, invocations_append,
      invocations_outerLoop p b c hc p.numIter 1 (by omega)]
    by_cases hcb : c = b <;> simp [hcb, invocations, Event.isSolveOf]

theorem invocations_gpuSolve_terra [NatCast F] [Div F] (p : CombinedSolverParameters)
    (b : Backend) (condition : Bool) :
    invocations b (gpuSolve p Backend.TERRA condition : List (Event F)) = 0 := by
  cases condition
  · simp [gpuSolve, invocations]
  · by_cases hn : 2 ≤ p.numIter
    · rw [gpuSolve_terra_faults p hn]
      simp [invocations, Event.isSolveOf]
    · rw [gpuSolve_terra_idle p (by omega)]
      simp [invocations, Event.isSolveOf]

theorem invocations_ceresSolve [NatCast F] [Div F] (p : CombinedSolverParameters)
    (b : Backend) :
    invocations b (ceresSolve p : List (Event F)) =
      if p.useCeres = true ∧ Backend.CERES = b then
        (if p.earlyOut then min 1 (p.numIter - 1) else p.numIter - 1)
      else 0 := by
  rw [ceresSolve_eq]
  cases p.useCeres
  · simp [invocations]
  · simp only [if_true, invocations_append,
      invocations_outerLoop p b Backend.CERES (by decide) p.numIter 1 (by omega)]
    by_cases hc : Backend.CERES = b <;> simp [hc, invocations, Event.isSolveOf]

/-- The number of solver invocations of each backend in a run in which the TERRA block
does not fault: `numIter - 1` for an enabled backend (1 at most with `earlyOut`), 0 for
the others. -/
theorem invocations_solve [NatCast F] [Div F] (p : CombinedSolverParameters) (b : Backend)
    (h : p.useTerra = false ∨ p.numIter ≤ 1) :
    invocations b (solve p : List (Event F)) =
      if enabled p b then (if p.earlyOut then min 1 (p.numIter - 1) else p.numIter - 1)
      else 0 := by
  rw [solve_of_no_terra_fault p h]
  simp only [invocations_append, invocations_gpuSolve_terra, invocations_ceresSolve,
    invocations_gpuSolve p b _ (by decide : Backend.CUDA ≠ Backend.TERRA),
    invocations_gpuSolve p b _ (by decide : Backend.OPT ≠ Backend.TERRA),
    invocations_gpuSolve p b _ (by decide : Backend.OPT_LM ≠ Backend.TERRA)]
  rcases h with h | h
  · cases b <;> simp only [enabled, h] <;> simp
  · have h0 : p.numIter - 1 = 0 := by omega
    rw [h0]
    cases b <;> simp [enabled]

end Loop

end ARAP

/-! ## C9: solver invocations of the outer loop -/

namespace ARAP

section Tests

variable {F : Type}

theorem TestsFollowSolves_of_no_test (l : List (Event F))
    (h : ∀ e ∈ l, e.isEarlyOutTest = false) : TestsFollowSolves l := by
  intro pre post hl
  have hmem : (Event.earlyOutTest : Event F) ∈ l := by rw [hl]; simp
  have := h _ hmem
  simp [Event.isEarlyOutTest] at this

theorem TestsFollowSolves_append (l1 l2 : List (Event F)) (h1 : TestsFollowSolves l1)
    (h2 : TestsFollowSolves l2) : TestsFollowSolves (l1 ++ l2) := by
  intro pre post hl
  rcases List.append_eq_append_iff.mp hl with ⟨a, ha, hb⟩ | ⟨c, hc, hd⟩
  · obtain ⟨pre2, e, hpre, he⟩ := h2 a post hb
    exact ⟨l1 ++ pre2, e, by rw [ha, hpre, List.append_assoc], he⟩
  · cases c with
    | nil =>
      simp only [List.nil_append] at hd
      obtain ⟨pre2, e, hpre, he⟩ := h2 [] post (by simpa using hd.symm)
      simp at hpre
    | cons x xs =>
      simp only [List.cons_append, List.cons.injEq] at hd
      obtain ⟨hx, -⟩ := hd
      exact h1 pre xs (by rw [hc, hx])

theorem TestsFollowSolves_andThen (l1 l2 : List (Event F)) (h1 : TestsFollowSolves l1)
    (h2 : TestsFollowSolves l2) : TestsFollowSolves (andThen l1 l2) := by
  unfold andThen
  split
  · exact h1
  · exact TestsFollowSolves_append l1 l2 h1 h2

theorem TestsFollowSolves_body (l : List (Event F)) (s : Event F) (hs : s.isSolve = true)
    (h : ∀ e ∈ l, e.isEarlyOutTest = false) :
    TestsFollowSolves (l ++ [s] ++ [Event.earlyOutTest]) := by
  intro pre post hl
  have hs2 : s.isEarlyOutTest = false := by
    cases s <;> simp_all [Event.isSolve, Event.isEarlyOutTest]
  rcases List.append_eq_append_iff.mp hl with ⟨a, ha, hb⟩ | ⟨c, hc, hd⟩
  · cases a with
    | nil => exact ⟨l, s, by simpa using ha, hs⟩
    | cons x xs => simp at hb
  · cases c with
    | nil => exact ⟨l, s, by simpa using hc.symm, hs⟩
    | cons x xs =>
      simp only [List.cons_append, List.cons.injEq] at hd
      obtain ⟨hx, -⟩ := hd
      have hmem : (Event.earlyOutTest : Event F) ∈ l ++ [s] := by rw [hc, ← hx]; simp
      rcases List.mem_append.mp hmem with hm | hm
      · have := h _ hm
        simp [Event.isEarlyOutTest] at this
      · simp at hm
        rw [← hm] at hs2
        simp [Event.isEarlyOutTest] at hs2

theorem TestsFollowSolves_outerLoop [NatCast F] [Div F] (p : CombinedSolverParameters)
    (b : Backend) (fuel i : Nat) : TestsFollowSolves (outerLoop p b fuel i : List (Event F)) := by
  induction fuel generalizing i with
  | zero => exact TestsFollowSolves_of_no_test _ (by simp [outerLoop])
  | succ fuel ih =>
    by_cases hterra : b = Backend.TERRA
    · subst hterra
      rw [outerLoop_succ_terra]
      split
      · exact TestsFollowSolves_of_no_test _ (by simp [Event.isEarlyOutTest])
      · exact TestsFollowSolves_of_no_test _ (by simp)
    · rw [outerLoop_succ_of_ne p b hterra]
      split
      · apply TestsFollowSolves_append
        · by_cases hb : b = Backend.CERES
          · have := TestsFollowSolves_body
              [Event.setConstraints ((i : F) / ((p.numIter - 1 : Nat) : F)),
                Event.downloadConstraints]
              (Event.ceresSolveGN ((3 : Nat) : F) ((4 : Nat) : F)) rfl
              (by simp [Event.isEarlyOutTest])
            simpa [invokeSolver, hb] using this
          · have := TestsFollowSolves_body
              [Event.setConstraints ((i : F) / ((p.numIter - 1 : Nat) : F))]
              (Event.solveGN b p.nonLinearIter p.linearIter ((3 : Nat) : F) ((4 : Nat) : F)) rfl
              (by simp [Event.isEarlyOutTest])
            simpa [invokeSolver, hb, hterra] using this
        · split
          · exact TestsFollowSolves_of_no_test _ (by simp)
          · exact ih (i + 1)
      · exact TestsFollowSolves_of_no_test _ (by simp)

theorem TestsFollowSolves_gpuSolve [NatCast F] [Div F] (p : CombinedSolverParameters)
    (b : Backend) (condition : Bool) :
    TestsFollowSolves (gpuSolve p b condition : List (Event F)) := by
  unfold gpuSolve
  split
  · exact TestsFollowSolves_andThen _ _
      (TestsFollowSolves_append _ _
        (TestsFollowSolves_of_no_test _ (by simp [Event.isEarlyOutTest]))
        (TestsFollowSolves_outerLoop p b _ _))
      (TestsFollowSolves_of_no_test _ (by simp [Event.isEarlyOutTest]))
  · exact TestsFollowSolves_of_no_test _ (by simp)

theorem TestsFollowSolves_ceresSolve [NatCast F] [Div F] (p : CombinedSolverParameters) :
    TestsFollowSolves (ceresSolve p : List (Event F)) := by
  unfold ceresSolve
  split
  · exact TestsFollowSolves_andThen _ _
      (TestsFollowSolves_append _ _
        (TestsFollowSolves_of_no_test _ (by simp [Event.isEarlyOutTest]))
        (TestsFollowSolves_outerLoop p Backend.CERES _ _))
      (TestsFollowSolves_of_no_test _ (by simp [Event.isEarlyOutTest]))
  · exact TestsFollowSolves_of_no_test _ (by simp)

/-- In every run, faulting or not, each early-out test stands directly after a solver
invocation. -/
theorem TestsFollowSolves_solve [NatCast F] [Div F] (p : CombinedSolverParameters) :
    TestsFollowSolves (solve p : List (Event F)) := by
  unfold solve
  exact TestsFollowSolves_andThen _ _ (TestsFollowSolves_gpuSolve p _ _)
    (TestsFollowSolves_andThen _ _ (TestsFollowSolves_gpuSolve p _ _)
      (TestsFollowSolves_andThen _ _ (TestsFollowSolves_gpuSolve p _ _)
        (TestsFollowSolves_andThen _ _ (TestsFollowSolves_gpuSolve p _ _)
          (TestsFollowSolves_ceresSolve p))))

/-- What the loops do in a run the TERRA block does not stop (TERRA off, or no iteration
to run): for every enabled backend the trace of `solve` holds `max(numIter - 1, 0)` solver
invocations with `earlyOut` off and `min(1, max(numIter - 1, 0))` with it on. -/
theorem invocation_count_of_no_terra_fault [NatCast F] [Div F] (p : CombinedSolverParameters)
    (h : p.useTerra = false ∨ p.numIter ≤ 1) (b : Backend) (hb : enabled p b = true) :
    ((invocations b (solve p : List (Event F)) : Nat) : Int) =
      (if p.earlyOut then min 1 (max ((p.numIter : Int) - 1) 0)
        else max ((p.numIter : Int) - 1) 0) := by
  rw [invocations_solve p b h, hb]
  simp only [if_true]
  split <;> omega

/-- With TERRA on and an iteration to run, no backend from TERRA on makes a solver
invocation, whatever `m_params` enables. -/
theorem invocations_of_terra_fault [NatCast F] [Div F] (p : CombinedSolverParameters)
    (ht : p.useTerra = true) (hn : 2 ≤ p.numIter) (b : Backend) (hb : b ≠ Backend.CUDA) :
    invocations b (solve p : List (Event F)) = 0 := by
  rw [solve_of_terra_fault p ht hn, invocations_append,
    invocations_gpuSolve p b _ (by decide : Backend.CUDA ≠ Backend.TERRA)]
  have : ¬ Backend.CUDA = b := fun h => hb h.symm
  simp [this, invocations, Event.isSolveOf]

end Tests

/-- C9. The claim fails on TERRA. With TERRA and OPT enabled, `numIter = 3` and
`earlyOut` off, the claim gives 2 solver invocations for each of the two backends. The
trace of `CombinedSolver::solve` is `resetGPUMemory`, `setConstraints(1/2)` and the call
through the empty `m_terraWarpingSolver`: TERRA makes no solver invocation, and the block
of OPT is not reached. -/
theorem solve_faults_at_first_terra_invocation :
    enabled terraParams Backend.TERRA = true ∧ enabled terraParams Backend.OPT = true ∧
      terraParams.earlyOut = false ∧ max ((terraParams.numIter : Int) - 1) 0 = 2 ∧
      (solve terraParams : List (Event Int)) =
        [Event.resetGPUMemory, Event.setConstraints (((1 : Nat) : Int) / ((2 : Nat) : Int)),
          Event.nullDereference "m_terraWarpingSolver"] ∧
      invocations Backend.TERRA (solve terraParams : List (Event Int)) = 0 ∧
      invocations Backend.OPT (solve terraParams : List (Event Int)) = 0 := by
  decide

end ARAP

/-! ## C11: the parameters given to the backends -/

namespace SFS

section Parameters

variable {F : Type}

theorem solveSFS_native_arguments [Add F] [Mul F] [NatCast F] (E : Externs F)
    (g : GlobalAppState) (hg : g.s_optimizer = 0) (st : Statics) (s : CUDAPatchSolverSFS F)
    (a : SolveArgs F) :
    (stubArguments (solveSFS E g st s a).calls).map (fun t => t.2.2) = [buildParameters a] ∧
      terraArguments (solveSFS E g st s a).calls = [] := by
  have hm : selectMode g.s_optimizer = SolveMode.CUDA := by rw [hg]; rfl
  constructor
  · unfold solveSFS
    rw [solveSFSWith_native_stubArguments false E g hg, snapshotBlock_false]
    rfl
  · unfold solveSFS
    rw [solveSFSWith_calls, remapIfRequested_calls, hm]
    cases a.useRemapping <;> simp [terraArguments, switchMode, cudaCase, snapshotBlock]

theorem solveSFS_dsl_arguments [Add F] [Mul F] [NatCast F] (E : Externs F)
    (g : GlobalAppState) (hg : g.s_optimizer ≠ 0) (st : Statics) (s : CUDAPatchSolverSFS F)
    (a : SolveArgs F) :
    (stubArguments (solveSFS E g st s a).calls).map (fun t => t.2.2) = [] ∧
      terraArguments (solveSFS E g st s a).calls =
        [TerraSolverParameters.mk_from (buildParameters a) s.m_solverInput.calibparams
          a.deltaTransform a.d_litcoeff] := by
  by_cases h1 : g.s_optimizer = 1
  · have hm : selectMode g.s_optimizer = 1 := by rw [h1]; rfl
    cases hr : a.useRemapping <;> cases h2 : st.s_optimizerAD <;> cases h3 : s.m_planAD <;>
      simp [solveSFS, solveSFSWith, switchMode, hm, SolveMode.CUDA, SolveMode.TERRA_AD,
        terraCase, maybeInitOptimizerAndPlan, ensureOptimizer, constructTerraInput,
        remapIfRequested, remappingStage, bindInputs, hr, h2, h3, OPT_CPU, stubArguments,
        terraArguments]
  · have hm : selectMode g.s_optimizer = 0 := selectMode_other _ hg h1
    cases hr : a.useRemapping <;> cases h2 : st.s_optimizerNoAD <;> cases h3 : s.m_planNoAD <;>
      simp [solveSFS, solveSFSWith, switchMode, hm, SolveMode.CUDA, SolveMode.TERRA_AD,
        SolveMode.TERRA_NO_AD, terraCase, maybeInitOptimizerAndPlan, ensureOptimizer,
        constructTerraInput, remapIfRequested, remappingStage, bindInputs, hr, h2, h3, OPT_CPU,
        stubArguments, terraArguments]

end Parameters

/-- C11, as stated, fails for the shading weight: `solveSFS` has no argument of that
name. With the six weight arguments 10 (fitting), 2 (shading increment), 1 (shading
start), 20 (boundary), 30 (regularizer) and 40 (prior), the `PatchSolverParameters` given
to the native backend hold the shading weight 7, which is none of the arguments. -/
theorem shading_weight_is_no_argument :
    (stubArguments (solveSFS (specExterns maskNonzero fitStep fitDsl) (plainGlobals 0)
        noStatics (freshSolver 1 1) weightedArgs).calls).map
          (fun t => t.2.2.weightShading) = [7] ∧
      (7 : Int) ∉
        [weightedArgs.weightFitting, weightedArgs.weightShadingIncrement,
          weightedArgs.weightShadingStart, weightedArgs.weightBoundary,
          weightedArgs.weightRegularizer, weightedArgs.weightPrior] := by
  decide

/-- C11, amended. For every call of `solveSFS` (any externs, settings, instance and
arguments), with `parameters` the local struct the call fills in: with the native backend
selected the one `patchSolveSFSStub` call receives `parameters`, and no DSL solve is made;
with a DSL backend selected and lighting coefficients that can be copied, the one `solve`
call receives the `TerraSolverParameters` built from `parameters`, the calibration
parameters of the instance, the transform and the lighting coefficients. In `parameters`
each of the six weights that are arguments and each iteration count equals the like-named
argument (`nLinIterations` is the argument `nLinearIterations`). The
`TerraSolverParameters` carry the values of `parameters` field for field, the computed
`weightShading` among them, and the intrinsics `fx`, `fy`, `ux`, `uy` of the solver
input's calibration parameters. -/
theorem backend_parameters_carry_the_arguments {F : Type} [Add F] [Mul F] [NatCast F]
    (E : Externs F) (g : GlobalAppState) (st : Statics) (s : CUDAPatchSolverSFS F)
    (a : SolveArgs F) :
    (g.s_optimizer = 0 →
        (stubArguments (solveSFS E g st s a).calls).map (fun t => t.2.2) =
            [(solveSFS E g st s a).parameters] ∧
          terraArguments (solveSFS E g st s a).calls = []) ∧
      (g.s_optimizer ≠ 0 → readsLighting a.d_litcoeff = true →
        stubArguments (solveSFS E g st s a).calls = [] ∧
          terraArguments (solveSFS E g st s a).calls =
            [TerraSolverParameters.mk_from (solveSFS E g st s a).parameters
              s.m_solverInput.calibparams a.deltaTransform a.d_litcoeff]) ∧
      ((solveSFS E g st s a).parameters.weightFitting = a.weightFitting ∧
        (solveSFS E g st s a).parameters.weightRegularizer = a.weightRegularizer ∧
        (solveSFS E g st s a).parameters.weightPrior = a.weightPrior ∧
        (solveSFS E g st s a).parameters.weightBoundary = a.weightBoundary ∧
        (solveSFS E g st s a).parameters.weightShadingStart = a.weightShadingStart ∧
        (solveSFS E g st s a).parameters.weightShadingIncrement = a.weightShadingIncrement ∧
        (solveSFS E g st s a).parameters.nNonLinearIterations = a.nNonLinearIterations ∧
        (solveSFS E g st s a).parameters.nLinIterations = a.nLinearIterations ∧
        (solveSFS E g st s a).parameters.nPatchIterations = a.nPatchIterations) ∧
      (∀ T : TerraSolverParameters F,
        T = TerraSolverParameters.mk_from (solveSFS E g st s a).parameters
          s.m_solverInput.calibparams a.deltaTransform a.d_litcoeff →
        T.weightFitting = (solveSFS E g st s a).parameters.weightFitting ∧
          T.weightRegularizer = (solveSFS E g st s a).parameters.weightRegularizer ∧
          T.weightPrior = (solveSFS E g st s a).parameters.weightPrior ∧
          T.weightBoundary = (solveSFS E g st s a).parameters.weightBoundary ∧
          T.weightShadingStart = (solveSFS E g st s a).parameters.weightShadingStart ∧
          T.weightShadingIncrement =
            (solveSFS E g st s a).parameters.weightShadingIncrement ∧
          T.weightShading = (solveSFS E g st s a).parameters.weightShading ∧
          T.nNonLinearIterations = (solveSFS E g st s a).parameters.nNonLinearIterations ∧
          T.nLinIterations = (solveSFS E g st s a).parameters.nLinIterations ∧
          T.nPatchIterations = (solveSFS E g st s a).parameters.nPatchIterations ∧
          T.fx = (solveSFS E g st s a).solver.m_solverInput.calibparams.fx ∧
          T.fy = (solveSFS E g st s a).solver.m_solverInput.calibparams.fy ∧
          T.ux = (solveSFS E g st s a).solver.m_solverInput.calibparams.ux ∧
          T.uy = (solveSFS E g st s a).solver.m_solverInput.calibparams.uy) := by
  have hcal : (solveSFS E g st s a).solver.m_solverInput.calibparams =
      s.m_solverInput.calibparams := by
    rw [(solveSFS_frame E g st s a).1]
    cases hr : a.useRemapping <;> simp [bindInputs, remapIfRequested, remappingStage, hr]
  rw [solveSFS_parameters]
  refine ⟨fun hg => solveSFS_native_arguments E g hg st s a,
    fun hg _ => ?_, ⟨rfl, rfl, rfl, rfl, rfl, rfl, rfl, rfl, rfl⟩, ?_⟩
  · have h := solveSFS_dsl_arguments E g hg st s a
    refine ⟨?_, h.2⟩
    have h1 := h.1
    cases hst : stubArguments (solveSFS E g st s a).calls with
    | nil => rfl
    | cons t rest => rw [hst] at h1; simp at h1
  · intro T hT
    subst hT
    rw [hcal]
    exact ⟨rfl, rfl, rfl, rfl, rfl, rfl, rfl, rfl, rfl, rfl, rfl, rfl, rfl, rfl⟩

end SFS

/-! ## C12: the pointers into `TerraSolverParameters` -/

namespace SFS

theorem floatPointers_eq :
    TerraSolverParameterPointers.mk_from.floatPointers = List.range 36 := by
  decide

theorem uintPointers_eq :
    TerraSolverParameterPointers.mk_from.uintPointers = [36, 37, 38] := by
  decide

/-- C12. With `deltaTransform` holding its 16 entries and `lightingCoefficients` its 9,
and `TerraSolverParameters` viewed as the flat sequence of its scalar fields in
declaration order: the float scalars number exactly 36 and the struct has 39 words;
reading through `floatPointers[0..35]` yields exactly the float scalars in order;
reading through `uintPointers[0..2]` yields `nNonLinearIterations`, `nLinIterations`,
`nPatchIterations` in order; and the 39 pointers together are the offsets 0, 1, ..., 38,
so no field is skipped and none is addressed twice. -/
theorem parameter_pointers_address_fields_in_order {F : Type} (p : TerraSolverParameters F)
    (hd : p.deltaTransform.length = 16) (hl : p.lightingCoefficients.length = 9) :
    p.floats.length = 36 ∧ p.words.length = 39 ∧
      p.pointees TerraSolverParameterPointers.mk_from.floatPointers =
        p.floats.map (fun x => some (Word.float x)) ∧
      p.pointees TerraSolverParameterPointers.mk_from.uintPointers =
        [some (Word.uint p.nNonLinearIterations), some (Word.uint p.nLinIterations),
          some (Word.uint p.nPatchIterations)] ∧
      TerraSolverParameterPointers.mk_from.floatPointers ++
          TerraSolverParameterPointers.mk_from.uintPointers = List.range p.words.length ∧
      (TerraSolverParameterPointers.mk_from.floatPointers ++
          TerraSolverParameterPointers.mk_from.uintPointers).Nodup := by
  have hf : p.floats.length = 36 := by
    simp [TerraSolverParameters.floats, hd, hl]
  have hw : p.words.length = 39 := by
    simp [TerraSolverParameters.words, hf, TerraSolverParameters.uints]
  have hfl : (p.floats.map (Word.float (F := F))).length = 36 := by simp [hf]
  refine ⟨hf, hw, ?_, ?_, ?_, ?_⟩
  · unfold TerraSolverParameters.pointees
    rw [floatPointers_eq]
    apply List.ext_getElem?
    intro i
    by_cases hi : i < 36
    · simp only [List.getElem?_map, List.getElem?_range hi, Option.map_some',
        TerraSolverParameters.words]
      rw [List.getElem?_append_left (by omega), List.getElem?_map,
        List.getElem?_eq_getElem (by omega : i < p.floats.length)]
      rfl
    · rw [List.getElem?_eq_none (by simpa using hi), List.getElem?_eq_none (by simpa [hf] using hi)]
  · unfold TerraSolverParameters.pointees
    rw [uintPointers_eq]
    simp only [List.map_cons, List.map_nil, TerraSolverParameters.words]
    rw [List.getElem?_append_right (by omega), List.getElem?_append_right (by omega),
      List.getElem?_append_right (by omega), hfl]
    simp [TerraSolverParameters.uints]
  · rw [hw, floatPointers_eq, uintPointers_eq]
    decide
  · rw [floatPointers_eq, uintPointers_eq]
    decide

/-- Witness of `parameter_pointers_address_fields_in_order`: a struct whose scalars are
0, 1, ..., 38 in declaration order. -/
theorem parameter_pointers_address_fields_in_order_witness :
    countingParams.deltaTransform.length = 16 ∧ countingParams.lightingCoefficients.length = 9 ∧
      countingParams.pointees TerraSolverParameterPointers.mk_from.uintPointers =
        [some (Word.uint 36), some (Word.uint 37), some (Word.uint 38)] :=
  ⟨by decide, by decide,
    (parameter_pointers_address_fields_in_order countingParams (by decide) (by decide)).2.2.2.1⟩

end SFS

/-! ## C13: creating the optimizers and the plans -/

namespace SFS

section Plans

variable {F : Type}

/-- The method for a `planProblem` that hands back a plan is the general method at that
plan. -/
theorem maybeInitOptimizerAndPlan_eq_with (st : Statics) (s : CUDAPatchSolverSFS F)
    (useAD : Bool) (terraFile solverName : String) (width height : Nat) (es : List Nat) :
    (maybeInitOptimizerAndPlanWith
        (some { plannedByAD := useAD, width := width, height := height, elemsize := es })
        st s useAD terraFile solverName width height es) =
      ((maybeInitOptimizerAndPlan st s useAD terraFile solverName width height es).1,
        (maybeInitOptimizerAndPlan st s useAD terraFile solverName width height es).2.1,
        some (maybeInitOptimizerAndPlan st s useAD terraFile solverName width height es).2.2.1,
        (maybeInitOptimizerAndPlan st s useAD terraFile solverName width height es).2.2.2) := by
  cases useAD <;> cases h3 : s.m_planAD <;> cases h4 : s.m_planNoAD <;>
    simp [maybeInitOptimizerAndPlanWith, maybeInitOptimizerAndPlan, h3, h4]

end Plans

end SFS

/-! ## C14: freeing the plans -/

namespace SFS

/-- After a `resetPlan` that dereferences no `NULL` pointer both plan members are `NULL`;
a `resetPlan` that dereferences `NULL` stops there and leaves the plan it was freeing. -/
theorem resetPlan_clears_plans {F : Type} (st : Statics) (s : CUDAPatchSolverSFS F) :
    ((∀ c ∈ (resetPlan st s).2, c.isFailure = false) →
        (resetPlan st s).1.m_planAD = none ∧ (resetPlan st s).1.m_planNoAD = none) ∧
      ((∃ c ∈ (resetPlan st s).2, c.isFailure = true) →
        (resetPlan st s).1.m_planAD.isSome = true ∨
          (resetPlan st s).1.m_planNoAD.isSome = true) := by
  cases h1 : st.s_optimizerAD <;> cases h3 : s.m_planAD <;> cases h4 : s.m_planNoAD <;>
    simp [resetPlan, freeThroughOptimizerAD, h1, h3, h4, Call.isFailure]

/-- C14, evaluated at the failing inputs. From the initial state (no optimizer, no plan)
one call `maybeInitOptimizerAndPlan(false, ...)` creates the non-AD optimizer and the
non-AD plan and leaves `s_optimizerAD` `NULL`; `resetPlan` then frees the non-AD plan
through `s_optimizerAD`, a `NULL` dereference. After the two calls
`maybeInitOptimizerAndPlan(true, ...)` and `maybeInitOptimizerAndPlan(false, ...)`,
`resetPlan` dereferences no `NULL` pointer but frees both plans through the AD
optimizer, the non-AD plan among them. -/
theorem resetPlan_frees_noAD_plan_through_optimizerAD :
    (runPlanOps noStatics (freshSolver 1 1)
        [PlanOp.maybeInitOptimizerAndPlan (initArgs false)]).1.s_optimizerAD = none ∧
      (runPlanOps noStatics (freshSolver 1 1)
        [PlanOp.maybeInitOptimizerAndPlan (initArgs false)]).2.1.m_planNoAD.isSome = true ∧
      (resetPlan
        (runPlanOps noStatics (freshSolver 1 1)
          [PlanOp.maybeInitOptimizerAndPlan (initArgs false)]).1
        (runPlanOps noStatics (freshSolver 1 1)
          [PlanOp.maybeInitOptimizerAndPlan (initArgs false)]).2.1).2 =
        [Call.nullDereference "s_optimizerAD"] ∧
      (resetPlan
        (runPlanOps noStatics (freshSolver 1 1)
          [PlanOp.maybeInitOptimizerAndPlan (initArgs true),
            PlanOp.maybeInitOptimizerAndPlan (initArgs false)]).1
        (runPlanOps noStatics (freshSolver 1 1)
          [PlanOp.maybeInitOptimizerAndPlan (initArgs true),
            PlanOp.maybeInitOptimizerAndPlan (initArgs false)]).2.1).2 =
        [ Call.Opt_PlanFree true
            { plannedByAD := true, width := 1, height := 1, elemsize := elemsize },
          Call.Opt_PlanFree true
            { plannedByAD := false, width := 1, height := 1, elemsize := elemsize } ] ∧
      ((resetPlan
        (runPlanOps noStatics (freshSolver 1 1)
          [PlanOp.maybeInitOptimizerAndPlan (initArgs true),
            PlanOp.maybeInitOptimizerAndPlan (initArgs false)]).1
        (runPlanOps noStatics (freshSolver 1 1)
          [PlanOp.maybeInitOptimizerAndPlan (initArgs true),
            PlanOp.maybeInitOptimizerAndPlan (initArgs false)]).2.1).2.map
        Call.freesThroughWrongOptimizer) = [false, true] := by
  decide

end SFS

/-! ## C15: the reset before each backend -/

namespace ARAP

/-- C15. For every mesh and every prior state of the solver (result mesh and device
buffers), after `m_result = m_initial; resetGPUMemory();` the current vertex positions
and the rest-shape positions both equal the vertex positions of the initial mesh, every
rotation angle is `(0, 0, 0)`, the constraint targets are those `setConstraints(1)`
computes on the initial mesh, and the result mesh is the initial mesh; two solvers with
the same initial mesh and the same constraints are in the same state after the reset,
whatever their result meshes and device buffers held before. -/
theorem reset_restores_initial_state {F : Type} [Add F] [Sub F] [Mul F] [Neg F] [NatCast F]
    (rawInt : Nat → Int) (infinity : F) (s : CombinedSolver F) :
    (preSingleSolve rawInt infinity s).d_vertexPosFloat3 = s.m_initial.points ∧
      (preSingleSolve rawInt infinity s).d_vertexPosFloat3Urshape = s.m_initial.points ∧
      (preSingleSolve rawInt infinity s).d_anglesFloat3 =
        List.replicate s.m_initial.n_vertices
          { x := ((0 : Nat) : F), y := ((0 : Nat) : F), z := ((0 : Nat) : F) } ∧
      (preSingleSolve rawInt infinity s).d_vertexPosTargetFloat3 =
        (setConstraints infinity ((1 : Nat) : F)
          { s with m_result := s.m_initial }).d_vertexPosTargetFloat3 ∧
      (preSingleSolve rawInt infinity s).m_result = s.m_initial ∧
      (∀ s2 : CombinedSolver F, s2.m_initial = s.m_initial →
        s2.m_constraintsIdx = s.m_constraintsIdx →
        s2.m_constraintsTarget = s.m_constraintsTarget →
        preSingleSolve rawInt infinity s2 = preSingleSolve rawInt infinity s) := by
  refine ⟨?_, ?_, ?_, rfl, rfl, ?_⟩
  · simp [preSingleSolve, resetGPUMemory, cudaMemcpy, SimpleMesh.n_vertices]
  · simp [preSingleSolve, resetGPUMemory, cudaMemcpy, SimpleMesh.n_vertices]
  · simp [preSingleSolve, resetGPUMemory, cudaMemcpy]
  · intro s2 h1 h2 h3
    simp [preSingleSolve, resetGPUMemory, setConstraints, h1, h2, h3]


/-- Evaluation of the reset on a used solver over the square: positions, angles and
targets after the reset. -/
theorem reset_restores_initial_state_on_square :
    (preSingleSolve (fun _ => 77) 1000 usedSolver).d_vertexPosFloat3 = squareMesh.points ∧
      (preSingleSolve (fun _ => 77) 1000 usedSolver).d_anglesFloat3 =
        List.replicate 4 { x := 0, y := 0, z := 0 } ∧
      (preSingleSolve (fun _ => 77) 1000 usedSolver).d_vertexPosTargetFloat3 =
        [ { x := 0, y := 0, z := 9 }, { x := -1000, y := -1000, z := -1000 },
          { x := 5, y := 6, z := 7 }, { x := -1000, y := -1000, z := -1000 } ] := by
  decide

end ARAP

/-! ## C16: the neighbour tables -/

namespace ARAP

section Tables

variable {F : Type}

theorem offsetOf_succ (m : SimpleMesh F) (k : Nat) :
    offsetOf m (k + 1) = offsetOf m k + m.valence k := by
  simp [offsetOf, List.range_succ]

theorem offsetOf_mono (m : SimpleMesh F) (i k : Nat) (h : i ≤ k) :
    offsetOf m i ≤ offsetOf m k := by
  induction k with
  | zero =>
    have : i = 0 := by omega
    rw [this]
  | succ k ih =>
    by_cases hi : i = k + 1
    · rw [hi]
    · have := ih (by omega)
      rw [offsetOf_succ]
      omega

theorem innerLoop_snd (vs : List Nat) (idx : List Int) (offset : Nat) :
    (vs.foldl (fun (q : List Int × Nat) (w : Nat) => (q.1.set q.2 (w : Int), q.2 + 1))
      (idx, offset)).2 = offset + vs.length := by
  induction vs generalizing idx offset with
  | nil => rfl
  | cons w ws ih => rw [List.foldl_cons, ih]; simp; omega

theorem innerLoop_fst (vs : List Nat) (idx : List Int) (offset : Nat)
    (h : offset + vs.length ≤ idx.length) :
    (vs.foldl (fun (q : List Int × Nat) (w : Nat) => (q.1.set q.2 (w : Int), q.2 + 1))
      (idx, offset)).1 =
      idx.take offset ++ vs.map Int.ofNat ++ idx.drop (offset + vs.length) := by
  induction vs generalizing idx offset with
  | nil => simp
  | cons w ws ih =>
    simp only [List.length_cons] at h
    have hlt : offset < idx.length := by omega
    simp only [List.foldl_cons]
    rw [ih (idx.set offset (w : Int)) (offset + 1) (by rw [List.length_set]; omega)]
    rw [List.drop_set_of_lt _ _ (by omega), List.set_eq_take_append_cons_drop, if_pos hlt]
    have hlen : (idx.take offset).length = offset := by
      rw [List.length_take]; omega
    rw [List.take_append_eq_append_take, hlen, List.take_of_length_le (by omega),
      show offset + 1 - offset = 1 by omega]
    simp [Nat.add_assoc, Nat.add_comm 1]

/-- The vertex loop after `k` vertices, from counters 0 and arrays that are long enough. -/
theorem neighbourLoop_after (m : SimpleMesh F) (t0 : NeighbourLoop) (hc : t0.count = 0)
    (ho : t0.offset = 0) (k : Nat) (hnum : k ≤ t0.h_numNeighbours.length)
    (hoff : k + 1 ≤ t0.h_neighbourOffset.length) :
    ((List.range k).foldl (neighbourStep m) t0).count = k ∧
      ((List.range k).foldl (neighbourStep m) t0).offset = offsetOf m k ∧
      ((List.range k).foldl (neighbourStep m) t0).h_numNeighbours =
        (List.range k).map (fun i => (m.valence i : Int)) ++ t0.h_numNeighbours.drop k ∧
      ((List.range k).foldl (neighbourStep m) t0).h_neighbourOffset =
        t0.h_neighbourOffset.take 1 ++ (List.range k).map (fun i => (offsetOf m (i + 1) : Int)) ++
          t0.h_neighbourOffset.drop (k + 1) ∧
      (offsetOf m k ≤ t0.h_neighbourIdx.length →
        ((List.range k).foldl (neighbourStep m) t0).h_neighbourIdx =
          (((List.range k).map m.vv).flatten).map Int.ofNat ++
            t0.h_neighbourIdx.drop (offsetOf m k)) := by
  induction k with
  | zero =>
    refine ⟨hc, by simp [ho, offsetOf], by simp, ?_, fun _ => by simp [offsetOf]⟩
    simp only [List.range_zero, List.map_nil, List.append_nil, List.foldl_nil]
    exact (List.take_append_drop 1 _).symm
  | succ k ih =>
    obtain ⟨ih1, ih2, ih3, ih4, ih5⟩ := ih (by omega) (by omega)
    rw [List.range_succ, List.foldl_append, List.foldl_cons, List.foldl_nil]
    generalize (List.range k).foldl (neighbourStep m) t0 = t at ih1 ih2 ih3 ih4 ih5
    have hsnd := innerLoop_snd (m.vv k) t.h_neighbourIdx t.offset
    rw [ih2] at hsnd
    refine ⟨?_, ?_, ?_, ?_, ?_⟩
    · simp [neighbourStep, ih1]
    · simp only [neighbourStep, ih2, hsnd, offsetOf_succ, SimpleMesh.valence]
    · simp only [neighbourStep, ih1, ih3]
      rw [List.set_append_right _ _ (by simp), List.map_append, List.append_assoc]
      congr 1
      simp only [List.length_map, List.length_range, Nat.sub_self]
      rw [List.drop_eq_getElem_cons (by omega : k < t0.h_numNeighbours.length),
        List.set_cons_zero]
      rfl
    · simp only [neighbourStep, ih1, ih2, ih4, hsnd]
      have hl : (t0.h_neighbourOffset.take 1 ++
          (List.range k).map (fun i => (offsetOf m (i + 1) : Int))).length = k + 1 := by
        simp; omega
      rw [List.set_append_right _ _ (by omega), hl, Nat.sub_self,
        List.drop_eq_getElem_cons (by omega : k + 1 < t0.h_neighbourOffset.length),
        List.set_cons_zero, List.map_append]
      simp [offsetOf_succ, SimpleMesh.valence, List.append_assoc]
    · intro hfit
      have hk : offsetOf m k ≤ t0.h_neighbourIdx.length :=
        le_trans (offsetOf_mono m k (k + 1) (by omega)) hfit
      have hidx := ih5 hk
      have hflat : ((((List.range k).map m.vv).flatten).map Int.ofNat).length = offsetOf m k := by
        rw [List.length_map, List.length_flatten, List.map_map]
        rfl
      rw [offsetOf_succ, SimpleMesh.valence] at hfit
      simp only [neighbourStep, ih2]
      rw [innerLoop_fst _ _ _ (by
        rw [hidx, List.length_append, hflat, List.length_drop]
        omega)]
      rw [hidx, List.take_left' hflat]
      have hdrop : List.drop (offsetOf m k + (m.vv k).length)
          ((((List.range k).map m.vv).flatten).map Int.ofNat ++
            t0.h_neighbourIdx.drop (offsetOf m k)) =
          t0.h_neighbourIdx.drop (offsetOf m (k + 1)) := by
        rw [← hflat, List.drop_append, hflat, List.drop_drop, offsetOf_succ,
          SimpleMesh.valence]
      rw [hdrop]
      simp [List.append_assoc]

end Tables

end ARAP

namespace ARAP

section TablesFinal

variable {F : Type}

theorem innerLoop_length (vs : List Nat) (idx : List Int) (offset : Nat) :
    (vs.foldl (fun (q : List Int × Nat) (w : Nat) => (q.1.set q.2 (w : Int), q.2 + 1))
      (idx, offset)).1.length = idx.length := by
  induction vs generalizing idx offset with
  | nil => rfl
  | cons w ws ih =>
    simp only [List.foldl_cons]
    rw [ih, List.length_set]

theorem neighbourLoop_idx_length (m : SimpleMesh F) (l : List Nat) (t0 : NeighbourLoop) :
    (l.foldl (neighbourStep m) t0).h_neighbourIdx.length = t0.h_neighbourIdx.length := by
  induction l generalizing t0 with
  | nil => rfl
  | cons v vs ih =>
    rw [List.foldl_cons, ih]
    simp only [neighbourStep]
    exact innerLoop_length _ _ _

/-- The three host arrays after the vertex loop, in closed form. -/
theorem buildNeighbourTables_spec (rawInt : Nat → Int) (m : SimpleMesh F) :
    (buildNeighbourTables rawInt m).h_numNeighbours =
        (List.range m.n_vertices).map (fun i => (m.valence i : Int)) ∧
      (buildNeighbourTables rawInt m).h_neighbourOffset =
        (List.range (m.n_vertices + 1)).map (fun i => (offsetOf m i : Int)) ∧
      (buildNeighbourTables rawInt m).h_neighbourIdx.length = 2 * m.n_edges ∧
      (offsetOf m m.n_vertices ≤ 2 * m.n_edges →
        (buildNeighbourTables rawInt m).h_neighbourIdx =
          (((List.range m.n_vertices).map m.vv).flatten).map Int.ofNat ++
            ((List.range (2 * m.n_edges)).map rawInt).drop (offsetOf m m.n_vertices)) := by
  have h := neighbourLoop_after m
    { count := 0
      offset := 0
      h_numNeighbours := (List.range m.n_vertices).map rawInt
      h_neighbourIdx := (List.range (2 * m.n_edges)).map rawInt
      h_neighbourOffset := ((List.range (m.n_vertices + 1)).map rawInt).set 0 0 }
    rfl rfl m.n_vertices (by simp) (by simp)
  obtain ⟨-, -, h3, h4, h5⟩ := h
  unfold buildNeighbourTables
  refine ⟨?_, ?_, ?_, ?_⟩
  · rw [h3]
    simp
  · rw [h4, List.drop_of_length_le (by simp), List.append_nil]
    rw [List.range_succ_eq_map (m.n_vertices)]
    simp [offsetOf, Function.comp_def]
  · rw [neighbourLoop_idx_length]
    simp
  · intro hfit
    exact h5 (by simpa using hfit)

theorem flatten_slice (m : SimpleMesh F) (n i : Nat) (hi : i < n) (rest : List Int) :
    (((((List.range n).map m.vv).flatten).map Int.ofNat ++ rest).drop (offsetOf m i)).take
        (m.valence i) = (m.vv i).map Int.ofNat := by
  obtain ⟨k, rfl⟩ : ∃ k, n = (i + 1) + k := ⟨n - (i + 1), by omega⟩
  rw [List.range_add, List.range_succ, List.map_append, List.map_append, List.flatten_append,
    List.flatten_append, List.map_append, List.map_append]
  have hlen : ((((List.range i).map m.vv).flatten).map Int.ofNat).length = offsetOf m i := by
    rw [List.length_map, List.length_flatten, List.map_map]
    rfl
  simp only [List.map_cons, List.map_nil, List.flatten_cons, List.flatten_nil, List.append_nil,
    List.append_assoc]
  rw [List.drop_left' hlen, List.take_left' (by simp [SimpleMesh.valence])]

end TablesFinal

/-- C16. For every mesh (the initial mesh of any solver, with `N` vertices and `E`
edges) the neighbour tables that `resetGPUMemory` uploads form a compressed adjacency:
`neighbourOffset` has `N + 1` entries and starts with 0; for every `i < N` the
difference `neighbourOffset[i+1] - neighbourOffset[i]` is `numNeighbours[i]`, which is
the valence of vertex `i`, so the offsets are non-decreasing; `neighbourOffset[N]` is the
sum of all valences; when that sum is at most the `2*E` allocated slots, the entries
`neighbourIdx[neighbourOffset[i] .. neighbourOffset[i+1])` are the neighbours of vertex
`i` in the order of the circulator; and when the sum is `2*E`, `neighbourOffset[N]` is
the number of slots of `neighbourIdx`. -/
theorem neighbour_tables_form_compressed_adjacency {F : Type} [Add F] [Sub F] [Mul F] [Neg F]
    [NatCast F] (rawInt : Nat → Int) (infinity : F) (s : CombinedSolver F) :
    (resetGPUMemory rawInt infinity s).d_neighbourOffset.length = s.m_initial.n_vertices + 1 ∧
      (resetGPUMemory rawInt infinity s).d_numNeighbours.length = s.m_initial.n_vertices ∧
      (resetGPUMemory rawInt infinity s).d_neighbourIdx.length = 2 * s.m_initial.n_edges ∧
      (resetGPUMemory rawInt infinity s).d_neighbourOffset[0]? = some 0 ∧
      (∀ i, i < s.m_initial.n_vertices →
        (resetGPUMemory rawInt infinity s).d_neighbourOffset.getD (i + 1) 0 -
            (resetGPUMemory rawInt infinity s).d_neighbourOffset.getD i 0 =
          (resetGPUMemory rawInt infinity s).d_numNeighbours.getD i 0 ∧
        (resetGPUMemory rawInt infinity s).d_numNeighbours.getD i 0 =
          (s.m_initial.valence i : Int) ∧
        (resetGPUMemory rawInt infinity s).d_neighbourOffset.getD i 0 ≤
          (resetGPUMemory rawInt infinity s).d_neighbourOffset.getD (i + 1) 0) ∧
      (resetGPUMemory rawInt infinity s).d_neighbourOffset.getD s.m_initial.n_vertices 0 =
        ((((List.range s.m_initial.n_vertices).map s.m_initial.valence).sum : Nat) : Int) ∧
      (((List.range s.m_initial.n_vertices).map s.m_initial.valence).sum ≤
          2 * s.m_initial.n_edges →
        ∀ i, i < s.m_initial.n_vertices →
          (((resetGPUMemory rawInt infinity s).d_neighbourIdx.drop
              ((resetGPUMemory rawInt infinity s).d_neighbourOffset.getD i 0).toNat).take
            (((resetGPUMemory rawInt infinity s).d_neighbourOffset.getD (i + 1) 0).toNat -
              ((resetGPUMemory rawInt infinity s).d_neighbourOffset.getD i 0).toNat)) =
            (s.m_initial.vv i).map Int.ofNat) ∧
      (((List.range s.m_initial.n_vertices).map s.m_initial.valence).sum =
          2 * s.m_initial.n_edges →
        ((resetGPUMemory rawInt infinity s).d_neighbourOffset.getD s.m_initial.n_vertices
            0).toNat =
          (resetGPUMemory rawInt infinity s).d_neighbourIdx.length) := by
  obtain ⟨h1, h2, h3, h4⟩ := buildNeighbourTables_spec rawInt s.m_initial
  have hnum : (resetGPUMemory rawInt infinity s).d_numNeighbours =
      (List.range s.m_initial.n_vertices).map (fun i => (s.m_initial.valence i : Int)) := by
    simp only [resetGPUMemory, cudaMemcpy, h1]
    exact List.take_of_length_le (by simp)
  have hoff : (resetGPUMemory rawInt infinity s).d_neighbourOffset =
      (List.range (s.m_initial.n_vertices + 1)).map (fun i => (offsetOf s.m_initial i : Int)) := by
    simp only [resetGPUMemory, cudaMemcpy, h2]
    exact List.take_of_length_le (by simp)
  have hidx : (resetGPUMemory rawInt infinity s).d_neighbourIdx =
      (buildNeighbourTables rawInt s.m_initial).h_neighbourIdx := by
    simp only [resetGPUMemory, cudaMemcpy]
    exact List.take_of_length_le (by rw [h3])
  have hget : ∀ i, i ≤ s.m_initial.n_vertices →
      (resetGPUMemory rawInt infinity s).d_neighbourOffset.getD i 0 =
        (offsetOf s.m_initial i : Int) := by
    intro i hi
    rw [hoff, List.getD_eq_getElem?_getD, List.getElem?_map,
      List.getElem?_range (by omega)]
    rfl
  have hgetn : ∀ i, i < s.m_initial.n_vertices →
      (resetGPUMemory rawInt infinity s).d_numNeighbours.getD i 0 =
        (s.m_initial.valence i : Int) := by
    intro i hi
    rw [hnum, List.getD_eq_getElem?_getD, List.getElem?_map, List.getElem?_range hi]
    rfl
  refine ⟨by rw [hoff]; simp, by rw [hnum]; simp, by rw [hidx, h3], ?_, ?_, ?_, ?_, ?_⟩
  · rw [hoff, List.getElem?_map, List.getElem?_range (by omega)]
    rfl
  · intro i hi
    rw [hget i (by omega), hget (i + 1) (by omega), hgetn i hi, offsetOf_succ]
    refine ⟨?_, rfl, ?_⟩
    · push_cast; ring
    · push_cast; omega
  · rw [hget _ (le_refl _)]
    rfl
  · intro hfit i hi
    rw [hget i (by omega), hget (i + 1) (by omega), hidx, h4 hfit, offsetOf_succ]
    simp only [Int.toNat_ofNat, Nat.add_sub_cancel_left]
    exact flatten_slice s.m_initial _ i hi _
  · intro hsum
    rw [hget _ (le_refl _), hidx, h3, ← hsum]
    rfl


/-- Evaluation of the neighbour tables on the square with one diagonal. -/
theorem neighbour_tables_on_square :
    (resetGPUMemory (fun _ => 77) 1000 usedSolver).d_numNeighbours = [3, 2, 3, 2] ∧
      (resetGPUMemory (fun _ => 77) 1000 usedSolver).d_neighbourOffset = [0, 3, 5, 8, 10] ∧
      (resetGPUMemory (fun _ => 77) 1000 usedSolver).d_neighbourIdx =
        [1, 2, 3, 2, 0, 3, 0, 1, 0, 2] := by
  decide

end ARAP

/-! ## Lemmas on rounding to single precision -/

namespace ARAP

/-- A value whose quotient by its unit in the last place is an integer is a float. -/
theorem roundNearest_of_int (x : ℚ) (z : ℤ)
    (hz : x / (2 : ℚ) ^ (Int.log 2 |x| - 23) = (z : ℚ)) : roundNearest x = x := by
  have hu : (0 : ℚ) < (2 : ℚ) ^ (Int.log 2 |x| - 23) := zpow_pos (by norm_num) _
  unfold roundNearest
  simp only [hz, Int.floor_intCast, sub_self]
  rw [if_pos (by norm_num), ← hz, div_mul_cancel₀ x hu.ne']

theorem roundNearest_zero : roundNearest 0 = 0 :=
  roundNearest_of_int 0 0 (by simp)

theorem roundNearest_one : roundNearest 1 = 1 := by
  apply roundNearest_of_int 1 (2 ^ 23)
  rw [abs_one, Int.log_one_right]
  norm_num

/-- The conversion `(float)n` is exact up to `2^24`. -/
theorem roundNearest_natCast (n : Nat) (hn : n ≤ 2 ^ 24) : roundNearest (n : ℚ) = (n : ℚ) := by
  rcases Nat.eq_zero_or_pos n with h0 | hpos
  · subst h0
    simpa using roundNearest_zero
  have hx0 : (0 : ℚ) < (n : ℚ) := by exact_mod_cast hpos
  have habs : |(n : ℚ)| = (n : ℚ) := abs_of_pos hx0
  have hlo : 0 ≤ Int.log 2 (n : ℚ) := by
    by_contra h
    have h2 : Int.log 2 (n : ℚ) < 0 := by omega
    rw [← Int.lt_zpow_iff_log_lt (by norm_num) hx0] at h2
    have : (1 : ℚ) ≤ (n : ℚ) := by exact_mod_cast hpos
    simp at h2
    linarith
  have hhi : Int.log 2 (n : ℚ) < 25 := by
    rw [← Int.lt_zpow_iff_log_lt (by norm_num) hx0]
    have : (n : ℚ) ≤ 2 ^ 24 := by exact_mod_cast hn
    norm_num at this ⊢
    linarith
  rcases Int.lt_or_le (Int.log 2 (n : ℚ)) 24 with hlt | hge
  · obtain ⟨j, hj⟩ : ∃ j : Nat, (j : ℤ) = 23 - Int.log 2 (n : ℚ) :=
      ⟨(23 - Int.log 2 (n : ℚ)).toNat, Int.toNat_of_nonneg (by omega)⟩
    apply roundNearest_of_int _ ((n : ℤ) * 2 ^ j)
    have he : Int.log 2 (n : ℚ) - 23 = -(j : ℤ) := by omega
    rw [habs, he, zpow_neg, zpow_natCast]
    push_cast
    field_simp
  · have h24 : Int.log 2 (n : ℚ) = 24 := by omega
    have hle := Int.zpow_log_le_self (b := 2) (r := (n : ℚ)) (by norm_num) hx0
    rw [h24] at hle
    have hn2 : (2 ^ 24 : ℚ) ≤ (n : ℚ) := by
      have h2 : ((2 : ℕ) : ℚ) ^ (24 : ℤ) = 2 ^ 24 := by norm_num
      rw [h2] at hle
      exact hle
    have hn3 : 2 ^ 24 ≤ n := by exact_mod_cast hn2
    have hn4 : n = 2 ^ 24 := by omega
    apply roundNearest_of_int _ (2 ^ 23)
    rw [habs, h24, hn4]
    norm_num

end ARAP

/-! ## C17: the constraint targets -/

namespace ARAP

section Constraints

variable {F : Type}

theorem constrain_length [Add F] [Sub F] [Mul F] [NatCast F] (m : SimpleMesh F) (alpha : F)
    (h : List (Float3 F)) (c : Nat × List F) : (constrain m alpha h c).length = h.length := by
  unfold constrain
  split <;> simp

theorem foldl_constrain_length [Add F] [Sub F] [Mul F] [NatCast F] (m : SimpleMesh F)
    (alpha : F) (l : List (Nat × List F)) (h : List (Float3 F)) :
    (l.foldl (constrain m alpha) h).length = h.length := by
  induction l generalizing h with
  | nil => rfl
  | cons c rest ih => rw [List.foldl_cons, ih, constrain_length]

theorem foldl_constrain_untouched [Add F] [Sub F] [Mul F] [NatCast F] (m : SimpleMesh F)
    (alpha : F) (l : List (Nat × List F)) (h : List (Float3 F)) (v : Nat)
    (hv : v ∉ l.map Prod.fst) : (l.foldl (constrain m alpha) h)[v]? = h[v]? := by
  induction l generalizing h with
  | nil => rfl
  | cons c rest ih =>
    simp only [List.map_cons, List.mem_cons, not_or] at hv
    rw [List.foldl_cons, ih _ hv.2]
    unfold constrain
    split
    · exact List.getElem?_set_ne (Ne.symm hv.1)
    · rfl

theorem foldl_constrain_written [Add F] [Sub F] [Mul F] [NatCast F] (m : SimpleMesh F)
    (alpha : F) (l : List (Nat × List F)) (hnd : (l.map Prod.fst).Nodup) (h : List (Float3 F))
    (k i : Nat) (t0 t1 t2 : F) (rest : List F) (pt : Float3 F)
    (hk : l[k]? = some (i, t0 :: t1 :: t2 :: rest))
    (hpt : m.points[i]? = some pt) (hi : i < h.length) :
    (l.foldl (constrain m alpha) h)[i]? =
      some (blend alpha pt { x := t0, y := t1, z := t2 }) := by
  induction l generalizing h k with
  | nil => simp at hk
  | cons c tail ih =>
    simp only [List.map_cons, List.nodup_cons] at hnd
    rw [List.foldl_cons]
    cases k with
    | zero =>
      simp only [List.getElem?_cons_zero, Option.some.injEq] at hk
      subst hk
      rw [foldl_constrain_untouched m alpha tail _ i hnd.1]
      simp only [constrain, hpt, vec3Of]
      exact List.getElem?_set_eq_of_lt _ hi
    | succ k =>
      simp only [List.getElem?_cons_succ] at hk
      exact ih hnd.2 _ k hk (by rw [constrain_length]; exact hi)

theorem map_fst_zip_sublist {α β : Type} (l1 : List α) (l2 : List β) :
    List.Sublist ((l1.zip l2).map Prod.fst) l1 := by
  induction l1 generalizing l2 with
  | nil => simp
  | cons a as ih =>
    cases l2 with
    | nil => simp
    | cons b bs =>
      simp only [List.zip_cons_cons, List.map_cons]
      exact (ih bs).cons₂ a

/-- In single precision, on values that are floats, the expression of `setConstraints`
gives the target for `alpha = 1` and the current position for `alpha = 0`. -/
theorem blend_one_zero (pt target : Float3 Single) (hpt : IsFloat3 pt)
    (ht : IsFloat3 target) :
    blend ((1 : Nat) : Single) pt target = target ∧
      blend ((0 : Nat) : Single) pt target = pt := by
  obtain ⟨⟨px⟩, ⟨py⟩, ⟨pz⟩⟩ := pt
  obtain ⟨⟨tx⟩, ⟨ty⟩, ⟨tz⟩⟩ := target
  obtain ⟨hpx, hpy, hpz⟩ := hpt
  obtain ⟨htx, hty, htz⟩ := ht
  simp only at hpx hpy hpz htx hty htz
  have c1 : ((1 : Nat) : Single) = { toRat := 1 } := by
    show Single.mk (roundNearest ((1 : Nat) : ℚ)) = _
    rw [roundNearest_natCast 1 (by decide)]
    simp
  have c0 : ((0 : Nat) : Single) = { toRat := 0 } := by
    show Single.mk (roundNearest ((0 : Nat) : ℚ)) = _
    rw [roundNearest_natCast 0 (by decide)]
    simp
  have hsub : ∀ a b : ℚ, (Single.mk a) - Single.mk b = Single.mk (roundNearest (a - b)) :=
    fun _ _ => rfl
  have hmul : ∀ a b : ℚ, (Single.mk a) * Single.mk b = Single.mk (roundNearest (a * b)) :=
    fun _ _ => rfl
  have hadd : ∀ a b : ℚ, (Single.mk a) + Single.mk b = Single.mk (roundNearest (a + b)) :=
    fun _ _ => rfl
  constructor
  · simp only [blend, c1, hsub, hmul, hadd, sub_self, roundNearest_zero, zero_mul, one_mul,
      zero_add, htx, hty, htz]
  · simp only [blend, c1, c0, hsub, hmul, hadd, sub_zero, roundNearest_one, zero_mul, one_mul,
      add_zero, roundNearest_zero, hpx, hpy, hpz]

end Constraints

/-- C17. For every `alpha` and every solver whose constraint indices are distinct:
`setConstraints` uploads one value for each vertex of the mesh; for the `k`-th constraint,
with vertex `i`, current position `pt` and a target that starts with `t0, t1, t2`, the
value at vertex `i` is `(1 - alpha) * pt + alpha * (t0, t1, t2)` (componentwise), and for
every vertex below the vertex count that no constraint names it is the sentinel
`(-infinity, -infinity, -infinity)`. For `alpha = 1` the uploaded expression is the target
itself and for `alpha = 0` the current position, both in single precision on finite
floats (every operation rounded to nearest) and in exact arithmetic (a commutative
ring). -/
theorem setConstraints_uploads_blend_or_sentinel {F R : Type} [Add F] [Sub F] [Mul F] [Neg F]
    [NatCast F] [CommRing R] (infinity alpha : F) (s : CombinedSolver F)
    (hnd : s.m_constraintsIdx.Nodup) :
    (setConstraints infinity alpha s).d_vertexPosTargetFloat3.length = s.m_result.n_vertices ∧
      (∀ (k i : Nat) (t0 t1 t2 : F) (rest : List F) (pt : Float3 F),
        s.m_constraintsIdx[k]? = some i →
        s.m_constraintsTarget[k]? = some (t0 :: t1 :: t2 :: rest) →
        s.m_result.points[i]? = some pt →
        (setConstraints infinity alpha s).d_vertexPosTargetFloat3[i]? =
          some (blend alpha pt { x := t0, y := t1, z := t2 })) ∧
      (∀ v, v < s.m_result.n_vertices → v ∉ s.m_constraintsIdx →
        (setConstraints infinity alpha s).d_vertexPosTargetFloat3[v]? =
          some { x := -infinity, y := -infinity, z := -infinity }) ∧
      (∀ pt target : Float3 Single, IsFloat3 pt → IsFloat3 target →
        blend ((1 : Nat) : Single) pt target = target ∧
          blend ((0 : Nat) : Single) pt target = pt) ∧
      (∀ pt target : Float3 R,
        blend (1 : R) pt target = target ∧ blend (0 : R) pt target = pt) := by
  have hsub := map_fst_zip_sublist s.m_constraintsIdx s.m_constraintsTarget
  have hmem : (setConstraints infinity alpha s).d_vertexPosTargetFloat3 =
      (s.m_constraintsIdx.zip s.m_constraintsTarget).foldl (constrain s.m_result alpha)
        (List.replicate s.m_result.n_vertices
          { x := -infinity, y := -infinity, z := -infinity }) := by
    unfold setConstraints cudaMemcpy
    exact List.take_of_length_le (by rw [foldl_constrain_length]; simp)
  refine ⟨?_, ?_, ?_, fun pt target hpt ht => blend_one_zero pt target hpt ht, ?_⟩
  · rw [hmem, foldl_constrain_length, List.length_replicate]
  · intro k i t0 t1 t2 rest pt hi htl hpt
    rw [hmem]
    apply foldl_constrain_written s.m_result alpha _ (hnd.sublist hsub) _ k i t0 t1 t2 rest pt
      _ hpt
    · have : i < s.m_result.points.length := by
        by_contra hge
        rw [List.getElem?_eq_none (by omega)] at hpt
        simp at hpt
      simpa [SimpleMesh.n_vertices] using this
    · rw [List.getElem?_zip_eq_some]
      exact ⟨hi, htl⟩
  · intro v hv hnot
    rw [hmem, foldl_constrain_untouched _ _ _ _ v (fun h => hnot (hsub.subset h))]
    exact List.getElem?_replicate_of_lt hv
  · intro pt target
    constructor <;> simp [blend]

/-- Witness of `setConstraints_uploads_blend_or_sentinel`: the used solver on the square
with `alpha = 2`. Vertex 2, at `(8, 8, 8)`, is the first constraint, with target
`(5, 6, 7)`: the uploaded value is `(1 - 2) * 8 + 2 * (5, 6, 7) = (2, 4, 6)`. Vertex 1 is
unconstrained. -/
theorem setConstraints_uploads_blend_or_sentinel_witness :
    usedSolver.m_constraintsIdx.Nodup ∧
      (setConstraints 1000 2 usedSolver).d_vertexPosTargetFloat3[2]? =
        some { x := 2, y := 4, z := 6 } ∧
      (setConstraints 1000 2 usedSolver).d_vertexPosTargetFloat3[1]? =
        some { x := -1000, y := -1000, z := -1000 } :=
  ⟨by decide,
    ((setConstraints_uploads_blend_or_sentinel (R := Int) 1000 2 usedSolver (by decide)).2.1
      0 2 5 6 7 [] { x := 8, y := 8, z := 8 } rfl rfl rfl).trans (by decide),
    (setConstraints_uploads_blend_or_sentinel (R := Int) 1000 2 usedSolver (by decide)).2.2.1
      1 (by decide) (by decide)⟩

end ARAP

/-! ## C18: the interpolation factors -/

namespace ARAP

section Factors

variable {F : Type}

end Factors

end ARAP

namespace ARAP

section Precision

end Precision

section Collision

end Collision

end ARAP
